import Mathlib

/-
  Verification development for the XPBD/IK solver core of the hotham repository
  (examples/simple-scene/src/inverse_kinematics.rs and xpbd_substep.rs).

  The embedding translates the glam linear-algebra primitives used by the code
  (Vec3A, Quat, Mat3A, Affine3A) into structures over the real numbers, and the
  solver tick into pure state-passing functions.  Division follows Lean's
  convention that x / 0 = 0; every place where the source can divide by zero is
  flagged in the theorems about the corresponding definitions.
-/

namespace Hotham

noncomputable section

/-- 3-component vector, mirror of glam Vec3A. -/
structure Vec3A where
  x : ℝ
  y : ℝ
  z : ℝ

namespace Vec3A

def add (a b : Vec3A) : Vec3A := ⟨a.x + b.x, a.y + b.y, a.z + b.z⟩

def sub (a b : Vec3A) : Vec3A := ⟨a.x - b.x, a.y - b.y, a.z - b.z⟩

def neg (a : Vec3A) : Vec3A := ⟨-a.x, -a.y, -a.z⟩

/-- Componentwise product (glam Mul for Vec3A * Vec3A). -/
def cmul (a b : Vec3A) : Vec3A := ⟨a.x * b.x, a.y * b.y, a.z * b.z⟩

/-- Componentwise quotient (glam Div for Vec3A / Vec3A). -/
def cdiv (a b : Vec3A) : Vec3A := ⟨a.x / b.x, a.y / b.y, a.z / b.z⟩

/-- Scalar multiple (glam Vec3A * f32). -/
def smul (a : Vec3A) (s : ℝ) : Vec3A := ⟨a.x * s, a.y * s, a.z * s⟩

def dot (a b : Vec3A) : ℝ := a.x * b.x + a.y * b.y + a.z * b.z

def cross (a b : Vec3A) : Vec3A :=
  ⟨a.y * b.z - a.z * b.y, a.z * b.x - a.x * b.z, a.x * b.y - a.y * b.x⟩

def lengthSquared (a : Vec3A) : ℝ := dot a a

def length (a : Vec3A) : ℝ := Real.sqrt (lengthSquared a)

/-- glam normalize: self * self.length().recip(). -/
def normalize (a : Vec3A) : Vec3A := smul a (length a)⁻¹

def zero : Vec3A := ⟨0, 0, 0⟩

def unitY : Vec3A := ⟨0, 1, 0⟩

theorem eq_iff_comps {a b : Vec3A} : a = b ↔ a.x = b.x ∧ a.y = b.y ∧ a.z = b.z := by
  constructor
  · intro h; subst h; exact ⟨rfl, rfl, rfl⟩
  · rintro ⟨hx, hy, hz⟩
    cases a; cases b
    simp only at hx hy hz
    simp [hx, hy, hz]

end Vec3A

/-- Quaternion, mirror of glam Quat, stored as (x, y, z, w). -/
structure Quat where
  x : ℝ
  y : ℝ
  z : ℝ
  w : ℝ

namespace Quat

/-- Hamilton product, mirror of glam Mul for Quat * Quat. -/
def qmul (a b : Quat) : Quat :=
  ⟨a.w * b.x + a.x * b.w + a.y * b.z - a.z * b.y,
   a.w * b.y - a.x * b.z + a.y * b.w + a.z * b.x,
   a.w * b.z + a.x * b.y - a.y * b.x + a.z * b.w,
   a.w * b.w - a.x * b.x - a.y * b.y - a.z * b.z⟩

def normSq (q : Quat) : ℝ := q.x * q.x + q.y * q.y + q.z * q.z + q.w * q.w

def length (q : Quat) : ℝ := Real.sqrt (normSq q)

/-- glam normalize: from_vec4(Vec4::from(self) * length.recip()). -/
def normalize (q : Quat) : Quat :=
  ⟨q.x * (length q)⁻¹, q.y * (length q)⁻¹, q.z * (length q)⁻¹, q.w * (length q)⁻¹⟩

/-- glam Quat::mul_vec3a: rotate a vector.  For a unit quaternion this is the
rotation it represents. -/
def rotate (q : Quat) (v : Vec3A) : Vec3A :=
  let b : Vec3A := ⟨q.x, q.y, q.z⟩
  let b2 : ℝ := Vec3A.dot b b
  Vec3A.add
    (Vec3A.add (Vec3A.smul v (q.w * q.w - b2)) (Vec3A.smul b (Vec3A.dot v b * 2)))
    (Vec3A.smul (Vec3A.cross b v) (q.w * 2))

/-- Quat::from_vec4(omega.extend(0.0)). -/
def ofVec (v : Vec3A) : Quat := ⟨v.x, v.y, v.z, 0⟩

def identity : Quat := ⟨0, 0, 0, 1⟩

theorem eq_iff_coords {a b : Quat} :
    a = b ↔ a.x = b.x ∧ a.y = b.y ∧ a.z = b.z ∧ a.w = b.w := by
  constructor
  · intro h; subst h; exact ⟨rfl, rfl, rfl, rfl⟩
  · rintro ⟨hx, hy, hz, hw⟩
    cases a; cases b
    simp only at hx hy hz hw
    simp [hx, hy, hz, hw]

end Quat

/-- 3x3 matrix as three column vectors, mirror of glam Mat3A. -/
structure Mat3A where
  xAxis : Vec3A
  yAxis : Vec3A
  zAxis : Vec3A

namespace Mat3A

def mulVec (m : Mat3A) (v : Vec3A) : Vec3A :=
  Vec3A.add (Vec3A.add (Vec3A.smul m.xAxis v.x) (Vec3A.smul m.yAxis v.y))
    (Vec3A.smul m.zAxis v.z)

def mulMat (a b : Mat3A) : Mat3A :=
  ⟨mulVec a b.xAxis, mulVec a b.yAxis, mulVec a b.zAxis⟩

def transpose (m : Mat3A) : Mat3A :=
  ⟨⟨m.xAxis.x, m.yAxis.x, m.zAxis.x⟩,
   ⟨m.xAxis.y, m.yAxis.y, m.zAxis.y⟩,
   ⟨m.xAxis.z, m.yAxis.z, m.zAxis.z⟩⟩

def determinant (m : Mat3A) : ℝ :=
  Vec3A.dot m.zAxis (Vec3A.cross m.xAxis m.yAxis)

/-- glam Mat3A::inverse via cross products and the determinant reciprocal. -/
def inverse (m : Mat3A) : Mat3A :=
  let tmp0 := Vec3A.cross m.yAxis m.zAxis
  let tmp1 := Vec3A.cross m.zAxis m.xAxis
  let tmp2 := Vec3A.cross m.xAxis m.yAxis
  let det := Vec3A.dot m.zAxis tmp2
  let invDet := det⁻¹
  transpose ⟨Vec3A.smul tmp0 invDet, Vec3A.smul tmp1 invDet, Vec3A.smul tmp2 invDet⟩

def identity : Mat3A := ⟨⟨1, 0, 0⟩, ⟨0, 1, 0⟩, ⟨0, 0, 1⟩⟩

end Mat3A

/-- Affine transform (3x3 linear part plus translation), mirror of glam Affine3A. -/
structure Affine3A where
  matrix3 : Mat3A
  translation : Vec3A

namespace Affine3A

def fromTranslation (t : Vec3A) : Affine3A := ⟨Mat3A.identity, t⟩

/-- glam Affine3A * Affine3A. -/
def mul (a b : Affine3A) : Affine3A :=
  ⟨Mat3A.mulMat a.matrix3 b.matrix3,
   Vec3A.add (Mat3A.mulVec a.matrix3 b.translation) a.translation⟩

/-- glam Affine3A::inverse. -/
def inverse (a : Affine3A) : Affine3A :=
  let m := Mat3A.inverse a.matrix3
  ⟨m, Vec3A.neg (Mat3A.mulVec m a.translation)⟩

def identityA : Affine3A := ⟨Mat3A.identity, Vec3A.zero⟩

end Affine3A

/-- Rust f32::signum restricted to non-NaN inputs: 1 for non-negative, -1 for
negative. -/
def signum (x : ℝ) : ℝ := if 0 ≤ x then 1 else -1

/-- Rust f32::clamp(min, max). -/
def clamp (x lo hi : ℝ) : ℝ := if x < lo then lo else if x > hi then hi else x

/-- glam Quat::from_rotation_axes, the branchy matrix-to-quaternion conversion
used by to_scale_rotation_translation. -/
def Quat.fromRotationAxes (xAxis yAxis zAxis : Vec3A) : Quat :=
  let m00 := xAxis.x
  let m01 := xAxis.y
  let m02 := xAxis.z
  let m10 := yAxis.x
  let m11 := yAxis.y
  let m12 := yAxis.z
  let m20 := zAxis.x
  let m21 := zAxis.y
  let m22 := zAxis.z
  if m22 ≤ 0 then
    let dif10 := m11 - m00
    let omm22 := 1 - m22
    if dif10 ≤ 0 then
      let fourXsq := omm22 - dif10
      let inv4x := (1 / 2) / Real.sqrt fourXsq
      ⟨fourXsq * inv4x, (m01 + m10) * inv4x, (m02 + m20) * inv4x, (m12 - m21) * inv4x⟩
    else
      let fourYsq := omm22 + dif10
      let inv4y := (1 / 2) / Real.sqrt fourYsq
      ⟨(m01 + m10) * inv4y, fourYsq * inv4y, (m12 + m21) * inv4y, (m02 - m20) * inv4y⟩
  else
    let sum10 := m11 + m00
    let opm22 := 1 + m22
    if sum10 ≤ 0 then
      let fourZsq := opm22 - sum10
      let inv4z := (1 / 2) / Real.sqrt fourZsq
      ⟨(m02 + m20) * inv4z, (m12 + m21) * inv4z, fourZsq * inv4z, (m01 - m10) * inv4z⟩
    else
      let fourWsq := opm22 + sum10
      let inv4w := (1 / 2) / Real.sqrt fourWsq
      ⟨(m12 - m21) * inv4w, (m02 - m20) * inv4w, (m01 - m10) * inv4w, fourWsq * inv4w⟩

/-- glam Affine3A::to_scale_rotation_translation. -/
def Affine3A.toScaleRotationTranslation (a : Affine3A) : Vec3A × Quat × Vec3A :=
  let det := Mat3A.determinant a.matrix3
  let scale : Vec3A :=
    ⟨Vec3A.length a.matrix3.xAxis * signum det,
     Vec3A.length a.matrix3.yAxis,
     Vec3A.length a.matrix3.zAxis⟩
  let rotation := Quat.fromRotationAxes
    (Vec3A.smul a.matrix3.xAxis scale.x⁻¹)
    (Vec3A.smul a.matrix3.yAxis scale.y⁻¹)
    (Vec3A.smul a.matrix3.zAxis scale.z⁻¹)
  (scale, rotation, a.translation)

/-- to_pos_rot from inverse_kinematics.rs. -/
def to_pos_rot (transform : Affine3A) : Vec3A × Quat :=
  let srt := Affine3A.toScaleRotationTranslation transform
  (srt.2.2, srt.2.1)

/-- The closed enumeration of skeletal landmarks (IkNodeID in the source). -/
inductive IkNodeID where
  | Hmd | HeadCenter | NeckRoot | Torso | Pelvis | Base | BalancePoint
  | LeftAim | LeftGrip | LeftPalm | LeftWrist | LeftLowerArm | LeftUpperArm
  | LeftUpperLeg | LeftLowerLeg | LeftFoot
  | RightAim | RightGrip | RightPalm | RightWrist | RightLowerArm | RightUpperArm
  | RightUpperLeg | RightLowerLeg | RightFoot
deriving DecidableEq, Repr, Fintype

inductive WeightDistribution where
  | LeftPlanted
  | RightPlanted
  | SharedWeight
deriving DecidableEq, Repr

/-- IkState from the source; the two node arrays are modelled as functions from
the landmark enumeration. -/
structure IkState where
  left_foot_in_stage : Option Affine3A
  right_foot_in_stage : Option Affine3A
  weight_distribution : WeightDistribution
  node_positions : IkNodeID → Vec3A
  node_rotations : IkNodeID → Quat

/-- Default IkState (Rust Default: options absent, SharedWeight, zero positions,
identity quaternions). -/
def IkState.default : IkState :=
  ⟨none, none, WeightDistribution.SharedWeight, fun _ => Vec3A.zero, fun _ => Quat.identity⟩

structure SphericalConstraint where
  node_a : IkNodeID
  node_b : IkNodeID
  point_in_a : Vec3A
  point_in_b : Vec3A

structure DistanceConstraint where
  node_a : IkNodeID
  node_b : IkNodeID
  point_in_a : Vec3A
  point_in_b : Vec3A
  distance : ℝ

/-- External tracking inputs of one tick, all rigid transforms in stage space. -/
structure IkInputs where
  hmd_in_stage : Affine3A
  left_grip_in_stage : Affine3A
  left_aim_in_stage : Affine3A
  right_grip_in_stage : Affine3A
  right_aim_in_stage : Affine3A

section Constants

def head_center_in_hmd : Affine3A := Affine3A.fromTranslation ⟨0, 0, 1/10⟩

def neck_root_in_head_center : Affine3A := Affine3A.fromTranslation ⟨0, -(1/10), 0⟩

def left_wrist_in_palm : Affine3A :=
  Affine3A.fromTranslation ⟨-(15/1000), -(1/100), 65/1000⟩

def right_wrist_in_palm : Affine3A :=
  Affine3A.fromTranslation (Vec3A.cmul left_wrist_in_palm.translation ⟨-1, 1, 1⟩)

def lower_arm_length : ℝ := 28/100
def upper_arm_length : ℝ := 28/100
def collarbone_length : ℝ := 17/100
def shoulder_width : ℝ := 40/100
def sternum_width : ℝ := 6/100
def hip_width : ℝ := 26/100
def sternum_height_in_torso : ℝ := 20/100
def neck_root_height_in_torso : ℝ := 22/100
def lower_back_height_in_torso : ℝ := -(20/100)
def lower_back_height_in_pelvis : ℝ := 10/100
def hip_height_in_pelvis : ℝ := -(7/100)
def upper_leg_length : ℝ := 40/100
def lower_leg_length : ℝ := 40/100
def ankle_height : ℝ := 10/100

def wrist_in_lower_arm : Vec3A := ⟨0, 0, -(lower_arm_length / 2)⟩
def elbow_in_lower_arm : Vec3A := ⟨0, 0, lower_arm_length / 2⟩
def elbow_in_upper_arm : Vec3A := ⟨0, 0, -(upper_arm_length / 2)⟩
def shoulder_in_upper_arm : Vec3A := ⟨0, 0, upper_arm_length / 2⟩
def left_shoulder_in_torso : Vec3A := ⟨-(shoulder_width / 2), sternum_height_in_torso, 0⟩
def right_shoulder_in_torso : Vec3A := ⟨shoulder_width / 2, sternum_height_in_torso, 0⟩
def left_sc_joint_in_torso : Vec3A := ⟨-(sternum_width / 2), sternum_height_in_torso, 0⟩
def right_sc_joint_in_torso : Vec3A := ⟨sternum_width / 2, sternum_height_in_torso, 0⟩
def neck_root_in_torso : Vec3A := ⟨0, neck_root_height_in_torso, 0⟩
def lower_back_in_torso : Vec3A := ⟨0, lower_back_height_in_torso, 0⟩
def lower_back_in_pelvis : Vec3A := ⟨0, lower_back_height_in_pelvis, 0⟩
def left_hip_in_pelvis : Vec3A := ⟨-(hip_width / 2), hip_height_in_pelvis, 0⟩
def right_hip_in_pelvis : Vec3A := ⟨hip_width / 2, hip_height_in_pelvis, 0⟩
def hip_in_upper_leg : Vec3A := ⟨0, upper_leg_length / 2, 0⟩
def knee_in_upper_leg : Vec3A := ⟨0, -(upper_leg_length / 2), 0⟩
def knee_in_lower_leg : Vec3A := ⟨0, lower_leg_length / 2, 0⟩
def ankle_in_lower_leg : Vec3A := ⟨0, -(lower_leg_length / 2), 0⟩
def ankle_in_foot : Vec3A := ⟨0, ankle_height, 0⟩

def foot_radius : ℝ := 1/10
def step_multiplier : ℝ := 3
def step_size : ℝ := foot_radius * (step_multiplier + 1)
def stagger_threshold : ℝ := foot_radius * 2

/-- The fixed iteration count of the solver loop. -/
def num_iterations : ℕ := 10

end Constants

def spherical_constraints : List SphericalConstraint :=
  [ { node_a := IkNodeID.LeftPalm, node_b := IkNodeID.LeftLowerArm,
      point_in_a := left_wrist_in_palm.translation, point_in_b := wrist_in_lower_arm },
    { node_a := IkNodeID.RightPalm, node_b := IkNodeID.RightLowerArm,
      point_in_a := right_wrist_in_palm.translation, point_in_b := wrist_in_lower_arm },
    { node_a := IkNodeID.LeftLowerArm, node_b := IkNodeID.LeftUpperArm,
      point_in_a := elbow_in_lower_arm, point_in_b := elbow_in_upper_arm },
    { node_a := IkNodeID.RightLowerArm, node_b := IkNodeID.RightUpperArm,
      point_in_a := elbow_in_lower_arm, point_in_b := elbow_in_upper_arm },
    { node_a := IkNodeID.HeadCenter, node_b := IkNodeID.Torso,
      point_in_a := neck_root_in_head_center.translation, point_in_b := neck_root_in_torso },
    { node_a := IkNodeID.Torso, node_b := IkNodeID.Pelvis,
      point_in_a := lower_back_in_torso, point_in_b := lower_back_in_pelvis },
    { node_a := IkNodeID.Pelvis, node_b := IkNodeID.LeftUpperLeg,
      point_in_a := left_hip_in_pelvis, point_in_b := hip_in_upper_leg },
    { node_a := IkNodeID.Pelvis, node_b := IkNodeID.RightUpperLeg,
      point_in_a := right_hip_in_pelvis, point_in_b := hip_in_upper_leg },
    { node_a := IkNodeID.LeftUpperLeg, node_b := IkNodeID.LeftLowerLeg,
      point_in_a := knee_in_upper_leg, point_in_b := knee_in_lower_leg },
    { node_a := IkNodeID.RightUpperLeg, node_b := IkNodeID.RightLowerLeg,
      point_in_a := knee_in_upper_leg, point_in_b := knee_in_lower_leg },
    { node_a := IkNodeID.LeftLowerLeg, node_b := IkNodeID.LeftFoot,
      point_in_a := ankle_in_lower_leg, point_in_b := ankle_in_foot },
    { node_a := IkNodeID.RightLowerLeg, node_b := IkNodeID.RightFoot,
      point_in_a := ankle_in_lower_leg, point_in_b := ankle_in_foot } ]

def distance_constraints : List DistanceConstraint :=
  [ { node_a := IkNodeID.LeftUpperArm, node_b := IkNodeID.Torso,
      point_in_a := shoulder_in_upper_arm, point_in_b := left_sc_joint_in_torso,
      distance := collarbone_length },
    { node_a := IkNodeID.RightUpperArm, node_b := IkNodeID.Torso,
      point_in_a := shoulder_in_upper_arm, point_in_b := right_sc_joint_in_torso,
      distance := collarbone_length } ]

section DriverResolver

def head_center_in_stage (i : IkInputs) : Affine3A :=
  Affine3A.mul i.hmd_in_stage head_center_in_hmd

def neck_root_in_stage (i : IkInputs) : Affine3A :=
  Affine3A.mul (head_center_in_stage i) neck_root_in_head_center

/-- The horizontal base frame: neck root with its height zeroed and its axes
re-orthonormalized around the exactly vertical up direction. -/
def base_in_stage (i : IkInputs) : Affine3A :=
  let nr := neck_root_in_stage i
  let t := nr.translation
  let xDir := Vec3A.normalize ⟨nr.matrix3.xAxis.x, 0, nr.matrix3.xAxis.z⟩
  { matrix3 := ⟨xDir, Vec3A.unitY, Vec3A.cross xDir Vec3A.unitY⟩,
    translation := ⟨t.x, 0, t.z⟩ }

def left_palm_in_stage (i : IkInputs) : Affine3A :=
  { matrix3 := i.left_aim_in_stage.matrix3, translation := i.left_grip_in_stage.translation }

def right_palm_in_stage (i : IkInputs) : Affine3A :=
  { matrix3 := i.right_aim_in_stage.matrix3, translation := i.right_grip_in_stage.translation }

def left_wrist_in_stage (i : IkInputs) : Affine3A :=
  Affine3A.mul (left_palm_in_stage i) left_wrist_in_palm

def right_wrist_in_stage (i : IkInputs) : Affine3A :=
  Affine3A.mul (right_palm_in_stage i) right_wrist_in_palm

end DriverResolver

section Locomotion

/-- The current left foot transform: previous tick's target if present,
otherwise the default stance offset from the base frame. -/
def left_foot_current (i : IkInputs) (s : IkState) : Affine3A :=
  s.left_foot_in_stage.getD
    (Affine3A.mul (base_in_stage i) (Affine3A.fromTranslation ⟨-(2/10), 0, 0⟩))

def right_foot_current (i : IkInputs) (s : IkState) : Affine3A :=
  s.right_foot_in_stage.getD
    (Affine3A.mul (base_in_stage i) (Affine3A.fromTranslation ⟨2/10, 0, 0⟩))

def left_foot_in_base (i : IkInputs) (s : IkState) : Affine3A :=
  Affine3A.mul (Affine3A.inverse (base_in_stage i)) (left_foot_current i s)

def right_foot_in_base (i : IkInputs) (s : IkState) : Affine3A :=
  Affine3A.mul (Affine3A.inverse (base_in_stage i)) (right_foot_current i s)

/-- Weight-distribution classification: the match on the two foot-near-origin
tests in the source. -/
def newWeightDistribution (i : IkInputs) (s : IkState) : WeightDistribution :=
  if Vec3A.length (left_foot_in_base i s).translation < foot_radius then
    if Vec3A.length (right_foot_in_base i s).translation < foot_radius then
      s.weight_distribution
    else
      WeightDistribution.LeftPlanted
  else
    if Vec3A.length (right_foot_in_base i s).translation < foot_radius then
      WeightDistribution.RightPlanted
    else
      WeightDistribution.SharedWeight

/-- The balance point: closest point to the base origin on the segment between
the two base-relative foot positions. -/
def balance_point_in_base (i : IkInputs) (s : IkState) : Vec3A :=
  let a := (left_foot_in_base i s).translation
  let b := (right_foot_in_base i s).translation
  let c := Vec3A.zero
  let v := Vec3A.sub b a
  let t := Vec3A.dot (Vec3A.sub c a) v / Vec3A.dot v v
  Vec3A.add a (Vec3A.smul v (clamp t 0 1))

/-- The new foot targets decided by the weight-distribution match
(left target, right target). -/
def footTargets (i : IkInputs) (s : IkState) : Option Affine3A × Option Affine3A :=
  let lfs := left_foot_current i s
  let rfs := right_foot_current i s
  let lfb := left_foot_in_base i s
  let rfb := right_foot_in_base i s
  match newWeightDistribution i s with
  | WeightDistribution.RightPlanted =>
      (some (Affine3A.mul (base_in_stage i) (Affine3A.fromTranslation
          ⟨-(step_multiplier * rfb.translation.x),
           -(step_multiplier * rfb.translation.y),
           -(step_multiplier * rfb.translation.z)⟩)),
       some rfs)
  | WeightDistribution.LeftPlanted =>
      (some lfs,
       some (Affine3A.mul (base_in_stage i) (Affine3A.fromTranslation
          ⟨-(step_multiplier * lfb.translation.x),
           -(step_multiplier * lfb.translation.y),
           -(step_multiplier * lfb.translation.z)⟩)))
  | WeightDistribution.SharedWeight =>
      if Vec3A.length (balance_point_in_base i s) > stagger_threshold then
        let v1 := Vec3A.sub (balance_point_in_base i s) lfb.translation
        let v2 := Vec3A.sub (balance_point_in_base i s) rfb.translation
        if Vec3A.lengthSquared v1 < Vec3A.lengthSquared v2 then
          let dir := Vec3A.neg (Vec3A.normalize lfb.translation)
          (some lfs,
           some (Affine3A.mul (base_in_stage i) (Affine3A.fromTranslation
              (Vec3A.add lfb.translation (Vec3A.smul dir step_size)))))
        else
          let dir := Vec3A.neg (Vec3A.normalize rfb.translation)
          (some (Affine3A.mul (base_in_stage i) (Affine3A.fromTranslation
              (Vec3A.add rfb.translation (Vec3A.smul dir step_size)))),
           some rfs)
      else
        (some lfs, some rfs)

end Locomotion

section Solver

/-- The mutable part of the solver state: the two landmark arrays. -/
structure Pose where
  pos : IkNodeID → Vec3A
  rot : IkNodeID → Quat

/-- The effective-weight triple computed from a rotated offset:
w = inv_mass + p.cross(n)ᵀ * inv_inertia * p.cross(n) in the source comment. -/
def leverWeight (r : Vec3A) : Vec3A :=
  let rs := Vec3A.cmul r r
  ⟨1 + rs.y + rs.z, 1 + rs.z + rs.x, 1 + rs.x + rs.y⟩

/-- q + s * (ofVec omega * q), the first-order quaternion update of the source,
followed by no normalization (the caller normalizes). -/
def quatStep (q : Quat) (omega : Vec3A) (s : ℝ) : Quat :=
  let d := Quat.qmul (Quat.ofVec omega) q
  ⟨q.x + s * d.x, q.y + s * d.y, q.z + s * d.z, q.w + s * d.w⟩

/-- Projection of one spherical constraint, translated line by line from the
solver's inner loop. -/
def sphericalProject (c : SphericalConstraint) (p : Pose) : Pose :=
  let r1 := Quat.rotate (p.rot c.node_a) c.point_in_a
  let r2 := Quat.rotate (p.rot c.node_b) c.point_in_b
  let w1 := leverWeight r1
  let w2 := leverWeight r2
  let p1 := Vec3A.add (p.pos c.node_a) r1
  let p2 := Vec3A.add (p.pos c.node_b) r2
  let cv := Vec3A.sub p1 p2
  let correction := Vec3A.cdiv (Vec3A.neg cv) (Vec3A.add w1 w2)
  let pos1 := Function.update p.pos c.node_a (Vec3A.add (p.pos c.node_a) correction)
  let pos2 := Function.update pos1 c.node_b (Vec3A.sub (pos1 c.node_b) correction)
  let q1 := p.rot c.node_a
  let rot1 := Function.update p.rot c.node_a
    (Quat.normalize (quatStep q1 (Vec3A.cross r1 correction) (1/2)))
  let q2 := rot1 c.node_b
  let rot2 := Function.update rot1 c.node_b
    (Quat.normalize (quatStep q2 (Vec3A.cross r2 correction) (-(1/2))))
  ⟨pos2, rot2⟩

/-- Projection of one distance constraint, translated line by line from the
solver's inner loop.  The division by v_length is exactly as in the source:
unguarded. -/
def distanceProject (c : DistanceConstraint) (p : Pose) : Pose :=
  let r1 := Quat.rotate (p.rot c.node_a) c.point_in_a
  let r2 := Quat.rotate (p.rot c.node_b) c.point_in_b
  let w1 := leverWeight r1
  let w2 := leverWeight r2
  let p1 := Vec3A.add (p.pos c.node_a) r1
  let p2 := Vec3A.add (p.pos c.node_b) r2
  let v := Vec3A.sub p1 p2
  let vLength := Vec3A.length v
  let cerr := vLength - c.distance
  let denom := Vec3A.smul (Vec3A.add w1 w2) vLength
  let correction := Vec3A.cmul ⟨-cerr / denom.x, -cerr / denom.y, -cerr / denom.z⟩ v
  let pos1 := Function.update p.pos c.node_a (Vec3A.add (p.pos c.node_a) correction)
  let pos2 := Function.update pos1 c.node_b (Vec3A.sub (pos1 c.node_b) correction)
  let q1 := p.rot c.node_a
  let rot1 := Function.update p.rot c.node_a
    (Quat.normalize (quatStep q1 (Vec3A.cross r1 correction) (1/2)))
  let q2 := rot1 c.node_b
  let rot2 := Function.update rot1 c.node_b
    (Quat.normalize (quatStep q2 (Vec3A.cross r2 correction) (-(1/2))))
  ⟨pos2, rot2⟩

/-- Overwriting the driven landmarks with their seeded transforms at the start
of an iteration. -/
def applySeeds (fixed : List (IkNodeID × Vec3A × Quat)) (p : Pose) : Pose :=
  fixed.foldl
    (fun q nd => ⟨Function.update q.pos nd.1 nd.2.1, Function.update q.rot nd.1 nd.2.2⟩) p

/-- One solver iteration: re-seed the driven landmarks, then project every
spherical constraint and then every distance constraint in declaration order. -/
def solveIteration (fixed : List (IkNodeID × Vec3A × Quat)) (p : Pose) : Pose :=
  distance_constraints.foldl (fun q c => distanceProject c q)
    (spherical_constraints.foldl (fun q c => sphericalProject c q) (applySeeds fixed p))

/-- The seeds of every driven landmark, in source order. -/
def fixed_nodes (i : IkInputs) (s : IkState) : List (IkNodeID × Vec3A × Quat) :=
  [ (IkNodeID.Hmd, to_pos_rot i.hmd_in_stage),
    (IkNodeID.HeadCenter, to_pos_rot (head_center_in_stage i)),
    (IkNodeID.NeckRoot, to_pos_rot (neck_root_in_stage i)),
    (IkNodeID.Base, to_pos_rot (base_in_stage i)),
    (IkNodeID.BalancePoint, to_pos_rot (Affine3A.mul (base_in_stage i)
        (Affine3A.fromTranslation (balance_point_in_base i s)))),
    (IkNodeID.LeftGrip, to_pos_rot i.left_grip_in_stage),
    (IkNodeID.LeftAim, to_pos_rot i.left_aim_in_stage),
    (IkNodeID.LeftPalm, to_pos_rot (left_palm_in_stage i)),
    (IkNodeID.LeftWrist, to_pos_rot (left_wrist_in_stage i)),
    (IkNodeID.RightGrip, to_pos_rot i.right_grip_in_stage),
    (IkNodeID.RightAim, to_pos_rot i.right_aim_in_stage),
    (IkNodeID.RightPalm, to_pos_rot (right_palm_in_stage i)),
    (IkNodeID.RightWrist, to_pos_rot (right_wrist_in_stage i)),
    (IkNodeID.LeftFoot, to_pos_rot (left_foot_current i s)),
    (IkNodeID.RightFoot, to_pos_rot (right_foot_current i s)) ]

/-- The full IK tick (inverse_kinematics_system in the source), minus the
engine-facing side effects (entity write-back, snapshot, telemetry): it returns
the updated IkState. -/
def inverse_kinematics_system (i : IkInputs) (s : IkState) : IkState :=
  let targets := footTargets i s
  let finalPose :=
    (solveIteration (fixed_nodes i s))^[num_iterations] ⟨s.node_positions, s.node_rotations⟩
  { left_foot_in_stage := targets.1,
    right_foot_in_stage := targets.2,
    weight_distribution := newWeightDistribution i s,
    node_positions := finalPose.pos,
    node_rotations := finalPose.rot }

end Solver

section Xpbd

/-- Division of a vector by a scalar (glam Div for Vec3A / f32). -/
def Vec3A.vdiv (v : Vec3A) (s : ℝ) : Vec3A := ⟨v.x / s, v.y / s, v.z / s⟩

/-- SimulationParams from xpbd_substep.rs. -/
structure SimulationParams where
  dt : ℝ
  acc : Vec3A
  particle_mass : ℝ
  shape_compliance : ℝ
  shape_damping : ℝ
  stiction_factor : ℝ

/-- The particle state advanced by the substep (points_curr and velocities of
the State struct; the shape-constraint store is owned by the external
collaborators). -/
structure XpbdState where
  points_curr : List Vec3A
  velocities : List Vec3A

/-- Velocity integration from external forces: vel += acc * dt. -/
def integrateVelocities (velocities : List Vec3A) (acc : Vec3A) (dt : ℝ) : List Vec3A :=
  velocities.map (fun v => Vec3A.add v (Vec3A.smul acc dt))

/-- Position prediction: curr + vel * dt. -/
def predictPositions (points : List Vec3A) (velocities : List Vec3A) (dt : ℝ) : List Vec3A :=
  (points.zip velocities).map (fun cv => Vec3A.add cv.1 (Vec3A.smul cv.2 dt))

/-- The velocity-update stage: (next - curr) / dt per particle. -/
def updatedVelocities (points_next points_curr : List Vec3A) (dt : ℝ) : List Vec3A :=
  (points_next.zip points_curr).map (fun nc => Vec3A.vdiv (Vec3A.sub nc.1 nc.2) dt)

/-- xpbd_substep, with the external shape-matching resolver, collision
resolver and damping pass as opaque collaborator parameters, each invoked with
the arguments the source passes. -/
def xpbd_substep
    (shapeResolve : ℝ → ℝ → ℝ → List Vec3A → List Vec3A)
    (collide : ℝ → List Vec3A → List Vec3A)
    (damping : List Vec3A → List Vec3A → ℝ → ℝ → List Vec3A)
    (params : SimulationParams) (s : XpbdState) : XpbdState :=
  let velocities1 := integrateVelocities s.velocities params.acc params.dt
  let points_next0 := predictPositions s.points_curr velocities1 params.dt
  let points_next1 :=
    shapeResolve params.shape_compliance params.particle_mass⁻¹ params.dt points_next0
  let points_next := collide params.stiction_factor points_next1
  let velocities2 := updatedVelocities points_next s.points_curr params.dt
  let velocities3 := damping points_next velocities2 params.shape_damping params.dt
  { points_curr := points_next, velocities := velocities3 }

end Xpbd

section AlgebraLemmas

theorem Vec3A.lengthSquared_nonneg (v : Vec3A) : 0 ≤ Vec3A.lengthSquared v := by
  simp only [Vec3A.lengthSquared, Vec3A.dot]
  nlinarith [mul_self_nonneg v.x, mul_self_nonneg v.y, mul_self_nonneg v.z]

theorem Quat.normSq_nonneg (q : Quat) : 0 ≤ Quat.normSq q := by
  simp only [Quat.normSq]
  nlinarith [mul_self_nonneg q.x, mul_self_nonneg q.y, mul_self_nonneg q.z,
    mul_self_nonneg q.w]

/-- The Euler four-square identity: the quaternion norm is multiplicative. -/
theorem Quat.normSq_qmul (a b : Quat) :
    Quat.normSq (Quat.qmul a b) = Quat.normSq a * Quat.normSq b := by
  simp only [Quat.qmul, Quat.normSq]
  ring

/-- Rotating a vector by a quaternion scales its squared length by the squared
quaternion norm (so unit quaternions preserve length). -/
theorem Vec3A.lengthSquared_rotate (q : Quat) (v : Vec3A) :
    Vec3A.lengthSquared (Quat.rotate q v) =
      Quat.normSq q ^ 2 * Vec3A.lengthSquared v := by
  simp only [Quat.rotate, Vec3A.lengthSquared, Vec3A.dot, Vec3A.add, Vec3A.smul,
    Vec3A.cross, Quat.normSq]
  ring

theorem Quat.normSq_normalize {q : Quat} (h : Quat.normSq q ≠ 0) :
    Quat.normSq (Quat.normalize q) = 1 := by
  have hs : 0 ≤ Quat.normSq q := Quat.normSq_nonneg q
  have hpos : 0 < Quat.normSq q := lt_of_le_of_ne hs (Ne.symm h)
  have hsqrt : Real.sqrt (Quat.normSq q) * Real.sqrt (Quat.normSq q) = Quat.normSq q :=
    Real.mul_self_sqrt hs
  have hinv : (Real.sqrt (Quat.normSq q))⁻¹ * (Real.sqrt (Quat.normSq q))⁻¹ =
      (Quat.normSq q)⁻¹ := by
    rw [← mul_inv, hsqrt]
  have expand : Quat.normSq (Quat.normalize q) =
      Quat.normSq q * ((Real.sqrt (Quat.normSq q))⁻¹ * (Real.sqrt (Quat.normSq q))⁻¹) := by
    simp only [Quat.normalize, Quat.normSq, Quat.length]
    ring
  rw [expand, hinv, mul_inv_cancel₀ h]

theorem Quat.normSq_quatStep (q : Quat) (omega : Vec3A) (s : ℝ) :
    Quat.normSq (quatStep q omega s) =
      (1 + s ^ 2 * Vec3A.lengthSquared omega) * Quat.normSq q := by
  simp only [quatStep, Quat.qmul, Quat.ofVec, Quat.normSq, Vec3A.lengthSquared,
    Vec3A.dot]
  ring

/-- The per-constraint quaternion update always renormalizes to an exactly unit
quaternion when the incoming quaternion is unit: the pre-normalization value
has norm 1 + s^2 |omega|^2 >= 1 > 0, so the division is never degenerate. -/
theorem Quat.normSq_normalize_quatStep {q : Quat} (hq : Quat.normSq q = 1)
    (omega : Vec3A) (s : ℝ) :
    Quat.normSq (Quat.normalize (quatStep q omega s)) = 1 := by
  apply Quat.normSq_normalize
  rw [Quat.normSq_quatStep, hq, mul_one]
  have h0 : 0 ≤ Vec3A.lengthSquared omega := Vec3A.lengthSquared_nonneg omega
  nlinarith [sq_nonneg s, mul_nonneg (sq_nonneg s) h0]

end AlgebraLemmas

section ProjectionLemmas

theorem sphericalProject_pos_untouched (c : SphericalConstraint) (p : Pose)
    {n : IkNodeID} (ha : n ≠ c.node_a) (hb : n ≠ c.node_b) :
    (sphericalProject c p).pos n = p.pos n := by
  simp only [sphericalProject]
  rw [Function.update_noteq hb, Function.update_noteq ha]

theorem sphericalProject_rot_untouched (c : SphericalConstraint) (p : Pose)
    {n : IkNodeID} (ha : n ≠ c.node_a) (hb : n ≠ c.node_b) :
    (sphericalProject c p).rot n = p.rot n := by
  simp only [sphericalProject]
  rw [Function.update_noteq hb, Function.update_noteq ha]

theorem distanceProject_pos_untouched (c : DistanceConstraint) (p : Pose)
    {n : IkNodeID} (ha : n ≠ c.node_a) (hb : n ≠ c.node_b) :
    (distanceProject c p).pos n = p.pos n := by
  simp only [distanceProject]
  rw [Function.update_noteq hb, Function.update_noteq ha]

theorem distanceProject_rot_untouched (c : DistanceConstraint) (p : Pose)
    {n : IkNodeID} (ha : n ≠ c.node_a) (hb : n ≠ c.node_b) :
    (distanceProject c p).rot n = p.rot n := by
  simp only [distanceProject]
  rw [Function.update_noteq hb, Function.update_noteq ha]

theorem sphericalProject_rot_unit (c : SphericalConstraint) (p : Pose)
    (h : ∀ n, Quat.normSq (p.rot n) = 1) :
    ∀ n, Quat.normSq ((sphericalProject c p).rot n) = 1 := by
  have ha : ∀ om s, Quat.normSq (Quat.normalize (quatStep (p.rot c.node_a) om s)) = 1 :=
    fun om s => Quat.normSq_normalize_quatStep (h c.node_a) om s
  intro n
  simp only [sphericalProject]
  by_cases hb : n = c.node_b
  · subst hb
    rw [Function.update_same]
    apply Quat.normSq_normalize_quatStep
    by_cases hab : c.node_b = c.node_a
    · rw [hab, Function.update_same]
      exact ha _ _
    · rw [Function.update_noteq hab]
      exact h _
  · rw [Function.update_noteq hb]
    by_cases han : n = c.node_a
    · subst han
      rw [Function.update_same]
      exact ha _ _
    · rw [Function.update_noteq han]
      exact h n

theorem distanceProject_rot_unit (c : DistanceConstraint) (p : Pose)
    (h : ∀ n, Quat.normSq (p.rot n) = 1) :
    ∀ n, Quat.normSq ((distanceProject c p).rot n) = 1 := by
  have ha : ∀ om s, Quat.normSq (Quat.normalize (quatStep (p.rot c.node_a) om s)) = 1 :=
    fun om s => Quat.normSq_normalize_quatStep (h c.node_a) om s
  intro n
  simp only [distanceProject]
  by_cases hb : n = c.node_b
  · subst hb
    rw [Function.update_same]
    apply Quat.normSq_normalize_quatStep
    by_cases hab : c.node_b = c.node_a
    · rw [hab, Function.update_same]
      exact ha _ _
    · rw [Function.update_noteq hab]
      exact h _
  · rw [Function.update_noteq hb]
    by_cases han : n = c.node_a
    · subst han
      rw [Function.update_same]
      exact ha _ _
    · rw [Function.update_noteq han]
      exact h n

end ProjectionLemmas

section EvalHelpers

theorem sqrt_eq_of_sq {x y : ℝ} (hy : 0 ≤ y) (h : y * y = x) : Real.sqrt x = y := by
  rw [← h]
  exact Real.sqrt_mul_self hy

theorem Vec3A.add_zero_right (v : Vec3A) : Vec3A.add v Vec3A.zero = v := by
  simp [Vec3A.add, Vec3A.zero]

theorem Mat3A.mulVec_identity (v : Vec3A) : Mat3A.mulVec Mat3A.identity v = v := by
  simp [Mat3A.mulVec, Mat3A.identity, Vec3A.smul, Vec3A.add]

theorem Mat3A.mulMat_identity_left (m : Mat3A) :
    Mat3A.mulMat Mat3A.identity m = m := by
  simp [Mat3A.mulMat, Mat3A.mulVec_identity]

theorem Mat3A.inverse_identity : Mat3A.inverse Mat3A.identity = Mat3A.identity := by
  simp only [Mat3A.inverse, Mat3A.identity, Vec3A.cross, Vec3A.dot, Vec3A.smul,
    Mat3A.transpose]
  norm_num

theorem Affine3A.mul_identity_left (a : Affine3A) :
    Affine3A.mul Affine3A.identityA a = a := by
  simp [Affine3A.mul, Affine3A.identityA, Mat3A.mulMat_identity_left,
    Mat3A.mulVec_identity, Vec3A.add_zero_right, Vec3A.zero, Vec3A.add]

theorem Affine3A.inverse_identityA :
    Affine3A.inverse Affine3A.identityA = Affine3A.identityA := by
  simp [Affine3A.inverse, Affine3A.identityA, Mat3A.inverse_identity,
    Mat3A.mulVec_identity, Vec3A.neg, Vec3A.zero]

end EvalHelpers

section ClaimC8

theorem leverWeight_components_ge_one (r : Vec3A) :
    1 ≤ (leverWeight r).x ∧ 1 ≤ (leverWeight r).y ∧ 1 ≤ (leverWeight r).z := by
  simp only [leverWeight, Vec3A.cmul]
  refine ⟨?_, ?_, ?_⟩ <;>
    nlinarith [mul_self_nonneg r.x, mul_self_nonneg r.y, mul_self_nonneg r.z]

/-- C8: for every orientation pair and attachment-offset pair, each component of
the effective-weight vectors computed by the solver from the rotated offsets is
at least 1 (it is 1 plus a sum of squares), so each component of the combined
weight w1 + w2 is at least 2 and in particular nonzero: the division of the
correction by (w1 + w2) never divides by zero. -/
theorem claim_C8_combined_weight_never_zero (q1 q2 : Quat) (v1 v2 : Vec3A) :
    (1 ≤ (leverWeight (Quat.rotate q1 v1)).x ∧
     1 ≤ (leverWeight (Quat.rotate q1 v1)).y ∧
     1 ≤ (leverWeight (Quat.rotate q1 v1)).z) ∧
    (1 ≤ (leverWeight (Quat.rotate q2 v2)).x ∧
     1 ≤ (leverWeight (Quat.rotate q2 v2)).y ∧
     1 ≤ (leverWeight (Quat.rotate q2 v2)).z) ∧
    (2 ≤ (Vec3A.add (leverWeight (Quat.rotate q1 v1)) (leverWeight (Quat.rotate q2 v2))).x ∧
     2 ≤ (Vec3A.add (leverWeight (Quat.rotate q1 v1)) (leverWeight (Quat.rotate q2 v2))).y ∧
     2 ≤ (Vec3A.add (leverWeight (Quat.rotate q1 v1)) (leverWeight (Quat.rotate q2 v2))).z) ∧
    ((Vec3A.add (leverWeight (Quat.rotate q1 v1)) (leverWeight (Quat.rotate q2 v2))).x ≠ 0 ∧
     (Vec3A.add (leverWeight (Quat.rotate q1 v1)) (leverWeight (Quat.rotate q2 v2))).y ≠ 0 ∧
     (Vec3A.add (leverWeight (Quat.rotate q1 v1)) (leverWeight (Quat.rotate q2 v2))).z ≠ 0) := by
  obtain ⟨h1x, h1y, h1z⟩ := leverWeight_components_ge_one (Quat.rotate q1 v1)
  obtain ⟨h2x, h2y, h2z⟩ := leverWeight_components_ge_one (Quat.rotate q2 v2)
  simp only [Vec3A.add]
  refine ⟨⟨h1x, h1y, h1z⟩, ⟨h2x, h2y, h2z⟩, ⟨?_, ?_, ?_⟩, ⟨?_, ?_, ?_⟩⟩ <;> nlinarith

end ClaimC8

section ClaimC10

/-- C10: after every call of the IK tick, both foot-target options in the
locomotion state are present: every branch of the weight-distribution match
assigns both left_foot_in_stage and right_foot_in_stage. -/
theorem claim_C10_foot_targets_always_present (i : IkInputs) (s : IkState) :
    (inverse_kinematics_system i s).left_foot_in_stage.isSome = true ∧
    (inverse_kinematics_system i s).right_foot_in_stage.isSome = true := by
  simp only [inverse_kinematics_system, footTargets]
  cases newWeightDistribution i s
  case LeftPlanted => simp
  case RightPlanted => simp
  case SharedWeight => split_ifs <;> simp

end ClaimC10

section WitnessScenarios

theorem Vec3A.length_eval {v : Vec3A} {r : ℝ} (hr : 0 ≤ r)
    (h : r * r = Vec3A.lengthSquared v) : Vec3A.length v = r :=
  sqrt_eq_of_sq hr h

/-- A headset pose whose derived base frame is exactly the identity transform:
identity orientation, translation (0, 8/5, -1/10). -/
def hmd0 : Affine3A := ⟨Mat3A.identity, ⟨0, 8/5, -(1/10)⟩⟩

/-- Concrete tracking inputs used by the witnesses: hmd0 and identity grip/aim
transforms. -/
def inputs0 : IkInputs :=
  ⟨hmd0, Affine3A.identityA, Affine3A.identityA, Affine3A.identityA, Affine3A.identityA⟩

theorem base_inputs0 : base_in_stage inputs0 = Affine3A.identityA := by
  simp only [base_in_stage, neck_root_in_stage, head_center_in_stage, inputs0, hmd0,
    head_center_in_hmd, neck_root_in_head_center, Affine3A.fromTranslation, Affine3A.mul,
    Mat3A.mulMat, Mat3A.mulVec, Mat3A.identity, Vec3A.smul, Vec3A.add, Vec3A.normalize,
    Vec3A.length, Vec3A.lengthSquared, Vec3A.dot, Vec3A.cross, Vec3A.unitY,
    Affine3A.identityA, Vec3A.zero]
  norm_num

theorem left_foot_in_base_inputs0 (s : IkState) (a : Affine3A)
    (h : s.left_foot_in_stage = some a) : left_foot_in_base inputs0 s = a := by
  simp [left_foot_in_base, left_foot_current, h, base_inputs0,
    Affine3A.inverse_identityA, Affine3A.mul_identity_left]

theorem right_foot_in_base_inputs0 (s : IkState) (a : Affine3A)
    (h : s.right_foot_in_stage = some a) : right_foot_in_base inputs0 s = a := by
  simp [right_foot_in_base, right_foot_current, h, base_inputs0,
    Affine3A.inverse_identityA, Affine3A.mul_identity_left]

def stateBothNear : IkState :=
  ⟨some (Affine3A.fromTranslation ⟨0, 0, 0⟩), some (Affine3A.fromTranslation ⟨0, 0, 0⟩),
   WeightDistribution.RightPlanted, fun _ => Vec3A.zero, fun _ => Quat.identity⟩

def stateLeftNear : IkState :=
  ⟨some (Affine3A.fromTranslation ⟨0, 0, 0⟩), some (Affine3A.fromTranslation ⟨1/2, 0, 0⟩),
   WeightDistribution.SharedWeight, fun _ => Vec3A.zero, fun _ => Quat.identity⟩

def stateRightNear : IkState :=
  ⟨some (Affine3A.fromTranslation ⟨1/2, 0, 0⟩), some (Affine3A.fromTranslation ⟨0, 0, 0⟩),
   WeightDistribution.SharedWeight, fun _ => Vec3A.zero, fun _ => Quat.identity⟩

def stateNeitherNear : IkState :=
  ⟨some (Affine3A.fromTranslation ⟨-(1/2), 0, 0⟩), some (Affine3A.fromTranslation ⟨1/2, 0, 0⟩),
   WeightDistribution.LeftPlanted, fun _ => Vec3A.zero, fun _ => Quat.identity⟩

theorem length_zero_lt_radius : Vec3A.length (⟨0, 0, 0⟩ : Vec3A) < foot_radius := by
  rw [Vec3A.length_eval (le_refl (0:ℝ)) (by norm_num [Vec3A.lengthSquared, Vec3A.dot])]
  norm_num [foot_radius]

theorem length_half_not_lt_radius :
    ¬ Vec3A.length (⟨1/2, 0, 0⟩ : Vec3A) < foot_radius := by
  rw [Vec3A.length_eval (by norm_num : (0:ℝ) ≤ 1/2)
    (by norm_num [Vec3A.lengthSquared, Vec3A.dot])]
  norm_num [foot_radius]

theorem length_neg_half_not_lt_radius :
    ¬ Vec3A.length (⟨-(1/2), 0, 0⟩ : Vec3A) < foot_radius := by
  rw [Vec3A.length_eval (by norm_num : (0:ℝ) ≤ 1/2)
    (by norm_num [Vec3A.lengthSquared, Vec3A.dot])]
  norm_num [foot_radius]

end WitnessScenarios

section ClaimC4

/-- C4: the weight-distribution classification of the tick: if both feet are
within foot radius of the base origin the field keeps its previous value
(hysteresis); only-left-near yields LeftPlanted, only-right-near yields
RightPlanted, neither-near yields SharedWeight. -/
theorem claim_C4_weight_distribution_cases (i : IkInputs) (s : IkState) :
    (Vec3A.length (left_foot_in_base i s).translation < foot_radius →
      Vec3A.length (right_foot_in_base i s).translation < foot_radius →
      (inverse_kinematics_system i s).weight_distribution = s.weight_distribution) ∧
    (Vec3A.length (left_foot_in_base i s).translation < foot_radius →
      ¬ Vec3A.length (right_foot_in_base i s).translation < foot_radius →
      (inverse_kinematics_system i s).weight_distribution = WeightDistribution.LeftPlanted) ∧
    (¬ Vec3A.length (left_foot_in_base i s).translation < foot_radius →
      Vec3A.length (right_foot_in_base i s).translation < foot_radius →
      (inverse_kinematics_system i s).weight_distribution = WeightDistribution.RightPlanted) ∧
    (¬ Vec3A.length (left_foot_in_base i s).translation < foot_radius →
      ¬ Vec3A.length (right_foot_in_base i s).translation < foot_radius →
      (inverse_kinematics_system i s).weight_distribution = WeightDistribution.SharedWeight) := by
  refine ⟨fun h1 h2 => ?_, fun h1 h2 => ?_, fun h1 h2 => ?_, fun h1 h2 => ?_⟩ <;>
    simp [inverse_kinematics_system, newWeightDistribution, h1, h2]

/-- Witness for C4 at four concrete tick inputs, one per classification case;
in the both-near case the previous distribution RightPlanted is retained. -/
theorem claim_C4_witness :
    (inverse_kinematics_system inputs0 stateBothNear).weight_distribution =
      WeightDistribution.RightPlanted ∧
    (inverse_kinematics_system inputs0 stateLeftNear).weight_distribution =
      WeightDistribution.LeftPlanted ∧
    (inverse_kinematics_system inputs0 stateRightNear).weight_distribution =
      WeightDistribution.RightPlanted ∧
    (inverse_kinematics_system inputs0 stateNeitherNear).weight_distribution =
      WeightDistribution.SharedWeight := by
  have hbl : left_foot_in_base inputs0 stateBothNear = Affine3A.fromTranslation ⟨0, 0, 0⟩ :=
    left_foot_in_base_inputs0 _ _ rfl
  have hbr : right_foot_in_base inputs0 stateBothNear = Affine3A.fromTranslation ⟨0, 0, 0⟩ :=
    right_foot_in_base_inputs0 _ _ rfl
  have hll : left_foot_in_base inputs0 stateLeftNear = Affine3A.fromTranslation ⟨0, 0, 0⟩ :=
    left_foot_in_base_inputs0 _ _ rfl
  have hlr : right_foot_in_base inputs0 stateLeftNear = Affine3A.fromTranslation ⟨1/2, 0, 0⟩ :=
    right_foot_in_base_inputs0 _ _ rfl
  have hrl : left_foot_in_base inputs0 stateRightNear = Affine3A.fromTranslation ⟨1/2, 0, 0⟩ :=
    left_foot_in_base_inputs0 _ _ rfl
  have hrr : right_foot_in_base inputs0 stateRightNear = Affine3A.fromTranslation ⟨0, 0, 0⟩ :=
    right_foot_in_base_inputs0 _ _ rfl
  have hnl : left_foot_in_base inputs0 stateNeitherNear =
      Affine3A.fromTranslation ⟨-(1/2), 0, 0⟩ :=
    left_foot_in_base_inputs0 _ _ rfl
  have hnr : right_foot_in_base inputs0 stateNeitherNear =
      Affine3A.fromTranslation ⟨1/2, 0, 0⟩ :=
    right_foot_in_base_inputs0 _ _ rfl
  refine ⟨?_, ?_, ?_, ?_⟩
  · have h := (claim_C4_weight_distribution_cases inputs0 stateBothNear).1
    rw [hbl, hbr] at h
    exact h length_zero_lt_radius length_zero_lt_radius
  · have h := (claim_C4_weight_distribution_cases inputs0 stateLeftNear).2.1
    rw [hll, hlr] at h
    exact h length_zero_lt_radius length_half_not_lt_radius
  · have h := (claim_C4_weight_distribution_cases inputs0 stateRightNear).2.2.1
    rw [hrl, hrr] at h
    exact h length_half_not_lt_radius length_zero_lt_radius
  · have h := (claim_C4_weight_distribution_cases inputs0 stateNeitherNear).2.2.2
    rw [hnl, hnr] at h
    exact h length_neg_half_not_lt_radius length_half_not_lt_radius

end ClaimC4

section ClaimC5

theorem newWD_stateRightNear :
    newWeightDistribution inputs0 stateRightNear = WeightDistribution.RightPlanted := by
  simp only [newWeightDistribution, left_foot_in_base_inputs0 stateRightNear _ rfl,
    right_foot_in_base_inputs0 stateRightNear _ rfl, Affine3A.fromTranslation]
  rw [if_neg length_half_not_lt_radius, if_pos length_zero_lt_radius]

theorem newWD_stateLeftNear :
    newWeightDistribution inputs0 stateLeftNear = WeightDistribution.LeftPlanted := by
  simp only [newWeightDistribution, left_foot_in_base_inputs0 stateLeftNear _ rfl,
    right_foot_in_base_inputs0 stateLeftNear _ rfl, Affine3A.fromTranslation]
  rw [if_pos length_zero_lt_radius, if_neg length_half_not_lt_radius]

/-- C5: in LeftPlanted or RightPlanted distribution, the planted-side foot
target is the current world transform unchanged, and the swing foot target is
the translation -step_multiplier times the planted foot's base-relative
position, transformed back into stage space through the base frame. -/
theorem claim_C5_planted_foot_targets (i : IkInputs) (s : IkState) :
    (newWeightDistribution i s = WeightDistribution.RightPlanted →
      (inverse_kinematics_system i s).left_foot_in_stage =
        some (Affine3A.mul (base_in_stage i) (Affine3A.fromTranslation
          ⟨-(step_multiplier * (right_foot_in_base i s).translation.x),
           -(step_multiplier * (right_foot_in_base i s).translation.y),
           -(step_multiplier * (right_foot_in_base i s).translation.z)⟩)) ∧
      (inverse_kinematics_system i s).right_foot_in_stage =
        some (right_foot_current i s)) ∧
    (newWeightDistribution i s = WeightDistribution.LeftPlanted →
      (inverse_kinematics_system i s).left_foot_in_stage =
        some (left_foot_current i s) ∧
      (inverse_kinematics_system i s).right_foot_in_stage =
        some (Affine3A.mul (base_in_stage i) (Affine3A.fromTranslation
          ⟨-(step_multiplier * (left_foot_in_base i s).translation.x),
           -(step_multiplier * (left_foot_in_base i s).translation.y),
           -(step_multiplier * (left_foot_in_base i s).translation.z)⟩))) := by
  constructor <;> intro h <;>
    simp [inverse_kinematics_system, footTargets, h]

/-- Witness for C5 at concrete tick inputs reaching RightPlanted and
LeftPlanted. -/
theorem claim_C5_witness :
    ((inverse_kinematics_system inputs0 stateRightNear).left_foot_in_stage =
        some (Affine3A.mul (base_in_stage inputs0) (Affine3A.fromTranslation
          ⟨-(step_multiplier * (right_foot_in_base inputs0 stateRightNear).translation.x),
           -(step_multiplier * (right_foot_in_base inputs0 stateRightNear).translation.y),
           -(step_multiplier * (right_foot_in_base inputs0 stateRightNear).translation.z)⟩)) ∧
      (inverse_kinematics_system inputs0 stateRightNear).right_foot_in_stage =
        some (right_foot_current inputs0 stateRightNear)) ∧
    ((inverse_kinematics_system inputs0 stateLeftNear).left_foot_in_stage =
        some (left_foot_current inputs0 stateLeftNear) ∧
      (inverse_kinematics_system inputs0 stateLeftNear).right_foot_in_stage =
        some (Affine3A.mul (base_in_stage inputs0) (Affine3A.fromTranslation
          ⟨-(step_multiplier * (left_foot_in_base inputs0 stateLeftNear).translation.x),
           -(step_multiplier * (left_foot_in_base inputs0 stateLeftNear).translation.y),
           -(step_multiplier * (left_foot_in_base inputs0 stateLeftNear).translation.z)⟩))) := by
  exact ⟨(claim_C5_planted_foot_targets inputs0 stateRightNear).1 newWD_stateRightNear,
    (claim_C5_planted_foot_targets inputs0 stateLeftNear).2 newWD_stateLeftNear⟩

end ClaimC5

section ClaimC2

/-- A staggered stance: left foot at (1/2, 0, 0), right foot at (11/10, 0, 0)
in stage space (the base frame is the identity for inputs0). -/
def stateStagger : IkState :=
  ⟨some (Affine3A.fromTranslation ⟨1/2, 0, 0⟩), some (Affine3A.fromTranslation ⟨11/10, 0, 0⟩),
   WeightDistribution.SharedWeight, fun _ => Vec3A.zero, fun _ => Quat.identity⟩

/-- The mirrored staggered stance: left foot at (11/10, 0, 0), right foot at
(1/2, 0, 0). -/
def stateStagger2 : IkState :=
  ⟨some (Affine3A.fromTranslation ⟨11/10, 0, 0⟩), some (Affine3A.fromTranslation ⟨1/2, 0, 0⟩),
   WeightDistribution.SharedWeight, fun _ => Vec3A.zero, fun _ => Quat.identity⟩

theorem length_eleven_tenths_not_lt_radius :
    ¬ Vec3A.length (⟨11/10, 0, 0⟩ : Vec3A) < foot_radius := by
  rw [Vec3A.length_eval (by norm_num : (0:ℝ) ≤ 11/10)
    (by norm_num [Vec3A.lengthSquared, Vec3A.dot])]
  norm_num [foot_radius]

theorem newWD_stateStagger :
    newWeightDistribution inputs0 stateStagger = WeightDistribution.SharedWeight := by
  simp only [newWeightDistribution, left_foot_in_base_inputs0 stateStagger _ rfl,
    right_foot_in_base_inputs0 stateStagger _ rfl, Affine3A.fromTranslation]
  rw [if_neg length_half_not_lt_radius, if_neg length_eleven_tenths_not_lt_radius]

theorem newWD_stateStagger2 :
    newWeightDistribution inputs0 stateStagger2 = WeightDistribution.SharedWeight := by
  simp only [newWeightDistribution, left_foot_in_base_inputs0 stateStagger2 _ rfl,
    right_foot_in_base_inputs0 stateStagger2 _ rfl, Affine3A.fromTranslation]
  rw [if_neg length_eleven_tenths_not_lt_radius, if_neg length_half_not_lt_radius]

theorem balance_stateStagger :
    balance_point_in_base inputs0 stateStagger = ⟨1/2, 0, 0⟩ := by
  simp only [balance_point_in_base, left_foot_in_base_inputs0 stateStagger _ rfl,
    right_foot_in_base_inputs0 stateStagger _ rfl, Affine3A.fromTranslation,
    Vec3A.sub, Vec3A.zero, Vec3A.dot, Vec3A.add, Vec3A.smul, clamp]
  norm_num

theorem balance_stateStagger2 :
    balance_point_in_base inputs0 stateStagger2 = ⟨1/2, 0, 0⟩ := by
  simp only [balance_point_in_base, left_foot_in_base_inputs0 stateStagger2 _ rfl,
    right_foot_in_base_inputs0 stateStagger2 _ rfl, Affine3A.fromTranslation,
    Vec3A.sub, Vec3A.zero, Vec3A.dot, Vec3A.add, Vec3A.smul, clamp]
  norm_num

theorem balance_half_gt_threshold :
    Vec3A.length (⟨1/2, 0, 0⟩ : Vec3A) > stagger_threshold := by
  rw [Vec3A.length_eval (by norm_num : (0:ℝ) ≤ 1/2)
    (by norm_num [Vec3A.lengthSquared, Vec3A.dot])]
  norm_num [stagger_threshold, foot_radius]

theorem normalize_half_x : Vec3A.normalize (⟨1/2, 0, 0⟩ : Vec3A) = ⟨1, 0, 0⟩ := by
  rw [Vec3A.normalize, Vec3A.length_eval (by norm_num : (0:ℝ) ≤ 1/2)
    (by norm_num [Vec3A.lengthSquared, Vec3A.dot])]
  norm_num [Vec3A.smul]

theorem normalize_eleven_tenths_x :
    Vec3A.normalize (⟨11/10, 0, 0⟩ : Vec3A) = ⟨1, 0, 0⟩ := by
  rw [Vec3A.normalize, Vec3A.length_eval (by norm_num : (0:ℝ) ≤ 11/10)
    (by norm_num [Vec3A.lengthSquared, Vec3A.dot])]
  norm_num [Vec3A.smul]

/-- C2 counterexample: at a concrete SharedWeight tick beyond the stagger
threshold, the code moves the more lightly loaded (right) foot, but its new
target is from_translation (1/10, 0, 0) - computed from the MORE loaded (left)
foot's base-relative position displaced toward the base origin - which differs
from the claim's formula (the moved foot's own position displaced by step_size
away from the base origin, namely (3/2, 0, 0)). -/
theorem claim_C2_counterexample :
    newWeightDistribution inputs0 stateStagger = WeightDistribution.SharedWeight ∧
    Vec3A.length (balance_point_in_base inputs0 stateStagger) > stagger_threshold ∧
    (inverse_kinematics_system inputs0 stateStagger).left_foot_in_stage =
      some (left_foot_current inputs0 stateStagger) ∧
    (inverse_kinematics_system inputs0 stateStagger).right_foot_in_stage =
      some (Affine3A.fromTranslation ⟨1/10, 0, 0⟩) ∧
    (Affine3A.fromTranslation ⟨1/10, 0, 0⟩ : Affine3A) ≠
      Affine3A.mul (base_in_stage inputs0) (Affine3A.fromTranslation
        (Vec3A.add (right_foot_in_base inputs0 stateStagger).translation
          (Vec3A.smul
            (Vec3A.normalize (right_foot_in_base inputs0 stateStagger).translation)
            step_size))) := by
  have hlfb := left_foot_in_base_inputs0 stateStagger _ rfl
  have hrfb := right_foot_in_base_inputs0 stateStagger _ rfl
  refine ⟨newWD_stateStagger, ?_, ?_, ?_, ?_⟩
  · rw [balance_stateStagger]
    exact balance_half_gt_threshold
  · simp only [inverse_kinematics_system, footTargets, newWD_stateStagger,
      balance_stateStagger, hlfb, hrfb, Affine3A.fromTranslation]
    rw [if_pos balance_half_gt_threshold]
    rw [if_pos (by norm_num [Vec3A.sub, Vec3A.lengthSquared, Vec3A.dot])]
  · simp only [inverse_kinematics_system, footTargets, newWD_stateStagger,
      balance_stateStagger, hlfb, hrfb, Affine3A.fromTranslation]
    rw [if_pos balance_half_gt_threshold]
    rw [if_pos (by norm_num [Vec3A.sub, Vec3A.lengthSquared, Vec3A.dot])]
    rw [base_inputs0, normalize_half_x, Affine3A.mul_identity_left]
    simp only [Vec3A.neg, Vec3A.smul, Vec3A.add, Affine3A.fromTranslation, step_size,
      step_multiplier, foot_radius, Option.some.injEq, Affine3A.mk.injEq,
      Vec3A.mk.injEq]
    norm_num
  · rw [hrfb, base_inputs0, Affine3A.mul_identity_left]
    simp only [Affine3A.fromTranslation, normalize_eleven_tenths_x, Vec3A.smul,
      Vec3A.add, step_size, step_multiplier, foot_radius, ne_eq, Affine3A.mk.injEq,
      Vec3A.mk.injEq]
    norm_num

/-- C2 amended: in SharedWeight beyond the stagger threshold, exactly one foot
target moves - the foot farther from the balance point - but its new target is
the OTHER (more loaded) foot's base-relative position displaced by step_size
toward the base origin (direction -normalize(other foot's position)), mapped
back to stage space through the base frame; the other foot's target keeps its
current transform. -/
theorem claim_C2_amended_stagger_targets (i : IkInputs) (s : IkState)
    (hwd : newWeightDistribution i s = WeightDistribution.SharedWeight)
    (hbal : Vec3A.length (balance_point_in_base i s) > stagger_threshold) :
    (Vec3A.lengthSquared (Vec3A.sub (balance_point_in_base i s)
        (left_foot_in_base i s).translation) <
      Vec3A.lengthSquared (Vec3A.sub (balance_point_in_base i s)
        (right_foot_in_base i s).translation) →
      (inverse_kinematics_system i s).left_foot_in_stage =
        some (left_foot_current i s) ∧
      (inverse_kinematics_system i s).right_foot_in_stage =
        some (Affine3A.mul (base_in_stage i) (Affine3A.fromTranslation
          (Vec3A.add (left_foot_in_base i s).translation
            (Vec3A.smul
              (Vec3A.neg (Vec3A.normalize (left_foot_in_base i s).translation))
              step_size))))) ∧
    (¬ Vec3A.lengthSquared (Vec3A.sub (balance_point_in_base i s)
        (left_foot_in_base i s).translation) <
      Vec3A.lengthSquared (Vec3A.sub (balance_point_in_base i s)
        (right_foot_in_base i s).translation) →
      (inverse_kinematics_system i s).left_foot_in_stage =
        some (Affine3A.mul (base_in_stage i) (Affine3A.fromTranslation
          (Vec3A.add (right_foot_in_base i s).translation
            (Vec3A.smul
              (Vec3A.neg (Vec3A.normalize (right_foot_in_base i s).translation))
              step_size)))) ∧
      (inverse_kinematics_system i s).right_foot_in_stage =
        some (right_foot_current i s)) := by
  constructor <;> intro h <;>
    simp [inverse_kinematics_system, footTargets, hwd, hbal, h]

/-- Witness for the amended C2 at both stagger branches. -/
theorem claim_C2_amended_witness :
    ((inverse_kinematics_system inputs0 stateStagger).left_foot_in_stage =
        some (left_foot_current inputs0 stateStagger) ∧
      (inverse_kinematics_system inputs0 stateStagger).right_foot_in_stage =
        some (Affine3A.mul (base_in_stage inputs0) (Affine3A.fromTranslation
          (Vec3A.add (left_foot_in_base inputs0 stateStagger).translation
            (Vec3A.smul
              (Vec3A.neg (Vec3A.normalize
                (left_foot_in_base inputs0 stateStagger).translation))
              step_size))))) ∧
    ((inverse_kinematics_system inputs0 stateStagger2).left_foot_in_stage =
        some (Affine3A.mul (base_in_stage inputs0) (Affine3A.fromTranslation
          (Vec3A.add (right_foot_in_base inputs0 stateStagger2).translation
            (Vec3A.smul
              (Vec3A.neg (Vec3A.normalize
                (right_foot_in_base inputs0 stateStagger2).translation))
              step_size)))) ∧
      (inverse_kinematics_system inputs0 stateStagger2).right_foot_in_stage =
        some (right_foot_current inputs0 stateStagger2)) := by
  constructor
  · apply (claim_C2_amended_stagger_targets inputs0 stateStagger newWD_stateStagger
      (by rw [balance_stateStagger]; exact balance_half_gt_threshold)).1
    rw [balance_stateStagger, left_foot_in_base_inputs0 stateStagger _ rfl,
      right_foot_in_base_inputs0 stateStagger _ rfl]
    simp only [Affine3A.fromTranslation]
    norm_num [Vec3A.sub, Vec3A.lengthSquared, Vec3A.dot]
  · apply (claim_C2_amended_stagger_targets inputs0 stateStagger2 newWD_stateStagger2
      (by rw [balance_stateStagger2]; exact balance_half_gt_threshold)).2
    rw [balance_stateStagger2, left_foot_in_base_inputs0 stateStagger2 _ rfl,
      right_foot_in_base_inputs0 stateStagger2 _ rfl]
    simp only [Affine3A.fromTranslation]
    norm_num [Vec3A.sub, Vec3A.lengthSquared, Vec3A.dot]

end ClaimC2

section ClaimC9

/-- Both feet stored at the same stage position (1/2, 0, 0). -/
def stateCoincident : IkState :=
  ⟨some (Affine3A.fromTranslation ⟨1/2, 0, 0⟩), some (Affine3A.fromTranslation ⟨1/2, 0, 0⟩),
   WeightDistribution.SharedWeight, fun _ => Vec3A.zero, fun _ => Quat.identity⟩

/-- C9: at a concrete tick input whose two feet's base-relative positions
coincide, the divisor v.dot(v) of the balance-point parameter
t = (c - a).dot(v) / v.dot(v) is exactly zero, the computation performs the
division with no guard, and the resulting balance point is seeded into the
BalancePoint landmark.  (Under Lean's x / 0 = 0 convention the embedded balance
point degenerates to the left foot position; under IEEE f32 the same division
produces NaN.) -/
theorem claim_C9_balance_point_division_by_zero :
    Vec3A.dot
      (Vec3A.sub (right_foot_in_base inputs0 stateCoincident).translation
        (left_foot_in_base inputs0 stateCoincident).translation)
      (Vec3A.sub (right_foot_in_base inputs0 stateCoincident).translation
        (left_foot_in_base inputs0 stateCoincident).translation) = 0 ∧
    balance_point_in_base inputs0 stateCoincident = ⟨1/2, 0, 0⟩ ∧
    List.get? (fixed_nodes inputs0 stateCoincident) 4 =
      some (IkNodeID.BalancePoint, to_pos_rot (Affine3A.mul (base_in_stage inputs0)
        (Affine3A.fromTranslation (balance_point_in_base inputs0 stateCoincident)))) := by
  have hl := left_foot_in_base_inputs0 stateCoincident _ rfl
  have hr := right_foot_in_base_inputs0 stateCoincident _ rfl
  refine ⟨?_, ?_, rfl⟩
  · rw [hl, hr]
    norm_num [Affine3A.fromTranslation, Vec3A.sub, Vec3A.dot]
  · simp only [balance_point_in_base, hl, hr, Affine3A.fromTranslation, Vec3A.sub,
      Vec3A.zero, Vec3A.dot, Vec3A.add, Vec3A.smul, clamp]
    norm_num

end ClaimC9

section PosePreservation

theorem applySeeds_cons (e : IkNodeID × Vec3A × Quat) (tl : List (IkNodeID × Vec3A × Quat))
    (p : Pose) :
    applySeeds (e :: tl) p =
      applySeeds tl ⟨Function.update p.pos e.1 e.2.1, Function.update p.rot e.1 e.2.2⟩ :=
  rfl

theorem applySeeds_rot_unit (l : List (IkNodeID × Vec3A × Quat)) :
    ∀ (p : Pose), (∀ n, Quat.normSq (p.rot n) = 1) →
      (∀ e ∈ l, Quat.normSq e.2.2 = 1) →
      ∀ n, Quat.normSq ((applySeeds l p).rot n) = 1 := by
  induction l with
  | nil => intro p hp _ n; exact hp n
  | cons e tl ih =>
      intro p hp hl n
      rw [applySeeds_cons]
      apply ih
      · intro m
        dsimp only
        by_cases hm : m = e.1
        · subst hm
          rw [Function.update_same]
          exact hl e (List.mem_cons_self e tl)
        · rw [Function.update_noteq hm]
          exact hp m
      · intro f hf
        exact hl f (List.mem_cons_of_mem e hf)

theorem foldl_spherical_rot_unit (l : List SphericalConstraint) :
    ∀ (p : Pose), (∀ n, Quat.normSq (p.rot n) = 1) →
      ∀ n, Quat.normSq ((l.foldl (fun q c => sphericalProject c q) p).rot n) = 1 := by
  induction l with
  | nil => intro p hp n; exact hp n
  | cons c tl ih =>
      intro p hp n
      rw [List.foldl_cons]
      exact ih (sphericalProject c p) (sphericalProject_rot_unit c p hp) n

theorem foldl_distance_rot_unit (l : List DistanceConstraint) :
    ∀ (p : Pose), (∀ n, Quat.normSq (p.rot n) = 1) →
      ∀ n, Quat.normSq ((l.foldl (fun q c => distanceProject c q) p).rot n) = 1 := by
  induction l with
  | nil => intro p hp n; exact hp n
  | cons c tl ih =>
      intro p hp n
      rw [List.foldl_cons]
      exact ih (distanceProject c p) (distanceProject_rot_unit c p hp) n

theorem solveIteration_rot_unit (fixed : List (IkNodeID × Vec3A × Quat)) (p : Pose)
    (hp : ∀ n, Quat.normSq (p.rot n) = 1)
    (hf : ∀ e ∈ fixed, Quat.normSq e.2.2 = 1) :
    ∀ n, Quat.normSq ((solveIteration fixed p).rot n) = 1 := by
  unfold solveIteration
  exact foldl_distance_rot_unit _ _
    (foldl_spherical_rot_unit _ _ (applySeeds_rot_unit fixed p hp hf))

theorem solveIterate_rot_unit (fixed : List (IkNodeID × Vec3A × Quat)) (k : ℕ) :
    ∀ (p : Pose), (∀ n, Quat.normSq (p.rot n) = 1) →
      (∀ e ∈ fixed, Quat.normSq e.2.2 = 1) →
      ∀ n, Quat.normSq (((solveIteration fixed)^[k] p).rot n) = 1 := by
  induction k with
  | zero => intro p hp _ n; exact hp n
  | succ m ih =>
      intro p hp hf n
      rw [Function.iterate_succ_apply]
      exact ih (solveIteration fixed p) (solveIteration_rot_unit fixed p hp hf) hf n

end PosePreservation

section ClaimC6

/-- C6: spherical and distance quaternion updates both renormalize (a unit-pose
stays a unit-pose through any single constraint projection), and consequently
every landmark orientation in the tick's final pose has exactly unit norm,
whenever the warm-start orientations and the seeded driver orientations are
unit quaternions. -/
theorem claim_C6_orientations_renormalized (i : IkInputs) (s : IkState)
    (h0 : ∀ n, Quat.normSq (s.node_rotations n) = 1)
    (hseed : ∀ e ∈ fixed_nodes i s, Quat.normSq e.2.2 = 1) :
    (∀ (c : SphericalConstraint) (p : Pose), (∀ n, Quat.normSq (p.rot n) = 1) →
      ∀ n, Quat.normSq ((sphericalProject c p).rot n) = 1) ∧
    (∀ (c : DistanceConstraint) (p : Pose), (∀ n, Quat.normSq (p.rot n) = 1) →
      ∀ n, Quat.normSq ((distanceProject c p).rot n) = 1) ∧
    (∀ n, Quat.normSq ((inverse_kinematics_system i s).node_rotations n) = 1) := by
  refine ⟨sphericalProject_rot_unit, distanceProject_rot_unit, ?_⟩
  intro n
  simp only [inverse_kinematics_system]
  exact solveIterate_rot_unit (fixed_nodes i s) num_iterations
    ⟨s.node_positions, s.node_rotations⟩ h0 hseed n

end ClaimC6

section ToPosRotEval

theorem fromRotationAxes_identity_axes :
    Quat.fromRotationAxes ⟨1, 0, 0⟩ ⟨0, 1, 0⟩ ⟨0, 0, 1⟩ = Quat.identity := by
  have h4 : Real.sqrt (4:ℝ) = 2 := sqrt_eq_of_sq (by norm_num) (by norm_num)
  rw [Quat.fromRotationAxes]
  norm_num [Quat.identity, h4]

/-- to_pos_rot of an affine with identity linear part: the position is the
translation and the extracted rotation is the identity quaternion. -/
theorem to_pos_rot_of_identity_matrix (t : Vec3A) :
    to_pos_rot ⟨Mat3A.identity, t⟩ = (t, Quat.identity) := by
  rw [to_pos_rot, Affine3A.toScaleRotationTranslation]
  simp only [Mat3A.identity, Mat3A.determinant, Vec3A.cross, Vec3A.dot, Vec3A.length,
    Vec3A.lengthSquared, signum, Vec3A.smul]
  norm_num [Real.sqrt_one, fromRotationAxes_identity_axes]

end ToPosRotEval

section ClaimC6Witness

theorem normSq_identity : Quat.normSq Quat.identity = 1 := by
  norm_num [Quat.normSq, Quat.identity]

theorem normSq_to_pos_rot_snd {a : Affine3A} (h : a.matrix3 = Mat3A.identity) :
    Quat.normSq (to_pos_rot a).2 = 1 := by
  obtain ⟨m, t⟩ := a
  simp only at h
  subst h
  rw [to_pos_rot_of_identity_matrix]
  exact normSq_identity

/-- Witness for C6: at the concrete tick input inputs0 / stateBothNear both
hypotheses hold (identity warm-start orientations, identity seed orientations)
and every landmark orientation of the final pose has unit norm. -/
theorem claim_C6_witness :
    (∀ n, Quat.normSq (stateBothNear.node_rotations n) = 1) ∧
    (∀ e ∈ fixed_nodes inputs0 stateBothNear, Quat.normSq e.2.2 = 1) ∧
    (∀ n, Quat.normSq
      ((inverse_kinematics_system inputs0 stateBothNear).node_rotations n) = 1) := by
  have hrot : ∀ n, Quat.normSq (stateBothNear.node_rotations n) = 1 := by
    intro n
    exact normSq_identity
  have hseed : ∀ e ∈ fixed_nodes inputs0 stateBothNear, Quat.normSq e.2.2 = 1 := by
    intro e he
    simp only [fixed_nodes, List.mem_cons, List.not_mem_nil, or_false] at he
    rcases he with rfl|rfl|rfl|rfl|rfl|rfl|rfl|rfl|rfl|rfl|rfl|rfl|rfl|rfl|rfl <;>
      apply normSq_to_pos_rot_snd <;>
      first
        | rfl
        | (rw [base_inputs0]; rfl)
        | (rw [base_inputs0, Affine3A.mul_identity_left]; rfl)
        | simp [head_center_in_stage, neck_root_in_stage, left_palm_in_stage,
            right_palm_in_stage, left_wrist_in_stage, right_wrist_in_stage, inputs0, hmd0,
            head_center_in_hmd, neck_root_in_head_center, left_wrist_in_palm,
            right_wrist_in_palm, Affine3A.fromTranslation, Affine3A.mul,
            Affine3A.identityA, Mat3A.mulMat_identity_left]
  exact ⟨hrot, hseed,
    (claim_C6_orientations_renormalized inputs0 stateBothNear hrot hseed).2.2⟩

end ClaimC6Witness

section ClaimC7

/-- The predicted positions after both external collaborators have applied
their corrections, exactly as computed inside xpbd_substep. -/
def xpbdPointsNext (shapeResolve : ℝ → ℝ → ℝ → List Vec3A → List Vec3A)
    (collide : ℝ → List Vec3A → List Vec3A)
    (params : SimulationParams) (s : XpbdState) : List Vec3A :=
  collide params.stiction_factor
    (shapeResolve params.shape_compliance params.particle_mass⁻¹ params.dt
      (predictPositions s.points_curr
        (integrateVelocities s.velocities params.acc params.dt) params.dt))

/-- C7: the velocity stored after the velocity-update stage (the one handed to
the damping pass) is (positionNext - positionCurrent) / dt where positionNext
includes the collaborator corrections; when a collaborator moves the predicted
position of particle k by delta d, the recomputed velocity is the integrated
velocity plus d / dt - the realized displacement over dt, not the velocity
integrated from forces. -/
theorem claim_C7_velocity_reconciliation
    (shapeResolve : ℝ → ℝ → ℝ → List Vec3A → List Vec3A)
    (collide : ℝ → List Vec3A → List Vec3A)
    (damping : List Vec3A → List Vec3A → ℝ → ℝ → List Vec3A)
    (params : SimulationParams) (s : XpbdState) (k : ℕ) (nx cur pr v d : Vec3A)
    (hnx : (xpbdPointsNext shapeResolve collide params s).get? k = some nx)
    (hcur : s.points_curr.get? k = some cur)
    (hpr : (predictPositions s.points_curr
        (integrateVelocities s.velocities params.acc params.dt) params.dt).get? k = some pr)
    (hv : (integrateVelocities s.velocities params.acc params.dt).get? k = some v)
    (hd : nx = Vec3A.add pr d)
    (hdt : params.dt ≠ 0) :
    (xpbd_substep shapeResolve collide damping params s).velocities =
      damping (xpbdPointsNext shapeResolve collide params s)
        (updatedVelocities (xpbdPointsNext shapeResolve collide params s)
          s.points_curr params.dt) params.shape_damping params.dt ∧
    (updatedVelocities (xpbdPointsNext shapeResolve collide params s)
        s.points_curr params.dt).get? k =
      some (Vec3A.vdiv (Vec3A.sub nx cur) params.dt) ∧
    Vec3A.vdiv (Vec3A.sub nx cur) params.dt =
      Vec3A.add v (Vec3A.vdiv d params.dt) := by
  refine ⟨rfl, ?_, ?_⟩
  · have hz : ((xpbdPointsNext shapeResolve collide params s).zip s.points_curr).get? k =
        some (nx, cur) :=
      (List.get?_zip_eq_some _ _ _ _).mpr ⟨hnx, hcur⟩
    rw [updatedVelocities, List.get?_map, hz]
    rfl
  · have hpred : pr = Vec3A.add cur (Vec3A.smul v params.dt) := by
      rw [predictPositions, List.get?_map] at hpr
      obtain ⟨z, hz, hfz⟩ := Option.map_eq_some'.mp hpr
      obtain ⟨hz1, hz2⟩ := (List.get?_zip_eq_some _ _ _ _).mp hz
      rw [hcur] at hz1
      rw [hv] at hz2
      obtain rfl : z.1 = cur := (Option.some.injEq _ _).mp hz1.symm
      obtain rfl : z.2 = v := (Option.some.injEq _ _).mp hz2.symm
      exact hfz.symm
    rw [hd, hpred]
    simp only [Vec3A.vdiv, Vec3A.sub, Vec3A.add, Vec3A.smul]
    refine Vec3A.eq_iff_comps.mpr ⟨?_, ?_, ?_⟩ <;> (field_simp; ring)

/-- Identity shape-matching collaborator for the witness. -/
def shpId : ℝ → ℝ → ℝ → List Vec3A → List Vec3A := fun _ _ _ pts => pts

/-- Collision collaborator moving every point by (0, 0, 3) for the witness. -/
def colShift : ℝ → List Vec3A → List Vec3A :=
  fun _ pts => pts.map (fun p => Vec3A.add p ⟨0, 0, 3⟩)

/-- Identity damping collaborator for the witness. -/
def dampId : List Vec3A → List Vec3A → ℝ → ℝ → List Vec3A := fun _ vels _ _ => vels

def params1 : SimulationParams := ⟨1/2, ⟨0, -10, 0⟩, 1, 0, 0, 0⟩

def xstate1 : XpbdState := ⟨[⟨0, 0, 0⟩], [⟨1, 0, 0⟩]⟩

/-- Witness for C7: one particle, dt = 1/2, gravity-like acceleration, and a
collision collaborator that moves the predicted position by (0, 0, 3): the
recomputed velocity is the integrated velocity plus (0, 0, 3)/dt. -/
theorem claim_C7_witness :
    (updatedVelocities (xpbdPointsNext shpId colShift params1 xstate1)
        xstate1.points_curr params1.dt).get? 0 =
      some (Vec3A.vdiv (Vec3A.sub ⟨1/2, -(5/2), 3⟩ ⟨0, 0, 0⟩) params1.dt) ∧
    Vec3A.vdiv (Vec3A.sub ⟨1/2, -(5/2), 3⟩ ⟨0, 0, 0⟩) params1.dt =
      Vec3A.add ⟨1, -5, 0⟩ (Vec3A.vdiv ⟨0, 0, 3⟩ params1.dt) := by
  have h := claim_C7_velocity_reconciliation shpId colShift dampId params1 xstate1 0
    ⟨1/2, -(5/2), 3⟩ ⟨0, 0, 0⟩ ⟨1/2, -(5/2), 0⟩ ⟨1, -5, 0⟩ ⟨0, 0, 3⟩
    (by norm_num [xpbdPointsNext, shpId, colShift, predictPositions, integrateVelocities,
      params1, xstate1, Vec3A.add, Vec3A.smul])
    rfl
    (by norm_num [predictPositions, integrateVelocities, params1, xstate1,
      Vec3A.add, Vec3A.smul])
    (by norm_num [integrateVelocities, params1, xstate1, Vec3A.add, Vec3A.smul])
    (by norm_num [Vec3A.add])
    (by norm_num [params1])
  exact ⟨h.2.1, h.2.2⟩

end ClaimC7

section SatisfiedProjection

theorem Vec3A.add_zero_vec (w : Vec3A) : Vec3A.add w ⟨0, 0, 0⟩ = w := by
  cases w
  simp [Vec3A.add]

theorem Vec3A.sub_zero_vec (w : Vec3A) : Vec3A.sub w ⟨0, 0, 0⟩ = w := by
  cases w
  simp [Vec3A.sub]

theorem Vec3A.cross_zero_right (r : Vec3A) : Vec3A.cross r ⟨0, 0, 0⟩ = ⟨0, 0, 0⟩ := by
  simp [Vec3A.cross]

theorem quatStep_zero (q : Quat) (s : ℝ) : quatStep q ⟨0, 0, 0⟩ s = q := by
  cases q
  simp [quatStep, Quat.ofVec, Quat.qmul]

theorem normalize_identity : Quat.normalize Quat.identity = Quat.identity := by
  have h1 : Quat.normSq Quat.identity = 1 := normSq_identity
  simp only [Quat.normalize, Quat.length, h1, Real.sqrt_one]
  norm_num [Quat.identity]

theorem rotate_identity (v : Vec3A) : Quat.rotate Quat.identity v = v := by
  cases v
  simp only [Quat.rotate, Quat.identity, Vec3A.dot, Vec3A.smul, Vec3A.add, Vec3A.cross]
  norm_num

/-- A spherical constraint that is exactly satisfied (identity orientations and
coinciding attachment points) projects to the identical pose. -/
theorem sphericalProject_satisfied (c : SphericalConstraint) (p : Pose)
    (ha : p.rot c.node_a = Quat.identity) (hb : p.rot c.node_b = Quat.identity)
    (hsat : Vec3A.add (p.pos c.node_a) c.point_in_a =
      Vec3A.add (p.pos c.node_b) c.point_in_b) :
    sphericalProject c p = p := by
  obtain ⟨pp, pr⟩ := p
  simp only at ha hb hsat
  have hr1 : Quat.rotate (pr c.node_a) c.point_in_a = c.point_in_a := by
    rw [ha, rotate_identity]
  have hr2 : Quat.rotate (pr c.node_b) c.point_in_b = c.point_in_b := by
    rw [hb, rotate_identity]
  have hcorr : Vec3A.cdiv (Vec3A.neg (Vec3A.sub
      (Vec3A.add (pp c.node_a) (Quat.rotate (pr c.node_a) c.point_in_a))
      (Vec3A.add (pp c.node_b) (Quat.rotate (pr c.node_b) c.point_in_b))))
      (Vec3A.add (leverWeight (Quat.rotate (pr c.node_a) c.point_in_a))
        (leverWeight (Quat.rotate (pr c.node_b) c.point_in_b))) = ⟨0, 0, 0⟩ := by
    rw [hr1, hr2, hsat]
    simp [Vec3A.sub, Vec3A.neg, Vec3A.cdiv]
  simp only [sphericalProject]
  rw [hcorr, Vec3A.add_zero_vec, Function.update_eq_self]
  rw [Vec3A.sub_zero_vec, Function.update_eq_self]
  rw [Vec3A.cross_zero_right, Vec3A.cross_zero_right, quatStep_zero, ha,
    normalize_identity, ← ha, Function.update_eq_self]
  rw [quatStep_zero, hb, normalize_identity, ← hb, Function.update_eq_self]

end SatisfiedProjection

section ClaimC3

theorem foldl_fixpoint {α β : Type} (f : β → α → β) (b : β) :
    ∀ (l : List α), (∀ a ∈ l, f b a = b) → l.foldl f b = b := by
  intro l
  induction l with
  | nil => intro _; rfl
  | cons hd tl ih =>
      intro h
      rw [List.foldl_cons, h hd (List.mem_cons_self hd tl)]
      exact ih fun a ha => h a (List.mem_cons_of_mem hd ha)

theorem mul_transl (t1 t2 : Vec3A) :
    Affine3A.mul ⟨Mat3A.identity, t1⟩ ⟨Mat3A.identity, t2⟩ =
      ⟨Mat3A.identity, Vec3A.add t2 t1⟩ := by
  simp [Affine3A.mul, Mat3A.mulMat_identity_left, Mat3A.mulVec_identity]

/-- Warm-start positions that satisfy every spherical constraint exactly with
identity orientations, while the two left-collarbone attachment points
coincide. -/
def posC3 : IkNodeID → Vec3A := fun n =>
  match n with
  | IkNodeID.Hmd => ⟨0, 159/100, -(1/10)⟩
  | IkNodeID.HeadCenter => ⟨0, 159/100, 0⟩
  | IkNodeID.NeckRoot => ⟨0, 149/100, 0⟩
  | IkNodeID.Torso => ⟨0, 127/100, 0⟩
  | IkNodeID.Pelvis => ⟨0, 97/100, 0⟩
  | IkNodeID.Base => ⟨0, 0, 0⟩
  | IkNodeID.BalancePoint => ⟨0, 0, 0⟩
  | IkNodeID.LeftAim => ⟨0, 0, 0⟩
  | IkNodeID.LeftGrip => ⟨-(3/200), 37/25, -(5/8)⟩
  | IkNodeID.LeftPalm => ⟨-(3/200), 37/25, -(5/8)⟩
  | IkNodeID.LeftWrist => ⟨-(3/100), 147/100, -(14/25)⟩
  | IkNodeID.LeftLowerArm => ⟨-(3/100), 147/100, -(21/50)⟩
  | IkNodeID.LeftUpperArm => ⟨-(3/100), 147/100, -(7/50)⟩
  | IkNodeID.LeftUpperLeg => ⟨-(13/100), 7/10, 0⟩
  | IkNodeID.LeftLowerLeg => ⟨-(13/100), 3/10, 0⟩
  | IkNodeID.LeftFoot => ⟨-(13/100), 0, 0⟩
  | IkNodeID.RightAim => ⟨0, 0, 0⟩
  | IkNodeID.RightGrip => ⟨3/200, 37/25, -(5/8)⟩
  | IkNodeID.RightPalm => ⟨3/200, 37/25, -(5/8)⟩
  | IkNodeID.RightWrist => ⟨3/100, 147/100, -(14/25)⟩
  | IkNodeID.RightLowerArm => ⟨3/100, 147/100, -(21/50)⟩
  | IkNodeID.RightUpperArm => ⟨3/100, 147/100, -(7/50)⟩
  | IkNodeID.RightUpperLeg => ⟨13/100, 7/10, 0⟩
  | IkNodeID.RightLowerLeg => ⟨13/100, 3/10, 0⟩
  | IkNodeID.RightFoot => ⟨13/100, 0, 0⟩

def poseC3 : Pose := ⟨posC3, fun _ => Quat.identity⟩

def inputsC3 : IkInputs :=
  ⟨⟨Mat3A.identity, ⟨0, 159/100, -(1/10)⟩⟩,
   ⟨Mat3A.identity, ⟨-(3/200), 37/25, -(5/8)⟩⟩, Affine3A.identityA,
   ⟨Mat3A.identity, ⟨3/200, 37/25, -(5/8)⟩⟩, Affine3A.identityA⟩

def stateC3 : IkState :=
  ⟨some ⟨Mat3A.identity, ⟨-(13/100), 0, 0⟩⟩, some ⟨Mat3A.identity, ⟨13/100, 0, 0⟩⟩,
   WeightDistribution.SharedWeight, posC3, fun _ => Quat.identity⟩

theorem head_center_inputsC3 :
    head_center_in_stage inputsC3 = ⟨Mat3A.identity, ⟨0, 159/100, 0⟩⟩ := by
  rw [head_center_in_stage,
    show inputsC3.hmd_in_stage = (⟨Mat3A.identity, ⟨0, 159/100, -(1/10)⟩⟩ : Affine3A)
      from rfl,
    show head_center_in_hmd = (⟨Mat3A.identity, ⟨0, 0, 1/10⟩⟩ : Affine3A) from rfl,
    mul_transl]
  norm_num [Vec3A.add]

theorem neck_root_inputsC3 :
    neck_root_in_stage inputsC3 = ⟨Mat3A.identity, ⟨0, 149/100, 0⟩⟩ := by
  rw [neck_root_in_stage, head_center_inputsC3,
    show neck_root_in_head_center = (⟨Mat3A.identity, ⟨0, -(1/10), 0⟩⟩ : Affine3A)
      from rfl,
    mul_transl]
  norm_num [Vec3A.add]

theorem base_inputsC3 : base_in_stage inputsC3 = Affine3A.identityA := by
  simp only [base_in_stage, neck_root_inputsC3, Mat3A.identity, Vec3A.normalize,
    Vec3A.length, Vec3A.lengthSquared, Vec3A.dot, Vec3A.smul, Vec3A.cross, Vec3A.unitY,
    Affine3A.identityA, Vec3A.zero]
  norm_num

theorem left_wrist_inputsC3 :
    left_wrist_in_stage inputsC3 = ⟨Mat3A.identity, ⟨-(3/100), 147/100, -(14/25)⟩⟩ := by
  rw [left_wrist_in_stage,
    show left_palm_in_stage inputsC3 =
      (⟨Mat3A.identity, ⟨-(3/200), 37/25, -(5/8)⟩⟩ : Affine3A) from rfl,
    show left_wrist_in_palm =
      (⟨Mat3A.identity, ⟨-(15/1000), -(1/100), 65/1000⟩⟩ : Affine3A) from rfl,
    mul_transl]
  norm_num [Vec3A.add]

theorem right_wrist_in_palm_eval :
    right_wrist_in_palm = ⟨Mat3A.identity, ⟨15/1000, -(1/100), 65/1000⟩⟩ := by
  simp only [right_wrist_in_palm, left_wrist_in_palm, Affine3A.fromTranslation,
    Vec3A.cmul]
  norm_num

theorem right_wrist_inputsC3 :
    right_wrist_in_stage inputsC3 = ⟨Mat3A.identity, ⟨3/100, 147/100, -(14/25)⟩⟩ := by
  rw [right_wrist_in_stage,
    show right_palm_in_stage inputsC3 =
      (⟨Mat3A.identity, ⟨3/200, 37/25, -(5/8)⟩⟩ : Affine3A) from rfl,
    right_wrist_in_palm_eval, mul_transl]
  norm_num [Vec3A.add]

theorem left_foot_in_base_inputsC3 :
    left_foot_in_base inputsC3 stateC3 = ⟨Mat3A.identity, ⟨-(13/100), 0, 0⟩⟩ := by
  simp [left_foot_in_base, left_foot_current, stateC3, base_inputsC3,
    Affine3A.inverse_identityA, Affine3A.mul_identity_left]

theorem right_foot_in_base_inputsC3 :
    right_foot_in_base inputsC3 stateC3 = ⟨Mat3A.identity, ⟨13/100, 0, 0⟩⟩ := by
  simp [right_foot_in_base, right_foot_current, stateC3, base_inputsC3,
    Affine3A.inverse_identityA, Affine3A.mul_identity_left]

theorem balance_inputsC3 : balance_point_in_base inputsC3 stateC3 = ⟨0, 0, 0⟩ := by
  simp only [balance_point_in_base, left_foot_in_base_inputsC3,
    right_foot_in_base_inputsC3, Vec3A.sub, Vec3A.zero, Vec3A.dot, Vec3A.add,
    Vec3A.smul, clamp]
  norm_num

theorem fixed_nodes_inputsC3 :
    fixed_nodes inputsC3 stateC3 = [
      (IkNodeID.Hmd, ⟨0, 159/100, -(1/10)⟩, Quat.identity),
      (IkNodeID.HeadCenter, ⟨0, 159/100, 0⟩, Quat.identity),
      (IkNodeID.NeckRoot, ⟨0, 149/100, 0⟩, Quat.identity),
      (IkNodeID.Base, ⟨0, 0, 0⟩, Quat.identity),
      (IkNodeID.BalancePoint, ⟨0, 0, 0⟩, Quat.identity),
      (IkNodeID.LeftGrip, ⟨-(3/200), 37/25, -(5/8)⟩, Quat.identity),
      (IkNodeID.LeftAim, ⟨0, 0, 0⟩, Quat.identity),
      (IkNodeID.LeftPalm, ⟨-(3/200), 37/25, -(5/8)⟩, Quat.identity),
      (IkNodeID.LeftWrist, ⟨-(3/100), 147/100, -(14/25)⟩, Quat.identity),
      (IkNodeID.RightGrip, ⟨3/200, 37/25, -(5/8)⟩, Quat.identity),
      (IkNodeID.RightAim, ⟨0, 0, 0⟩, Quat.identity),
      (IkNodeID.RightPalm, ⟨3/200, 37/25, -(5/8)⟩, Quat.identity),
      (IkNodeID.RightWrist, ⟨3/100, 147/100, -(14/25)⟩, Quat.identity),
      (IkNodeID.LeftFoot, ⟨-(13/100), 0, 0⟩, Quat.identity),
      (IkNodeID.RightFoot, ⟨13/100, 0, 0⟩, Quat.identity) ] := by
  rw [fixed_nodes, head_center_inputsC3, neck_root_inputsC3, base_inputsC3,
    balance_inputsC3]
  rw [show left_palm_in_stage inputsC3 =
      (⟨Mat3A.identity, ⟨-(3/200), 37/25, -(5/8)⟩⟩ : Affine3A) from rfl,
    show right_palm_in_stage inputsC3 =
      (⟨Mat3A.identity, ⟨3/200, 37/25, -(5/8)⟩⟩ : Affine3A) from rfl,
    left_wrist_inputsC3, right_wrist_inputsC3]
  rw [show left_foot_current inputsC3 stateC3 =
      (⟨Mat3A.identity, ⟨-(13/100), 0, 0⟩⟩ : Affine3A) from rfl,
    show right_foot_current inputsC3 stateC3 =
      (⟨Mat3A.identity, ⟨13/100, 0, 0⟩⟩ : Affine3A) from rfl]
  rw [show inputsC3.hmd_in_stage =
      (⟨Mat3A.identity, ⟨0, 159/100, -(1/10)⟩⟩ : Affine3A) from rfl,
    show inputsC3.left_grip_in_stage =
      (⟨Mat3A.identity, ⟨-(3/200), 37/25, -(5/8)⟩⟩ : Affine3A) from rfl,
    show inputsC3.left_aim_in_stage = (⟨Mat3A.identity, ⟨0, 0, 0⟩⟩ : Affine3A) from rfl,
    show inputsC3.right_grip_in_stage =
      (⟨Mat3A.identity, ⟨3/200, 37/25, -(5/8)⟩⟩ : Affine3A) from rfl,
    show inputsC3.right_aim_in_stage = (⟨Mat3A.identity, ⟨0, 0, 0⟩⟩ : Affine3A) from rfl]
  rw [Affine3A.mul_identity_left]
  rw [show Affine3A.identityA = (⟨Mat3A.identity, ⟨0, 0, 0⟩⟩ : Affine3A) from rfl]
  simp only [Affine3A.fromTranslation, to_pos_rot_of_identity_matrix]

theorem applySeeds_poseC3 :
    applySeeds (fixed_nodes inputsC3 stateC3) poseC3 = poseC3 := by
  rw [fixed_nodes_inputsC3]
  simp only [applySeeds_cons]
  rw [show applySeeds [] = (fun p : Pose => p) from rfl]
  simp only [poseC3]
  congr 1
  · funext n
    cases n <;> simp [Function.update, posC3]
  · funext n
    cases n <;> simp [Function.update]

theorem sphFold_poseC3 :
    spherical_constraints.foldl (fun q c => sphericalProject c q) poseC3 = poseC3 := by
  apply foldl_fixpoint
  intro c hc
  simp only [spherical_constraints, List.mem_cons, List.not_mem_nil, or_false] at hc
  rcases hc with rfl|rfl|rfl|rfl|rfl|rfl|rfl|rfl|rfl|rfl|rfl|rfl <;>
    exact sphericalProject_satisfied _ _ rfl rfl (by
      norm_num [poseC3, posC3, Vec3A.add, left_wrist_in_palm, right_wrist_in_palm,
        wrist_in_lower_arm, elbow_in_lower_arm, elbow_in_upper_arm,
        neck_root_in_head_center, neck_root_in_torso, lower_back_in_torso,
        lower_back_in_pelvis, left_hip_in_pelvis, right_hip_in_pelvis, hip_in_upper_leg,
        knee_in_upper_leg, knee_in_lower_leg, ankle_in_lower_leg, ankle_in_foot,
        lower_arm_length, upper_arm_length, neck_root_height_in_torso,
        lower_back_height_in_torso, lower_back_height_in_pelvis, hip_width,
        hip_height_in_pelvis, upper_leg_length, lower_leg_length, ankle_height,
        Affine3A.fromTranslation, Vec3A.cmul])

/-- The left collarbone distance constraint, head of the tick's
distance-constraint table. -/
def left_collarbone : DistanceConstraint :=
  { node_a := IkNodeID.LeftUpperArm, node_b := IkNodeID.Torso,
    point_in_a := shoulder_in_upper_arm, point_in_b := left_sc_joint_in_torso,
    distance := collarbone_length }

/-- C3: there is a reachable solver pose at which the two world-space
attachment points of the left collarbone distance constraint coincide: at the
concrete tick input inputsC3 / stateC3, iteration 1 reaches exactly poseC3
after seeding and all spherical projections (every spherical constraint is
exactly satisfied), and at poseC3 the separation length v_length computed by
the distance-constraint code for the first distance constraint is 0 while the
constraint error v_length - distance is nonzero, so the unguarded correction
(-c / ((w1 + w2) * v_length)) * v divides by zero. -/
theorem claim_C3_distance_division_by_zero_reachable :
    spherical_constraints.foldl (fun q c => sphericalProject c q)
      (applySeeds (fixed_nodes inputsC3 stateC3)
        ⟨stateC3.node_positions, stateC3.node_rotations⟩) = poseC3 ∧
    distance_constraints.get? 0 = some left_collarbone ∧
    Vec3A.length (Vec3A.sub
      (Vec3A.add (poseC3.pos left_collarbone.node_a)
        (Quat.rotate (poseC3.rot left_collarbone.node_a) left_collarbone.point_in_a))
      (Vec3A.add (poseC3.pos left_collarbone.node_b)
        (Quat.rotate (poseC3.rot left_collarbone.node_b) left_collarbone.point_in_b)))
      = 0 ∧
    Vec3A.length (Vec3A.sub
      (Vec3A.add (poseC3.pos left_collarbone.node_a)
        (Quat.rotate (poseC3.rot left_collarbone.node_a) left_collarbone.point_in_a))
      (Vec3A.add (poseC3.pos left_collarbone.node_b)
        (Quat.rotate (poseC3.rot left_collarbone.node_b) left_collarbone.point_in_b)))
      - left_collarbone.distance ≠ 0 := by
  have hv : Vec3A.sub
      (Vec3A.add (poseC3.pos left_collarbone.node_a)
        (Quat.rotate (poseC3.rot left_collarbone.node_a) left_collarbone.point_in_a))
      (Vec3A.add (poseC3.pos left_collarbone.node_b)
        (Quat.rotate (poseC3.rot left_collarbone.node_b) left_collarbone.point_in_b)) =
      ⟨0, 0, 0⟩ := by
    rw [show poseC3.rot left_collarbone.node_a = Quat.identity from rfl,
      show poseC3.rot left_collarbone.node_b = Quat.identity from rfl,
      rotate_identity, rotate_identity]
    norm_num [poseC3, posC3, left_collarbone, shoulder_in_upper_arm,
      left_sc_joint_in_torso, upper_arm_length, sternum_width,
      sternum_height_in_torso, Vec3A.add, Vec3A.sub]
  have hlen : Vec3A.length (Vec3A.sub
      (Vec3A.add (poseC3.pos left_collarbone.node_a)
        (Quat.rotate (poseC3.rot left_collarbone.node_a) left_collarbone.point_in_a))
      (Vec3A.add (poseC3.pos left_collarbone.node_b)
        (Quat.rotate (poseC3.rot left_collarbone.node_b) left_collarbone.point_in_b)))
      = 0 := by
    rw [hv, Vec3A.length_eval (le_refl (0:ℝ))
      (by norm_num [Vec3A.lengthSquared, Vec3A.dot])]
  refine ⟨?_, rfl, hlen, ?_⟩
  · rw [show (⟨stateC3.node_positions, stateC3.node_rotations⟩ : Pose) = poseC3 from rfl,
      applySeeds_poseC3, sphFold_poseC3]
  · rw [hlen]
    norm_num [left_collarbone, collarbone_length]

end ClaimC3

section C1Steps

/-- One atomic step of the solver loop: a re-seeding of the driven landmarks or
a single constraint projection. -/
inductive SolveStep where
  | seed (l : List (IkNodeID × Vec3A × Quat))
  | sph (c : SphericalConstraint)
  | dist (c : DistanceConstraint)

def stepSem (p : Pose) : SolveStep → Pose
  | SolveStep.seed l => applySeeds l p
  | SolveStep.sph c => sphericalProject c p
  | SolveStep.dist c => distanceProject c p

/-- One solver iteration as a flat step list. -/
def ikPassSteps (fixed : List (IkNodeID × Vec3A × Quat)) : List SolveStep :=
  SolveStep.seed fixed ::
    (spherical_constraints.map SolveStep.sph ++ distance_constraints.map SolveStep.dist)

theorem solveIteration_eq_foldl (fixed : List (IkNodeID × Vec3A × Quat)) (p : Pose) :
    solveIteration fixed p = (ikPassSteps fixed).foldl stepSem p := by
  simp only [ikPassSteps, solveIteration, List.foldl_cons, List.foldl_append,
    List.foldl_map]
  rfl

end C1Steps

section C1Machine

/-- Abstract counterpart of a SolveStep used by the certified upper-bound
machine: seed steps carry the rational Y-values of the seeds, projections
carry the two touched landmarks, a bound m on |r1.y| + |r2.y| (plus the rest
distance for distance constraints) and a rational lower bound invSu on the
reciprocal of the combined Y-weight. -/
inductive UStep where
  | seed (l : List (IkNodeID × ℚ))
  | proj (a b : IkNodeID) (m invSu : ℚ)

/-- Sound pointwise upper-bound transformer on per-landmark Y-ceilings. -/
def ubStep (u : IkNodeID → ℚ) : UStep → (IkNodeID → ℚ)
  | UStep.seed l => l.foldl (fun v nd => Function.update v nd.1 nd.2) u
  | UStep.proj a b m invSu =>
      Function.update (Function.update u a
          (max (u a) (u a + max ((u b + m - u a) / 2) ((u b + m - u a) * invSu))))
        b (max (u b) (u b + max ((u a + m - u b) / 2) ((u a + m - u b) * invSu)))

/-- Side conditions tying a real constraint to its abstract projection data. -/
def ProjOk (na nb : IkNodeID) (pa pb : Vec3A) (d : ℝ) (a b : IkNodeID)
    (m invSu : ℚ) : Prop :=
  a = na ∧ b = nb ∧ 0 < invSu ∧
  (invSu : ℝ) * (2 + Vec3A.lengthSquared pa + Vec3A.lengthSquared pb) ≤ 1 ∧
  Real.sqrt (Vec3A.lengthSquared pa) + Real.sqrt (Vec3A.lengthSquared pb) + d ≤ (m : ℝ) ∧
  0 ≤ d

def StepOk : SolveStep → UStep → Prop
  | SolveStep.seed l, UStep.seed ql =>
      List.Forall₂ (fun e f => e.1 = f.1 ∧ (e.2.1).y ≤ ((f.2 : ℚ) : ℝ) ∧
        Quat.normSq e.2.2 = 1) l ql
  | SolveStep.sph c, UStep.proj a b m invSu =>
      ProjOk c.node_a c.node_b c.point_in_a c.point_in_b 0 a b m invSu
  | SolveStep.dist c, UStep.proj a b m invSu =>
      ProjOk c.node_a c.node_b c.point_in_a c.point_in_b c.distance a b m invSu
  | SolveStep.seed _, UStep.proj _ _ _ _ => False
  | SolveStep.sph _, UStep.seed _ => False
  | SolveStep.dist _, UStep.seed _ => False

/-- The certified invariant: every landmark's Y-coordinate is below its
rational ceiling, and every orientation is a unit quaternion. -/
def SoundEnv (p : Pose) (u : IkNodeID → ℚ) : Prop :=
  (∀ n, (p.pos n).y ≤ ((u n : ℚ) : ℝ)) ∧ (∀ n, Quat.normSq (p.rot n) = 1)

theorem soundEnv_mono {p : Pose} {u v : IkNodeID → ℚ} (h : SoundEnv p u)
    (huv : ∀ n, u n ≤ v n) : SoundEnv p v := by
  refine ⟨fun n => le_trans (h.1 n) ?_, h.2⟩
  exact_mod_cast huv n

/-- The central convexity bound: a Gauss-Seidel Y-update
x + (y + D - x)/s with weight sum s between 2 and 1/invSu stays below the
machine's ceiling update. -/
theorem convex_step_le {x y D s A B m invSu : ℝ}
    (hx : x ≤ A) (hy : y ≤ B) (hD : D ≤ m)
    (hs2 : 2 ≤ s) (hinv : 0 < invSu) (hsinv : invSu * s ≤ 1) :
    x + (y + D - x) / s ≤ max A (A + max ((B + m - A) / 2) ((B + m - A) * invSu)) := by
  have hs0 : (0:ℝ) < s := by linarith
  have hw0 : (0:ℝ) < s⁻¹ := inv_pos.mpr hs0
  have hw2 : s⁻¹ ≤ 1 / 2 := by
    rw [← one_div]
    exact one_div_le_one_div_of_le (by norm_num) hs2
  have hwinv : invSu ≤ s⁻¹ := by
    rw [← one_div]
    exact (le_div_iff hs0).mpr hsinv
  rw [div_eq_mul_inv]
  rcases le_or_lt 0 (B + m - A) with hc | hc
  · have key : x + (y + D - x) * s⁻¹ ≤ A + (B + m - A) / 2 := by
      nlinarith [mul_nonneg (sub_nonneg.mpr hx) (by linarith : (0:ℝ) ≤ 1 - s⁻¹),
        mul_nonneg hc (by linarith : (0:ℝ) ≤ 1 / 2 - s⁻¹),
        mul_nonneg (by linarith : (0:ℝ) ≤ B + m - y - D) (le_of_lt hw0)]
    exact le_trans key (le_trans (add_le_add_left (le_max_left _ _) A) (le_max_right _ _))
  · have key : x + (y + D - x) * s⁻¹ ≤ A + (B + m - A) * invSu := by
      nlinarith [mul_nonneg (sub_nonneg.mpr hx) (by linarith : (0:ℝ) ≤ 1 - s⁻¹),
        mul_nonneg (by linarith : (0:ℝ) ≤ A - B - m) (by linarith : (0:ℝ) ≤ s⁻¹ - invSu),
        mul_nonneg (by linarith : (0:ℝ) ≤ B + m - y - D) (le_of_lt hw0)]
    exact le_trans key (le_trans (add_le_add_left (le_max_right _ _) A) (le_max_right _ _))

theorem abs_y_le_sqrt_lengthSquared (v : Vec3A) :
    |v.y| ≤ Real.sqrt (Vec3A.lengthSquared v) := by
  rw [← Real.sqrt_sq_eq_abs]
  apply Real.sqrt_le_sqrt
  simp only [Vec3A.lengthSquared, Vec3A.dot]
  nlinarith [mul_self_nonneg v.x, mul_self_nonneg v.z]

theorem sqrt_le_of_sq {x y : ℝ} (hy : 0 ≤ y) (h : x ≤ y * y) :
    Real.sqrt x ≤ y := by
  calc Real.sqrt x ≤ Real.sqrt (y * y) := Real.sqrt_le_sqrt h
  _ = y := Real.sqrt_mul_self hy

theorem leverWeight_y_bounds (r : Vec3A) :
    1 ≤ (leverWeight r).y ∧ (leverWeight r).y ≤ 1 + Vec3A.lengthSquared r := by
  simp only [leverWeight, Vec3A.cmul, Vec3A.lengthSquared, Vec3A.dot]
  constructor <;> nlinarith [mul_self_nonneg r.x, mul_self_nonneg r.y, mul_self_nonneg r.z]

end C1Machine

section C1ProjSound

theorem update2_pos_y_le (pp : IkNodeID → Vec3A) (u : IkNodeID → ℚ) (a b : IkNodeID)
    (corr : Vec3A) (m invSu : ℚ)
    (hall : ∀ n, (pp n).y ≤ ((u n : ℚ) : ℝ))
    (hA : (pp a).y + corr.y ≤
      ((max (u a) (u a + max ((u b + m - u a) / 2) ((u b + m - u a) * invSu)) : ℚ) : ℝ))
    (hB : (pp b).y - corr.y ≤
      ((max (u b) (u b + max ((u a + m - u b) / 2) ((u a + m - u b) * invSu)) : ℚ) : ℝ)) :
    ∀ n, ((Function.update (Function.update pp a (Vec3A.add (pp a) corr)) b
        (Vec3A.sub (Function.update pp a (Vec3A.add (pp a) corr) b) corr)) n).y ≤
      ((ubStep u (UStep.proj a b m invSu) n : ℚ) : ℝ) := by
  intro n
  simp only [ubStep]
  by_cases hnb : n = b
  · subst hnb
    rw [Function.update_same, Function.update_same]
    by_cases hba : n = a
    · rw [hba, Function.update_same]
      have hval : (Vec3A.sub (Vec3A.add (pp a) corr) corr).y = (pp a).y := by
        simp [Vec3A.sub, Vec3A.add]
      rw [hval]
      refine le_trans ?_ (Rat.cast_le.mpr (le_max_left _ _))
      rw [← hba]
      exact hall n
    · rw [Function.update_noteq hba]
      have hval : (Vec3A.sub (pp n) corr).y = (pp n).y - corr.y := by
        simp [Vec3A.sub]
      rw [hval]
      exact hB
  · rw [Function.update_noteq hnb, Function.update_noteq hnb]
    by_cases hna : n = a
    · subst hna
      rw [Function.update_same, Function.update_same]
      have hval : (Vec3A.add (pp n) corr).y = (pp n).y + corr.y := by
        simp [Vec3A.add]
      rw [hval]
      exact hA
    · rw [Function.update_noteq hna, Function.update_noteq hna]
      exact hall n

theorem sphericalProject_sound (c : SphericalConstraint) {p : Pose} {u : IkNodeID → ℚ}
    {a b : IkNodeID} {m invSu : ℚ}
    (hok : ProjOk c.node_a c.node_b c.point_in_a c.point_in_b 0 a b m invSu)
    (hs : SoundEnv p u) :
    SoundEnv (sphericalProject c p) (ubStep u (UStep.proj a b m invSu)) := by
  obtain ⟨ha, hb, hinv, hsu, hm, -⟩ := hok
  subst ha
  subst hb
  refine ⟨?_, sphericalProject_rot_unit c p hs.2⟩
  have hall := hs.1
  have hu1 : Quat.normSq (p.rot c.node_a) = 1 := hs.2 c.node_a
  have hu2 : Quat.normSq (p.rot c.node_b) = 1 := hs.2 c.node_b
  simp only [sphericalProject]
  set R1 := Quat.rotate (p.rot c.node_a) c.point_in_a with hR1def
  set R2 := Quat.rotate (p.rot c.node_b) c.point_in_b with hR2def
  have hlsq1 : Vec3A.lengthSquared R1 = Vec3A.lengthSquared c.point_in_a := by
    rw [hR1def, Vec3A.lengthSquared_rotate, hu1]
    ring
  have hlsq2 : Vec3A.lengthSquared R2 = Vec3A.lengthSquared c.point_in_b := by
    rw [hR2def, Vec3A.lengthSquared_rotate, hu2]
    ring
  have hw1 := leverWeight_y_bounds R1
  have hw2 := leverWeight_y_bounds R2
  have hs2 : (2:ℝ) ≤ (leverWeight R1).y + (leverWeight R2).y := by
    linarith [hw1.1, hw2.1]
  have hinvR : (0:ℝ) < (invSu:ℝ) := by exact_mod_cast hinv
  have hssu : (invSu:ℝ) * ((leverWeight R1).y + (leverWeight R2).y) ≤ 1 := by
    have h1 : (leverWeight R1).y + (leverWeight R2).y ≤
        2 + Vec3A.lengthSquared c.point_in_a + Vec3A.lengthSquared c.point_in_b := by
      rw [← hlsq1, ← hlsq2]
      linarith [hw1.2, hw2.2]
    nlinarith [le_of_lt hinvR]
  have hry1 : |R1.y| ≤ Real.sqrt (Vec3A.lengthSquared c.point_in_a) := by
    rw [← hlsq1]
    exact abs_y_le_sqrt_lengthSquared R1
  have hry2 : |R2.y| ≤ Real.sqrt (Vec3A.lengthSquared c.point_in_b) := by
    rw [← hlsq2]
    exact abs_y_le_sqrt_lengthSquared R2
  apply update2_pos_y_le
  · exact hall
  · have hcy : (Vec3A.cdiv (Vec3A.neg (Vec3A.sub (Vec3A.add (p.pos c.node_a) R1)
        (Vec3A.add (p.pos c.node_b) R2)))
        (Vec3A.add (leverWeight R1) (leverWeight R2))).y =
        ((p.pos c.node_b).y + (R2.y - R1.y) - (p.pos c.node_a).y) /
          ((leverWeight R1).y + (leverWeight R2).y) := by
      simp only [Vec3A.cdiv, Vec3A.neg, Vec3A.sub, Vec3A.add]
      ring
    rw [hcy]
    push_cast
    apply convex_step_le (hall c.node_a) (hall c.node_b) ?_ hs2 hinvR hssu
    linarith [le_abs_self R2.y, neg_abs_le R1.y, hry1, hry2, hm]
  · have hcy : (p.pos c.node_b).y - (Vec3A.cdiv (Vec3A.neg (Vec3A.sub
        (Vec3A.add (p.pos c.node_a) R1) (Vec3A.add (p.pos c.node_b) R2)))
        (Vec3A.add (leverWeight R1) (leverWeight R2))).y =
        (p.pos c.node_b).y + ((p.pos c.node_a).y + (R1.y - R2.y) - (p.pos c.node_b).y) /
          ((leverWeight R1).y + (leverWeight R2).y) := by
      simp only [Vec3A.cdiv, Vec3A.neg, Vec3A.sub, Vec3A.add]
      ring
    rw [hcy]
    push_cast
    apply convex_step_le (hall c.node_b) (hall c.node_a) ?_ hs2 hinvR hssu
    linarith [le_abs_self R1.y, neg_abs_le R2.y, hry1, hry2, hm]

theorem distanceProject_sound (c : DistanceConstraint) {p : Pose} {u : IkNodeID → ℚ}
    {a b : IkNodeID} {m invSu : ℚ}
    (hok : ProjOk c.node_a c.node_b c.point_in_a c.point_in_b c.distance a b m invSu)
    (hs : SoundEnv p u) :
    SoundEnv (distanceProject c p) (ubStep u (UStep.proj a b m invSu)) := by
  obtain ⟨ha, hb, hinv, hsu, hm, hd0⟩ := hok
  subst ha
  subst hb
  refine ⟨?_, distanceProject_rot_unit c p hs.2⟩
  have hall := hs.1
  have hu1 : Quat.normSq (p.rot c.node_a) = 1 := hs.2 c.node_a
  have hu2 : Quat.normSq (p.rot c.node_b) = 1 := hs.2 c.node_b
  simp only [distanceProject]
  set R1 := Quat.rotate (p.rot c.node_a) c.point_in_a with hR1def
  set R2 := Quat.rotate (p.rot c.node_b) c.point_in_b with hR2def
  set V := Vec3A.sub (Vec3A.add (p.pos c.node_a) R1) (Vec3A.add (p.pos c.node_b) R2)
    with hVdef
  have hlsq1 : Vec3A.lengthSquared R1 = Vec3A.lengthSquared c.point_in_a := by
    rw [hR1def, Vec3A.lengthSquared_rotate, hu1]
    ring
  have hlsq2 : Vec3A.lengthSquared R2 = Vec3A.lengthSquared c.point_in_b := by
    rw [hR2def, Vec3A.lengthSquared_rotate, hu2]
    ring
  have hw1 := leverWeight_y_bounds R1
  have hw2 := leverWeight_y_bounds R2
  have hs2 : (2:ℝ) ≤ (leverWeight R1).y + (leverWeight R2).y := by
    linarith [hw1.1, hw2.1]
  have hspos : (0:ℝ) < (leverWeight R1).y + (leverWeight R2).y := by linarith
  have hinvR : (0:ℝ) < (invSu:ℝ) := by exact_mod_cast hinv
  have hssu : (invSu:ℝ) * ((leverWeight R1).y + (leverWeight R2).y) ≤ 1 := by
    have h1 : (leverWeight R1).y + (leverWeight R2).y ≤
        2 + Vec3A.lengthSquared c.point_in_a + Vec3A.lengthSquared c.point_in_b := by
      rw [← hlsq1, ← hlsq2]
      linarith [hw1.2, hw2.2]
    nlinarith [le_of_lt hinvR]
  have hry1 : |R1.y| ≤ Real.sqrt (Vec3A.lengthSquared c.point_in_a) := by
    rw [← hlsq1]
    exact abs_y_le_sqrt_lengthSquared R1
  have hry2 : |R2.y| ≤ Real.sqrt (Vec3A.lengthSquared c.point_in_b) := by
    rw [← hlsq2]
    exact abs_y_le_sqrt_lengthSquared R2
  have hcy : ∀ w : Vec3A, (Vec3A.cmul w V).y = w.y * V.y := by
    intro w
    simp [Vec3A.cmul]
  have hdenomy : (Vec3A.smul (Vec3A.add (leverWeight R1) (leverWeight R2))
      (Vec3A.length V)).y =
      ((leverWeight R1).y + (leverWeight R2).y) * Vec3A.length V := by
    simp [Vec3A.smul, Vec3A.add]
  rcases eq_or_lt_of_le (Real.sqrt_nonneg (Vec3A.lengthSquared V)) with hL0 | hLpos
  · -- degenerate separation: the division is by zero, the correction is zero
    have hL : Vec3A.length V = 0 := by
      rw [Vec3A.length]
      exact hL0.symm
    have hcorr0 : (Vec3A.cmul
        ⟨-(Vec3A.length V - c.distance) / (Vec3A.smul (Vec3A.add (leverWeight R1)
            (leverWeight R2)) (Vec3A.length V)).x,
         -(Vec3A.length V - c.distance) / (Vec3A.smul (Vec3A.add (leverWeight R1)
            (leverWeight R2)) (Vec3A.length V)).y,
         -(Vec3A.length V - c.distance) / (Vec3A.smul (Vec3A.add (leverWeight R1)
            (leverWeight R2)) (Vec3A.length V)).z⟩ V).y = 0 := by
      rw [hcy]
      simp [Vec3A.smul, Vec3A.add, hL]
    apply update2_pos_y_le
    · exact hall
    · rw [hcorr0, add_zero]
      exact le_trans (hall c.node_a) (by exact_mod_cast le_max_left _ _)
    · rw [hcorr0, sub_zero]
      exact le_trans (hall c.node_b) (by exact_mod_cast le_max_left _ _)
  · -- nondegenerate separation
    have hL : (0:ℝ) < Vec3A.length V := by
      rw [Vec3A.length]
      exact hLpos
    have hLne : Vec3A.length V ≠ 0 := ne_of_gt hL
    have hvy : |V.y| ≤ Vec3A.length V := abs_y_le_sqrt_lengthSquared V
    have hsne : (leverWeight R1).y + (leverWeight R2).y ≠ 0 := ne_of_gt hspos
    have heub : c.distance * V.y / Vec3A.length V ≤ c.distance := by
      rw [div_le_iff hL]
      nlinarith [le_abs_self V.y]
    have helb : -c.distance ≤ c.distance * V.y / Vec3A.length V := by
      rw [le_div_iff hL]
      nlinarith [neg_abs_le V.y]
    have hVy : V.y = (p.pos c.node_a).y + R1.y - (p.pos c.node_b).y - R2.y := by
      rw [hVdef]
      simp only [Vec3A.sub, Vec3A.add]
      ring
    apply update2_pos_y_le
    · exact hall
    · have hcorr : (Vec3A.cmul
          ⟨-(Vec3A.length V - c.distance) / (Vec3A.smul (Vec3A.add (leverWeight R1)
              (leverWeight R2)) (Vec3A.length V)).x,
           -(Vec3A.length V - c.distance) / (Vec3A.smul (Vec3A.add (leverWeight R1)
              (leverWeight R2)) (Vec3A.length V)).y,
           -(Vec3A.length V - c.distance) / (Vec3A.smul (Vec3A.add (leverWeight R1)
              (leverWeight R2)) (Vec3A.length V)).z⟩ V).y =
          ((p.pos c.node_b).y +
            (R2.y - R1.y + c.distance * V.y / Vec3A.length V) - (p.pos c.node_a).y) /
            ((leverWeight R1).y + (leverWeight R2).y) := by
        rw [hcy]
        dsimp only
        rw [hdenomy, hVy]
        field_simp
        ring
      rw [hcorr]
      push_cast
      apply convex_step_le (hall c.node_a) (hall c.node_b) ?_ hs2 hinvR hssu
      linarith [le_abs_self R2.y, neg_abs_le R1.y, hry1, hry2, hm, heub]
    · have hcorr : (p.pos c.node_b).y - (Vec3A.cmul
          ⟨-(Vec3A.length V - c.distance) / (Vec3A.smul (Vec3A.add (leverWeight R1)
              (leverWeight R2)) (Vec3A.length V)).x,
           -(Vec3A.length V - c.distance) / (Vec3A.smul (Vec3A.add (leverWeight R1)
              (leverWeight R2)) (Vec3A.length V)).y,
           -(Vec3A.length V - c.distance) / (Vec3A.smul (Vec3A.add (leverWeight R1)
              (leverWeight R2)) (Vec3A.length V)).z⟩ V).y =
          (p.pos c.node_b).y +
            ((p.pos c.node_a).y +
              (R1.y - R2.y - c.distance * V.y / Vec3A.length V) - (p.pos c.node_b).y) /
            ((leverWeight R1).y + (leverWeight R2).y) := by
        rw [hcy]
        dsimp only
        rw [hdenomy, hVy]
        field_simp
        ring
      rw [hcorr]
      push_cast
      apply convex_step_le (hall c.node_b) (hall c.node_a) ?_ hs2 hinvR hssu
      linarith [le_abs_self R1.y, neg_abs_le R2.y, hry1, hry2, hm, helb]

theorem seedStep_sound :
    ∀ {l : List (IkNodeID × Vec3A × Quat)} {ql : List (IkNodeID × ℚ)},
    List.Forall₂ (fun e f => e.1 = f.1 ∧ (e.2.1).y ≤ ((f.2 : ℚ) : ℝ) ∧
      Quat.normSq e.2.2 = 1) l ql →
    ∀ {p : Pose} {u : IkNodeID → ℚ}, SoundEnv p u →
      SoundEnv (applySeeds l p) (ubStep u (UStep.seed ql)) := by
  intro l ql h
  induction h with
  | nil =>
      intro p u hs
      exact hs
  | @cons e f l2 ql2 hef hrest ih =>
      intro p u hs
      rw [applySeeds_cons]
      rw [show ubStep u (UStep.seed (f :: ql2)) =
        ubStep (Function.update u f.1 f.2) (UStep.seed ql2) from rfl]
      apply ih
      obtain ⟨hname, hle, hunit⟩ := hef
      constructor
      · intro n
        dsimp only
        by_cases hn : n = e.1
        · subst hn
          rw [Function.update_same, ← hname, Function.update_same]
          exact hle
        · rw [Function.update_noteq hn, Function.update_noteq (hname ▸ hn)]
          exact hs.1 n
      · intro n
        dsimp only
        by_cases hn : n = e.1
        · subst hn
          rw [Function.update_same]
          exact hunit
        · rw [Function.update_noteq hn]
          exact hs.2 n

theorem stepOk_sound {s : SolveStep} {t : UStep} (h : StepOk s t)
    {p : Pose} {u : IkNodeID → ℚ} (hs : SoundEnv p u) :
    SoundEnv (stepSem p s) (ubStep u t) := by
  cases s with
  | seed l =>
      cases t with
      | seed ql => exact seedStep_sound h hs
      | proj a b m invSu => exact absurd h (by simp [StepOk])
  | sph c =>
      cases t with
      | seed ql => exact absurd h (by simp [StepOk])
      | proj a b m invSu => exact sphericalProject_sound c h hs
  | dist c =>
      cases t with
      | seed ql => exact absurd h (by simp [StepOk])
      | proj a b m invSu => exact distanceProject_sound c h hs

theorem foldlSteps_sound :
    ∀ {ss : List SolveStep} {ts : List UStep}, List.Forall₂ StepOk ss ts →
    ∀ {p : Pose} {u : IkNodeID → ℚ}, SoundEnv p u →
      SoundEnv (ss.foldl stepSem p) (ts.foldl ubStep u) := by
  intro ss ts h
  induction h with
  | nil =>
      intro p u hs
      exact hs
  | cons hR _ ih =>
      intro p u hs
      rw [List.foldl_cons, List.foldl_cons]
      exact ih (stepOk_sound hR hs)

end C1ProjSound

section C1Concrete

/-- Tracking input with the headset one million meters up: identity
orientations, grips and aims at the stage origin. -/
def inputsBig : IkInputs :=
  ⟨⟨Mat3A.identity, ⟨0, 1000000, -(1/10)⟩⟩, Affine3A.identityA, Affine3A.identityA,
   Affine3A.identityA, Affine3A.identityA⟩

theorem head_center_inputsBig :
    head_center_in_stage inputsBig = ⟨Mat3A.identity, ⟨0, 1000000, 0⟩⟩ := by
  rw [head_center_in_stage,
    show inputsBig.hmd_in_stage = (⟨Mat3A.identity, ⟨0, 1000000, -(1/10)⟩⟩ : Affine3A)
      from rfl,
    show head_center_in_hmd = (⟨Mat3A.identity, ⟨0, 0, 1/10⟩⟩ : Affine3A) from rfl,
    mul_transl]
  norm_num [Vec3A.add]

theorem neck_root_inputsBig :
    neck_root_in_stage inputsBig = ⟨Mat3A.identity, ⟨0, 9999999/10, 0⟩⟩ := by
  rw [neck_root_in_stage, head_center_inputsBig,
    show neck_root_in_head_center = (⟨Mat3A.identity, ⟨0, -(1/10), 0⟩⟩ : Affine3A)
      from rfl,
    mul_transl]
  norm_num [Vec3A.add]

theorem base_inputsBig : base_in_stage inputsBig = Affine3A.identityA := by
  simp only [base_in_stage, neck_root_inputsBig, Mat3A.identity, Vec3A.normalize,
    Vec3A.length, Vec3A.lengthSquared, Vec3A.dot, Vec3A.smul, Vec3A.cross, Vec3A.unitY,
    Affine3A.identityA, Vec3A.zero]
  norm_num

theorem left_foot_current_inputsBig :
    left_foot_current inputsBig IkState.default = ⟨Mat3A.identity, ⟨-(2/10), 0, 0⟩⟩ := by
  rw [left_foot_current,
    show IkState.default.left_foot_in_stage = none from rfl]
  rw [show (none : Option Affine3A).getD (Affine3A.mul (base_in_stage inputsBig)
      (Affine3A.fromTranslation ⟨-(2/10), 0, 0⟩)) = Affine3A.mul (base_in_stage inputsBig)
      (Affine3A.fromTranslation ⟨-(2/10), 0, 0⟩) from rfl]
  rw [base_inputsBig, Affine3A.mul_identity_left]
  rfl

theorem right_foot_current_inputsBig :
    right_foot_current inputsBig IkState.default = ⟨Mat3A.identity, ⟨2/10, 0, 0⟩⟩ := by
  rw [right_foot_current,
    show IkState.default.right_foot_in_stage = none from rfl]
  rw [show (none : Option Affine3A).getD (Affine3A.mul (base_in_stage inputsBig)
      (Affine3A.fromTranslation ⟨2/10, 0, 0⟩)) = Affine3A.mul (base_in_stage inputsBig)
      (Affine3A.fromTranslation ⟨2/10, 0, 0⟩) from rfl]
  rw [base_inputsBig, Affine3A.mul_identity_left]
  rfl

theorem balance_inputsBig :
    balance_point_in_base inputsBig IkState.default = ⟨0, 0, 0⟩ := by
  have hl : left_foot_in_base inputsBig IkState.default =
      ⟨Mat3A.identity, ⟨-(2/10), 0, 0⟩⟩ := by
    rw [left_foot_in_base, left_foot_current_inputsBig, base_inputsBig,
      Affine3A.inverse_identityA, Affine3A.mul_identity_left]
  have hr : right_foot_in_base inputsBig IkState.default =
      ⟨Mat3A.identity, ⟨2/10, 0, 0⟩⟩ := by
    rw [right_foot_in_base, right_foot_current_inputsBig, base_inputsBig,
      Affine3A.inverse_identityA, Affine3A.mul_identity_left]
  simp only [balance_point_in_base, hl, hr, Vec3A.sub, Vec3A.zero, Vec3A.dot,
    Vec3A.add, Vec3A.smul, clamp]
  norm_num

theorem fixed_nodes_inputsBig :
    fixed_nodes inputsBig IkState.default = [
      (IkNodeID.Hmd, ⟨0, 1000000, -(1/10)⟩, Quat.identity),
      (IkNodeID.HeadCenter, ⟨0, 1000000, 0⟩, Quat.identity),
      (IkNodeID.NeckRoot, ⟨0, 9999999/10, 0⟩, Quat.identity),
      (IkNodeID.Base, ⟨0, 0, 0⟩, Quat.identity),
      (IkNodeID.BalancePoint, ⟨0, 0, 0⟩, Quat.identity),
      (IkNodeID.LeftGrip, ⟨0, 0, 0⟩, Quat.identity),
      (IkNodeID.LeftAim, ⟨0, 0, 0⟩, Quat.identity),
      (IkNodeID.LeftPalm, ⟨0, 0, 0⟩, Quat.identity),
      (IkNodeID.LeftWrist, ⟨-(15/1000), -(1/100), 65/1000⟩, Quat.identity),
      (IkNodeID.RightGrip, ⟨0, 0, 0⟩, Quat.identity),
      (IkNodeID.RightAim, ⟨0, 0, 0⟩, Quat.identity),
      (IkNodeID.RightPalm, ⟨0, 0, 0⟩, Quat.identity),
      (IkNodeID.RightWrist, ⟨15/1000, -(1/100), 65/1000⟩, Quat.identity),
      (IkNodeID.LeftFoot, ⟨-(2/10), 0, 0⟩, Quat.identity),
      (IkNodeID.RightFoot, ⟨2/10, 0, 0⟩, Quat.identity) ] := by
  have hlw : left_wrist_in_stage inputsBig =
      ⟨Mat3A.identity, ⟨-(15/1000), -(1/100), 65/1000⟩⟩ := by
    rw [left_wrist_in_stage,
      show left_palm_in_stage inputsBig = (⟨Mat3A.identity, ⟨0, 0, 0⟩⟩ : Affine3A)
        from rfl,
      show left_wrist_in_palm =
        (⟨Mat3A.identity, ⟨-(15/1000), -(1/100), 65/1000⟩⟩ : Affine3A) from rfl,
      mul_transl]
    norm_num [Vec3A.add]
  have hrw : right_wrist_in_stage inputsBig =
      ⟨Mat3A.identity, ⟨15/1000, -(1/100), 65/1000⟩⟩ := by
    rw [right_wrist_in_stage,
      show right_palm_in_stage inputsBig = (⟨Mat3A.identity, ⟨0, 0, 0⟩⟩ : Affine3A)
        from rfl,
      right_wrist_in_palm_eval, mul_transl]
    norm_num [Vec3A.add]
  rw [fixed_nodes, head_center_inputsBig, neck_root_inputsBig, base_inputsBig,
    balance_inputsBig, hlw, hrw, left_foot_current_inputsBig, right_foot_current_inputsBig]
  rw [show inputsBig.hmd_in_stage =
      (⟨Mat3A.identity, ⟨0, 1000000, -(1/10)⟩⟩ : Affine3A) from rfl,
    show inputsBig.left_grip_in_stage = (⟨Mat3A.identity, ⟨0, 0, 0⟩⟩ : Affine3A) from rfl,
    show inputsBig.left_aim_in_stage = (⟨Mat3A.identity, ⟨0, 0, 0⟩⟩ : Affine3A) from rfl,
    show inputsBig.right_grip_in_stage = (⟨Mat3A.identity, ⟨0, 0, 0⟩⟩ : Affine3A) from rfl,
    show inputsBig.right_aim_in_stage = (⟨Mat3A.identity, ⟨0, 0, 0⟩⟩ : Affine3A) from rfl,
    show left_palm_in_stage inputsBig = (⟨Mat3A.identity, ⟨0, 0, 0⟩⟩ : Affine3A) from rfl,
    show right_palm_in_stage inputsBig = (⟨Mat3A.identity, ⟨0, 0, 0⟩⟩ : Affine3A) from rfl]
  rw [Affine3A.mul_identity_left]
  rw [show Affine3A.identityA = (⟨Mat3A.identity, ⟨0, 0, 0⟩⟩ : Affine3A) from rfl]
  simp only [Affine3A.fromTranslation, to_pos_rot_of_identity_matrix]

/-- The rational seed Y-values matching fixed_nodes inputsBig. -/
def useedBig : List (IkNodeID × ℚ) :=
  [ (IkNodeID.Hmd, 1000000), (IkNodeID.HeadCenter, 1000000),
    (IkNodeID.NeckRoot, 9999999/10), (IkNodeID.Base, 0), (IkNodeID.BalancePoint, 0),
    (IkNodeID.LeftGrip, 0), (IkNodeID.LeftAim, 0), (IkNodeID.LeftPalm, 0),
    (IkNodeID.LeftWrist, -(1/100)), (IkNodeID.RightGrip, 0), (IkNodeID.RightAim, 0),
    (IkNodeID.RightPalm, 0), (IkNodeID.RightWrist, -(1/100)),
    (IkNodeID.LeftFoot, 0), (IkNodeID.RightFoot, 0) ]

/-- The abstract counterpart of one solver iteration at inputsBig. -/
def upassSteps : List UStep :=
  [ UStep.seed useedBig,
    UStep.proj IkNodeID.LeftPalm IkNodeID.LeftLowerArm (21/100) (12/25),
    UStep.proj IkNodeID.RightPalm IkNodeID.RightLowerArm (21/100) (12/25),
    UStep.proj IkNodeID.LeftLowerArm IkNodeID.LeftUpperArm (28/100) (12/25),
    UStep.proj IkNodeID.RightLowerArm IkNodeID.RightUpperArm (28/100) (12/25),
    UStep.proj IkNodeID.HeadCenter IkNodeID.Torso (32/100) (12/25),
    UStep.proj IkNodeID.Torso IkNodeID.Pelvis (30/100) (12/25),
    UStep.proj IkNodeID.Pelvis IkNodeID.LeftUpperLeg (35/100) (12/25),
    UStep.proj IkNodeID.Pelvis IkNodeID.RightUpperLeg (35/100) (12/25),
    UStep.proj IkNodeID.LeftUpperLeg IkNodeID.LeftLowerLeg (40/100) (12/25),
    UStep.proj IkNodeID.RightUpperLeg IkNodeID.RightLowerLeg (40/100) (12/25),
    UStep.proj IkNodeID.LeftLowerLeg IkNodeID.LeftFoot (30/100) (12/25),
    UStep.proj IkNodeID.RightLowerLeg IkNodeID.RightFoot (30/100) (12/25),
    UStep.proj IkNodeID.LeftUpperArm IkNodeID.Torso (52/100) (12/25),
    UStep.proj IkNodeID.RightUpperArm IkNodeID.Torso (52/100) (12/25) ]

theorem seedOkBig : StepOk (SolveStep.seed (fixed_nodes inputsBig IkState.default))
    (UStep.seed useedBig) := by
  rw [fixed_nodes_inputsBig]
  simp only [StepOk, useedBig]
  refine List.Forall₂.cons ⟨rfl, by norm_num, normSq_identity⟩ ?_
  refine List.Forall₂.cons ⟨rfl, by norm_num, normSq_identity⟩ ?_
  refine List.Forall₂.cons ⟨rfl, by norm_num, normSq_identity⟩ ?_
  refine List.Forall₂.cons ⟨rfl, by norm_num, normSq_identity⟩ ?_
  refine List.Forall₂.cons ⟨rfl, by norm_num, normSq_identity⟩ ?_
  refine List.Forall₂.cons ⟨rfl, by norm_num, normSq_identity⟩ ?_
  refine List.Forall₂.cons ⟨rfl, by norm_num, normSq_identity⟩ ?_
  refine List.Forall₂.cons ⟨rfl, by norm_num, normSq_identity⟩ ?_
  refine List.Forall₂.cons ⟨rfl, by norm_num, normSq_identity⟩ ?_
  refine List.Forall₂.cons ⟨rfl, by norm_num, normSq_identity⟩ ?_
  refine List.Forall₂.cons ⟨rfl, by norm_num, normSq_identity⟩ ?_
  refine List.Forall₂.cons ⟨rfl, by norm_num, normSq_identity⟩ ?_
  refine List.Forall₂.cons ⟨rfl, by norm_num, normSq_identity⟩ ?_
  refine List.Forall₂.cons ⟨rfl, by norm_num, normSq_identity⟩ ?_
  refine List.Forall₂.cons ⟨rfl, by norm_num, normSq_identity⟩ ?_
  exact List.Forall₂.nil

theorem lsq_lwp : Vec3A.lengthSquared left_wrist_in_palm.translation = 91/20000 := by
  norm_num [Vec3A.lengthSquared, Vec3A.dot, left_wrist_in_palm, Affine3A.fromTranslation]

theorem lsq_rwp : Vec3A.lengthSquared right_wrist_in_palm.translation = 91/20000 := by
  norm_num [Vec3A.lengthSquared, Vec3A.dot, right_wrist_in_palm, left_wrist_in_palm,
    Affine3A.fromTranslation, Vec3A.cmul]

theorem lsq_wila : Vec3A.lengthSquared wrist_in_lower_arm = 49/2500 := by
  norm_num [Vec3A.lengthSquared, Vec3A.dot, wrist_in_lower_arm, lower_arm_length]

theorem lsq_eila : Vec3A.lengthSquared elbow_in_lower_arm = 49/2500 := by
  norm_num [Vec3A.lengthSquared, Vec3A.dot, elbow_in_lower_arm, lower_arm_length]

theorem lsq_eiua : Vec3A.lengthSquared elbow_in_upper_arm = 49/2500 := by
  norm_num [Vec3A.lengthSquared, Vec3A.dot, elbow_in_upper_arm, upper_arm_length]

theorem lsq_siua : Vec3A.lengthSquared shoulder_in_upper_arm = 49/2500 := by
  norm_num [Vec3A.lengthSquared, Vec3A.dot, shoulder_in_upper_arm, upper_arm_length]

theorem lsq_nrhc : Vec3A.lengthSquared neck_root_in_head_center.translation = 1/100 := by
  norm_num [Vec3A.lengthSquared, Vec3A.dot, neck_root_in_head_center,
    Affine3A.fromTranslation]

theorem lsq_nrt : Vec3A.lengthSquared neck_root_in_torso = 121/2500 := by
  norm_num [Vec3A.lengthSquared, Vec3A.dot, neck_root_in_torso, neck_root_height_in_torso]

theorem lsq_lbt : Vec3A.lengthSquared lower_back_in_torso = 1/25 := by
  norm_num [Vec3A.lengthSquared, Vec3A.dot, lower_back_in_torso, lower_back_height_in_torso]

theorem lsq_lbp : Vec3A.lengthSquared lower_back_in_pelvis = 1/100 := by
  norm_num [Vec3A.lengthSquared, Vec3A.dot, lower_back_in_pelvis,
    lower_back_height_in_pelvis]

theorem lsq_lhip : Vec3A.lengthSquared left_hip_in_pelvis = 109/5000 := by
  norm_num [Vec3A.lengthSquared, Vec3A.dot, left_hip_in_pelvis, hip_width,
    hip_height_in_pelvis]

theorem lsq_rhip : Vec3A.lengthSquared right_hip_in_pelvis = 109/5000 := by
  norm_num [Vec3A.lengthSquared, Vec3A.dot, right_hip_in_pelvis, hip_width,
    hip_height_in_pelvis]

theorem lsq_hiul : Vec3A.lengthSquared hip_in_upper_leg = 1/25 := by
  norm_num [Vec3A.lengthSquared, Vec3A.dot, hip_in_upper_leg, upper_leg_length]

theorem lsq_kiul : Vec3A.lengthSquared knee_in_upper_leg = 1/25 := by
  norm_num [Vec3A.lengthSquared, Vec3A.dot, knee_in_upper_leg, upper_leg_length]

theorem lsq_kill : Vec3A.lengthSquared knee_in_lower_leg = 1/25 := by
  norm_num [Vec3A.lengthSquared, Vec3A.dot, knee_in_lower_leg, lower_leg_length]

theorem lsq_aill : Vec3A.lengthSquared ankle_in_lower_leg = 1/25 := by
  norm_num [Vec3A.lengthSquared, Vec3A.dot, ankle_in_lower_leg, lower_leg_length]

theorem lsq_aif : Vec3A.lengthSquared ankle_in_foot = 1/100 := by
  norm_num [Vec3A.lengthSquared, Vec3A.dot, ankle_in_foot, ankle_height]

theorem lsq_lsc : Vec3A.lengthSquared left_sc_joint_in_torso = 409/10000 := by
  norm_num [Vec3A.lengthSquared, Vec3A.dot, left_sc_joint_in_torso, sternum_width,
    sternum_height_in_torso]

theorem lsq_rsc : Vec3A.lengthSquared right_sc_joint_in_torso = 409/10000 := by
  norm_num [Vec3A.lengthSquared, Vec3A.dot, right_sc_joint_in_torso, sternum_width,
    sternum_height_in_torso]

theorem s_lwp : Real.sqrt (Vec3A.lengthSquared left_wrist_in_palm.translation) ≤ 7/100 :=
  sqrt_le_of_sq (by norm_num) (by rw [lsq_lwp]; norm_num)

theorem s_rwp : Real.sqrt (Vec3A.lengthSquared right_wrist_in_palm.translation) ≤ 7/100 :=
  sqrt_le_of_sq (by norm_num) (by rw [lsq_rwp]; norm_num)

theorem s_wila : Real.sqrt (Vec3A.lengthSquared wrist_in_lower_arm) ≤ 14/100 :=
  sqrt_le_of_sq (by norm_num) (by rw [lsq_wila]; norm_num)

theorem s_eila : Real.sqrt (Vec3A.lengthSquared elbow_in_lower_arm) ≤ 14/100 :=
  sqrt_le_of_sq (by norm_num) (by rw [lsq_eila]; norm_num)

theorem s_eiua : Real.sqrt (Vec3A.lengthSquared elbow_in_upper_arm) ≤ 14/100 :=
  sqrt_le_of_sq (by norm_num) (by rw [lsq_eiua]; norm_num)

theorem s_siua : Real.sqrt (Vec3A.lengthSquared shoulder_in_upper_arm) ≤ 14/100 :=
  sqrt_le_of_sq (by norm_num) (by rw [lsq_siua]; norm_num)

theorem s_nrhc : Real.sqrt (Vec3A.lengthSquared neck_root_in_head_center.translation) ≤ 1/10 :=
  sqrt_le_of_sq (by norm_num) (by rw [lsq_nrhc]; norm_num)

theorem s_nrt : Real.sqrt (Vec3A.lengthSquared neck_root_in_torso) ≤ 22/100 :=
  sqrt_le_of_sq (by norm_num) (by rw [lsq_nrt]; norm_num)

theorem s_lbt : Real.sqrt (Vec3A.lengthSquared lower_back_in_torso) ≤ 2/10 :=
  sqrt_le_of_sq (by norm_num) (by rw [lsq_lbt]; norm_num)

theorem s_lbp : Real.sqrt (Vec3A.lengthSquared lower_back_in_pelvis) ≤ 1/10 :=
  sqrt_le_of_sq (by norm_num) (by rw [lsq_lbp]; norm_num)

theorem s_lhip : Real.sqrt (Vec3A.lengthSquared left_hip_in_pelvis) ≤ 15/100 :=
  sqrt_le_of_sq (by norm_num) (by rw [lsq_lhip]; norm_num)

theorem s_rhip : Real.sqrt (Vec3A.lengthSquared right_hip_in_pelvis) ≤ 15/100 :=
  sqrt_le_of_sq (by norm_num) (by rw [lsq_rhip]; norm_num)

theorem s_hiul : Real.sqrt (Vec3A.lengthSquared hip_in_upper_leg) ≤ 2/10 :=
  sqrt_le_of_sq (by norm_num) (by rw [lsq_hiul]; norm_num)

theorem s_kiul : Real.sqrt (Vec3A.lengthSquared knee_in_upper_leg) ≤ 2/10 :=
  sqrt_le_of_sq (by norm_num) (by rw [lsq_kiul]; norm_num)

theorem s_kill : Real.sqrt (Vec3A.lengthSquared knee_in_lower_leg) ≤ 2/10 :=
  sqrt_le_of_sq (by norm_num) (by rw [lsq_kill]; norm_num)

theorem s_aill : Real.sqrt (Vec3A.lengthSquared ankle_in_lower_leg) ≤ 2/10 :=
  sqrt_le_of_sq (by norm_num) (by rw [lsq_aill]; norm_num)

theorem s_aif : Real.sqrt (Vec3A.lengthSquared ankle_in_foot) ≤ 1/10 :=
  sqrt_le_of_sq (by norm_num) (by rw [lsq_aif]; norm_num)

theorem s_lsc : Real.sqrt (Vec3A.lengthSquared left_sc_joint_in_torso) ≤ 21/100 :=
  sqrt_le_of_sq (by norm_num) (by rw [lsq_lsc]; norm_num)

theorem s_rsc : Real.sqrt (Vec3A.lengthSquared right_sc_joint_in_torso) ≤ 21/100 :=
  sqrt_le_of_sq (by norm_num) (by rw [lsq_rsc]; norm_num)

theorem passOkBig :
    List.Forall₂ StepOk (ikPassSteps (fixed_nodes inputsBig IkState.default)) upassSteps := by
  simp only [ikPassSteps, spherical_constraints, distance_constraints, List.map_cons,
    List.map_nil, List.cons_append, List.nil_append, upassSteps]
  refine List.Forall₂.cons seedOkBig ?_
  refine List.Forall₂.cons ?_ ?_
  · refine ⟨rfl, rfl, by norm_num, ?_, ?_, le_refl 0⟩
    · rw [lsq_lwp, lsq_wila]; push_cast; norm_num
    · push_cast; linarith [s_lwp, s_wila]
  refine List.Forall₂.cons ?_ ?_
  · refine ⟨rfl, rfl, by norm_num, ?_, ?_, le_refl 0⟩
    · rw [lsq_rwp, lsq_wila]; push_cast; norm_num
    · push_cast; linarith [s_rwp, s_wila]
  refine List.Forall₂.cons ?_ ?_
  · refine ⟨rfl, rfl, by norm_num, ?_, ?_, le_refl 0⟩
    · rw [lsq_eila, lsq_eiua]; push_cast; norm_num
    · push_cast; linarith [s_eila, s_eiua]
  refine List.Forall₂.cons ?_ ?_
  · refine ⟨rfl, rfl, by norm_num, ?_, ?_, le_refl 0⟩
    · rw [lsq_eila, lsq_eiua]; push_cast; norm_num
    · push_cast; linarith [s_eila, s_eiua]
  refine List.Forall₂.cons ?_ ?_
  · refine ⟨rfl, rfl, by norm_num, ?_, ?_, le_refl 0⟩
    · rw [lsq_nrhc, lsq_nrt]; push_cast; norm_num
    · push_cast; linarith [s_nrhc, s_nrt]
  refine List.Forall₂.cons ?_ ?_
  · refine ⟨rfl, rfl, by norm_num, ?_, ?_, le_refl 0⟩
    · rw [lsq_lbt, lsq_lbp]; push_cast; norm_num
    · push_cast; linarith [s_lbt, s_lbp]
  refine List.Forall₂.cons ?_ ?_
  · refine ⟨rfl, rfl, by norm_num, ?_, ?_, le_refl 0⟩
    · rw [lsq_lhip, lsq_hiul]; push_cast; norm_num
    · push_cast; linarith [s_lhip, s_hiul]
  refine List.Forall₂.cons ?_ ?_
  · refine ⟨rfl, rfl, by norm_num, ?_, ?_, le_refl 0⟩
    · rw [lsq_rhip, lsq_hiul]; push_cast; norm_num
    · push_cast; linarith [s_rhip, s_hiul]
  refine List.Forall₂.cons ?_ ?_
  · refine ⟨rfl, rfl, by norm_num, ?_, ?_, le_refl 0⟩
    · rw [lsq_kiul, lsq_kill]; push_cast; norm_num
    · push_cast; linarith [s_kiul, s_kill]
  refine List.Forall₂.cons ?_ ?_
  · refine ⟨rfl, rfl, by norm_num, ?_, ?_, le_refl 0⟩
    · rw [lsq_kiul, lsq_kill]; push_cast; norm_num
    · push_cast; linarith [s_kiul, s_kill]
  refine List.Forall₂.cons ?_ ?_
  · refine ⟨rfl, rfl, by norm_num, ?_, ?_, le_refl 0⟩
    · rw [lsq_aill, lsq_aif]; push_cast; norm_num
    · push_cast; linarith [s_aill, s_aif]
  refine List.Forall₂.cons ?_ ?_
  · refine ⟨rfl, rfl, by norm_num, ?_, ?_, le_refl 0⟩
    · rw [lsq_aill, lsq_aif]; push_cast; norm_num
    · push_cast; linarith [s_aill, s_aif]
  refine List.Forall₂.cons ?_ ?_
  · refine ⟨rfl, rfl, by norm_num, ?_, ?_, by norm_num [collarbone_length]⟩
    · rw [lsq_siua, lsq_lsc]; push_cast; norm_num
    · rw [collarbone_length]; push_cast; linarith [s_siua, s_lsc]
  refine List.Forall₂.cons ?_ List.Forall₂.nil
  refine ⟨rfl, rfl, by norm_num, ?_, ?_, by norm_num [collarbone_length]⟩
  · rw [lsq_siua, lsq_rsc]; push_cast; norm_num
  · rw [collarbone_length]; push_cast; linarith [s_siua, s_rsc]

def zceil2 (t : ℤ) : ℤ := -(-t / 2)

def zceil1225 (t : ℤ) : ℤ := -(-(t * 12) / 25)

theorem zceil2_ge (t : ℤ) : (t : ℚ) / 2 ≤ ((zceil2 t : ℤ) : ℚ) := by
  have h : t ≤ 2 * zceil2 t := by
    simp only [zceil2]
    omega
  have h2 : (t : ℚ) ≤ 2 * ((zceil2 t : ℤ) : ℚ) := by exact_mod_cast h
  linarith

theorem zceil1225_ge (t : ℤ) : (t : ℚ) * (12/25) ≤ ((zceil1225 t : ℤ) : ℚ) := by
  have h : t * 12 ≤ 25 * zceil1225 t := by
    simp only [zceil1225]
    omega
  have h2 : (t : ℚ) * 12 ≤ 25 * ((zceil1225 t : ℤ) : ℚ) := by exact_mod_cast h
  linarith

/-- Kernel-computable integer mirror of UStep at scale 1/100: seeds carry
Y-values in centimeter-like hundredths, projections carry the scaled bound m. -/
inductive ZStep where
  | seed (l : List (IkNodeID × ℤ))
  | proj (a b : IkNodeID) (m : ℤ)

/-- The integer ceiling transformer: like ubStep but with exact rational
division replaced by integer ceiling division (an upper bound). -/
def zbStep (u : IkNodeID → ℤ) : ZStep → (IkNodeID → ℤ)
  | ZStep.seed l => l.foldl (fun v nd => Function.update v nd.1 nd.2) u
  | ZStep.proj a b m =>
      Function.update (Function.update u a
          (max (u a) (u a + max (zceil2 (u b + m - u a)) (zceil1225 (u b + m - u a)))))
        b (max (u b) (u b + max (zceil2 (u a + m - u b)) (zceil1225 (u a + m - u b))))

/-- The rational ceiling table u is dominated by the scaled integer table z. -/
def urel (u : IkNodeID → ℚ) (z : IkNodeID → ℤ) : Prop :=
  ∀ n, u n ≤ ((z n : ℤ) : ℚ) / 100

theorem zproj_val_le {A B m : ℚ} {Za Zb Zm : ℤ}
    (hA : A ≤ (Za : ℚ)/100) (hB : B ≤ (Zb : ℚ)/100) (hm : m ≤ (Zm : ℚ)/100) :
    max A (A + max ((B + m - A)/2) ((B + m - A) * (12/25))) ≤
      ((max Za (Za + max (zceil2 (Zb + Zm - Za)) (zceil1225 (Zb + Zm - Za))) : ℤ) : ℚ)/100 := by
  have hc2 := zceil2_ge (Zb + Zm - Za)
  have hc12 := zceil1225_ge (Zb + Zm - Za)
  push_cast at hc2 hc12 ⊢
  refine max_le ?_ ?_
  · have h1 : (Za : ℚ) ≤ max (Za : ℚ) ((Za : ℚ) +
        max ((zceil2 (Zb + Zm - Za) : ℤ) : ℚ) ((zceil1225 (Zb + Zm - Za) : ℤ) : ℚ)) :=
      le_max_left _ _
    linarith
  · rw [← max_add_add_left]
    refine max_le ?_ ?_
    · have h1 : ((zceil2 (Zb + Zm - Za) : ℤ) : ℚ) ≤
          max ((zceil2 (Zb + Zm - Za) : ℤ) : ℚ) ((zceil1225 (Zb + Zm - Za) : ℤ) : ℚ) :=
        le_max_left _ _
      have h2 : (Za : ℚ) +
          max ((zceil2 (Zb + Zm - Za) : ℤ) : ℚ) ((zceil1225 (Zb + Zm - Za) : ℤ) : ℚ) ≤
          max (Za : ℚ) ((Za : ℚ) +
            max ((zceil2 (Zb + Zm - Za) : ℤ) : ℚ) ((zceil1225 (Zb + Zm - Za) : ℤ) : ℚ)) :=
        le_max_right _ _
      linarith
    · have h1 : ((zceil1225 (Zb + Zm - Za) : ℤ) : ℚ) ≤
          max ((zceil2 (Zb + Zm - Za) : ℤ) : ℚ) ((zceil1225 (Zb + Zm - Za) : ℤ) : ℚ) :=
        le_max_right _ _
      have h2 : (Za : ℚ) +
          max ((zceil2 (Zb + Zm - Za) : ℤ) : ℚ) ((zceil1225 (Zb + Zm - Za) : ℤ) : ℚ) ≤
          max (Za : ℚ) ((Za : ℚ) +
            max ((zceil2 (Zb + Zm - Za) : ℤ) : ℚ) ((zceil1225 (Zb + Zm - Za) : ℤ) : ℚ)) :=
        le_max_right _ _
      linarith

theorem zproj_refine {u : IkNodeID → ℚ} {z : IkNodeID → ℤ} (h : urel u z)
    {a b : IkNodeID} {m : ℚ} {zm : ℤ} (hm : m ≤ (zm : ℚ)/100) :
    urel (ubStep u (UStep.proj a b m (12/25))) (zbStep z (ZStep.proj a b zm)) := by
  intro n
  simp only [ubStep, zbStep]
  by_cases hnb : n = b
  · subst hnb
    rw [Function.update_same, Function.update_same]
    exact zproj_val_le (h n) (h a) hm
  · rw [Function.update_noteq hnb, Function.update_noteq hnb]
    by_cases hna : n = a
    · subst hna
      rw [Function.update_same, Function.update_same]
      exact zproj_val_le (h n) (h b) hm
    · rw [Function.update_noteq hna, Function.update_noteq hna]
      exact h n

theorem zseed_refine : ∀ {ql : List (IkNodeID × ℚ)} {zl : List (IkNodeID × ℤ)},
    List.Forall₂ (fun f g => f.1 = g.1 ∧ f.2 ≤ ((g.2 : ℤ) : ℚ)/100) ql zl →
    ∀ {u : IkNodeID → ℚ} {z : IkNodeID → ℤ}, urel u z →
      urel (ubStep u (UStep.seed ql)) (zbStep z (ZStep.seed zl)) := by
  intro ql zl h
  induction h with
  | nil =>
      intro u z hs
      exact hs
  | @cons f g ql2 zl2 hfg hrest ih =>
      intro u z hs
      rw [show ubStep u (UStep.seed (f :: ql2)) =
        ubStep (Function.update u f.1 f.2) (UStep.seed ql2) from rfl]
      rw [show zbStep z (ZStep.seed (g :: zl2)) =
        zbStep (Function.update z g.1 g.2) (ZStep.seed zl2) from rfl]
      apply ih
      intro n
      obtain ⟨hname, hle⟩ := hfg
      by_cases hn : n = f.1
      · subst hn
        rw [Function.update_same, ← hname, Function.update_same]
        exact hle
      · rw [Function.update_noteq hn, Function.update_noteq (hname ▸ hn)]
        exact hs n

/-- Integer seeds: the useedBig values at scale 1/100. -/
def zseedBig : List (IkNodeID × ℤ) :=
  [ (IkNodeID.Hmd, 100000000), (IkNodeID.HeadCenter, 100000000),
    (IkNodeID.NeckRoot, 99999990), (IkNodeID.Base, 0), (IkNodeID.BalancePoint, 0),
    (IkNodeID.LeftGrip, 0), (IkNodeID.LeftAim, 0), (IkNodeID.LeftPalm, 0),
    (IkNodeID.LeftWrist, -1), (IkNodeID.RightGrip, 0), (IkNodeID.RightAim, 0),
    (IkNodeID.RightPalm, 0), (IkNodeID.RightWrist, -1),
    (IkNodeID.LeftFoot, 0), (IkNodeID.RightFoot, 0) ]

/-- Integer mirror of upassSteps. -/
def zpassSteps : List ZStep :=
  [ ZStep.seed zseedBig,
    ZStep.proj IkNodeID.LeftPalm IkNodeID.LeftLowerArm 21,
    ZStep.proj IkNodeID.RightPalm IkNodeID.RightLowerArm 21,
    ZStep.proj IkNodeID.LeftLowerArm IkNodeID.LeftUpperArm 28,
    ZStep.proj IkNodeID.RightLowerArm IkNodeID.RightUpperArm 28,
    ZStep.proj IkNodeID.HeadCenter IkNodeID.Torso 32,
    ZStep.proj IkNodeID.Torso IkNodeID.Pelvis 30,
    ZStep.proj IkNodeID.Pelvis IkNodeID.LeftUpperLeg 35,
    ZStep.proj IkNodeID.Pelvis IkNodeID.RightUpperLeg 35,
    ZStep.proj IkNodeID.LeftUpperLeg IkNodeID.LeftLowerLeg 40,
    ZStep.proj IkNodeID.RightUpperLeg IkNodeID.RightLowerLeg 40,
    ZStep.proj IkNodeID.LeftLowerLeg IkNodeID.LeftFoot 30,
    ZStep.proj IkNodeID.RightLowerLeg IkNodeID.RightFoot 30,
    ZStep.proj IkNodeID.LeftUpperArm IkNodeID.Torso 52,
    ZStep.proj IkNodeID.RightUpperArm IkNodeID.Torso 52 ]

theorem useed_zseed_rel :
    List.Forall₂ (fun f g => f.1 = g.1 ∧ f.2 ≤ ((g.2 : ℤ) : ℚ)/100) useedBig zseedBig := by
  simp only [useedBig, zseedBig]
  refine List.Forall₂.cons ⟨rfl, by norm_num⟩ ?_
  refine List.Forall₂.cons ⟨rfl, by norm_num⟩ ?_
  refine List.Forall₂.cons ⟨rfl, by norm_num⟩ ?_
  refine List.Forall₂.cons ⟨rfl, by norm_num⟩ ?_
  refine List.Forall₂.cons ⟨rfl, by norm_num⟩ ?_
  refine List.Forall₂.cons ⟨rfl, by norm_num⟩ ?_
  refine List.Forall₂.cons ⟨rfl, by norm_num⟩ ?_
  refine List.Forall₂.cons ⟨rfl, by norm_num⟩ ?_
  refine List.Forall₂.cons ⟨rfl, by norm_num⟩ ?_
  refine List.Forall₂.cons ⟨rfl, by norm_num⟩ ?_
  refine List.Forall₂.cons ⟨rfl, by norm_num⟩ ?_
  refine List.Forall₂.cons ⟨rfl, by norm_num⟩ ?_
  refine List.Forall₂.cons ⟨rfl, by norm_num⟩ ?_
  refine List.Forall₂.cons ⟨rfl, by norm_num⟩ ?_
  refine List.Forall₂.cons ⟨rfl, by norm_num⟩ ?_
  exact List.Forall₂.nil

theorem upass_zpass {u : IkNodeID → ℚ} {z : IkNodeID → ℤ} (h : urel u z) :
    urel (upassSteps.foldl ubStep u) (zpassSteps.foldl zbStep z) := by
  simp only [upassSteps, zpassSteps, List.foldl_cons, List.foldl_nil]
  exact zproj_refine (zproj_refine (zproj_refine (zproj_refine (zproj_refine
    (zproj_refine (zproj_refine (zproj_refine (zproj_refine (zproj_refine
    (zproj_refine (zproj_refine (zproj_refine (zproj_refine
    (zseed_refine useed_zseed_rel h)
    (by norm_num)) (by norm_num)) (by norm_num)) (by norm_num)) (by norm_num))
    (by norm_num)) (by norm_num)) (by norm_num)) (by norm_num)) (by norm_num))
    (by norm_num)) (by norm_num)) (by norm_num)) (by norm_num)

/-- The rational ceiling table induced by a scaled integer table. -/
def qW (z : IkNodeID → ℤ) : IkNodeID → ℚ := fun n => ((z n : ℤ) : ℚ) / 100

theorem soundEnv_default :
    SoundEnv ⟨IkState.default.node_positions, IkState.default.node_rotations⟩
      (qW (fun _ => 0)) := by
  constructor
  · intro n
    show (Vec3A.zero).y ≤ ((qW (fun _ => 0) n : ℚ) : ℝ)
    simp [Vec3A.zero, qW]
  · intro n
    exact normSq_identity

/-- One solver pass at inputsBig, certified through the integer machine with
an arbitrary relaxation of its output. -/
theorem zpassSound {p : Pose} {z zNext : IkNodeID → ℤ}
    (hs : SoundEnv p (qW z))
    (hz : ∀ n, (zpassSteps.foldl zbStep z) n ≤ zNext n) :
    SoundEnv (solveIteration (fixed_nodes inputsBig IkState.default) p) (qW zNext) := by
  rw [solveIteration_eq_foldl]
  refine soundEnv_mono (foldlSteps_sound passOkBig hs) ?_
  intro n
  have h1 : (upassSteps.foldl ubStep (qW z)) n ≤
      (((zpassSteps.foldl zbStep z) n : ℤ) : ℚ) / 100 :=
    upass_zpass (fun k => le_refl (qW z k)) n
  have h2 : (((zpassSteps.foldl zbStep z) n : ℤ) : ℚ) ≤ ((zNext n : ℤ) : ℚ) := by
    exact_mod_cast hz n
  refine le_trans h1 ?_
  show _ ≤ ((zNext n : ℤ) : ℚ) / 100
  linarith

def zW0 : IkNodeID → ℤ := fun _ => 0

def zW1 : IkNodeID → ℤ
  | IkNodeID.Hmd => 100000000
  | IkNodeID.HeadCenter => 100000000
  | IkNodeID.NeckRoot => 99999990
  | IkNodeID.Torso => 50000016
  | IkNodeID.Pelvis => 25000023
  | IkNodeID.Base => 0
  | IkNodeID.BalancePoint => 0
  | IkNodeID.LeftAim => 0
  | IkNodeID.LeftGrip => 0
  | IkNodeID.LeftPalm => 11
  | IkNodeID.LeftWrist => (-1)
  | IkNodeID.LeftLowerArm => 20
  | IkNodeID.LeftUpperArm => 25000044
  | IkNodeID.LeftUpperLeg => 12500029
  | IkNodeID.LeftLowerLeg => 6250035
  | IkNodeID.LeftFoot => 3125033
  | IkNodeID.RightAim => 0
  | IkNodeID.RightGrip => 0
  | IkNodeID.RightPalm => 11
  | IkNodeID.RightWrist => (-1)
  | IkNodeID.RightLowerArm => 20
  | IkNodeID.RightUpperArm => 25000044
  | IkNodeID.RightUpperLeg => 12500029
  | IkNodeID.RightLowerLeg => 6250035
  | IkNodeID.RightFoot => 3125033

def zW2 : IkNodeID → ℤ
  | IkNodeID.Hmd => 100000000
  | IkNodeID.HeadCenter => 100000000
  | IkNodeID.NeckRoot => 99999990
  | IkNodeID.Torso => 75000024
  | IkNodeID.Pelvis => 50000039
  | IkNodeID.Base => 0
  | IkNodeID.BalancePoint => 0
  | IkNodeID.LeftAim => 0
  | IkNodeID.LeftGrip => 0
  | IkNodeID.LeftPalm => 21
  | IkNodeID.LeftWrist => (-1)
  | IkNodeID.LeftLowerArm => 12500047
  | IkNodeID.LeftUpperArm => 50000060
  | IkNodeID.LeftUpperLeg => 31250052
  | IkNodeID.LeftLowerLeg => 18750064
  | IkNodeID.LeftFoot => 9375047
  | IkNodeID.RightAim => 0
  | IkNodeID.RightGrip => 0
  | IkNodeID.RightPalm => 21
  | IkNodeID.RightWrist => (-1)
  | IkNodeID.RightLowerArm => 12500047
  | IkNodeID.RightUpperArm => 50000060
  | IkNodeID.RightUpperLeg => 31250052
  | IkNodeID.RightLowerLeg => 18750064
  | IkNodeID.RightFoot => 9375047

def zW3 : IkNodeID → ℤ
  | IkNodeID.Hmd => 100000000
  | IkNodeID.HeadCenter => 100000000
  | IkNodeID.NeckRoot => 99999990
  | IkNodeID.Torso => 87500028
  | IkNodeID.Pelvis => 68750049
  | IkNodeID.Base => 0
  | IkNodeID.BalancePoint => 0
  | IkNodeID.LeftAim => 0
  | IkNodeID.LeftGrip => 0
  | IkNodeID.LeftPalm => 6250034
  | IkNodeID.LeftWrist => (-1)
  | IkNodeID.LeftLowerArm => 31250068
  | IkNodeID.LeftUpperArm => 68750070
  | IkNodeID.LeftUpperLeg => 50000068
  | IkNodeID.LeftLowerLeg => 34375086
  | IkNodeID.LeftFoot => 17187558
  | IkNodeID.RightAim => 0
  | IkNodeID.RightGrip => 0
  | IkNodeID.RightPalm => 6250034
  | IkNodeID.RightWrist => (-1)
  | IkNodeID.RightLowerArm => 31250068
  | IkNodeID.RightUpperArm => 68750070
  | IkNodeID.RightUpperLeg => 50000068
  | IkNodeID.RightLowerLeg => 34375086
  | IkNodeID.RightFoot => 17187558

def zW4 : IkNodeID → ℤ
  | IkNodeID.Hmd => 100000000
  | IkNodeID.HeadCenter => 100000000
  | IkNodeID.NeckRoot => 99999990
  | IkNodeID.Torso => 93750030
  | IkNodeID.Pelvis => 81250055
  | IkNodeID.Base => 0
  | IkNodeID.BalancePoint => 0
  | IkNodeID.LeftAim => 0
  | IkNodeID.LeftGrip => 0
  | IkNodeID.LeftPalm => 15625045
  | IkNodeID.LeftWrist => (-1)
  | IkNodeID.LeftLowerArm => 50000083
  | IkNodeID.LeftUpperArm => 81250076
  | IkNodeID.LeftUpperLeg => 65625079
  | IkNodeID.LeftLowerLeg => 50000103
  | IkNodeID.LeftFoot => 25000067
  | IkNodeID.RightAim => 0
  | IkNodeID.RightGrip => 0
  | IkNodeID.RightPalm => 15625045
  | IkNodeID.RightWrist => (-1)
  | IkNodeID.RightLowerArm => 50000083
  | IkNodeID.RightUpperArm => 81250076
  | IkNodeID.RightUpperLeg => 65625079
  | IkNodeID.RightLowerLeg => 50000103
  | IkNodeID.RightFoot => 25000067

def zW5 : IkNodeID → ℤ
  | IkNodeID.Hmd => 100000000
  | IkNodeID.HeadCenter => 100000000
  | IkNodeID.NeckRoot => 99999990
  | IkNodeID.Torso => 96875031
  | IkNodeID.Pelvis => 89062558
  | IkNodeID.Base => 0
  | IkNodeID.BalancePoint => 0
  | IkNodeID.LeftAim => 0
  | IkNodeID.LeftGrip => 0
  | IkNodeID.LeftPalm => 25000052
  | IkNodeID.LeftWrist => (-1)
  | IkNodeID.LeftLowerArm => 65625094
  | IkNodeID.LeftUpperArm => 89062580
  | IkNodeID.LeftUpperLeg => 77343836
  | IkNodeID.LeftLowerLeg => 63671990
  | IkNodeID.LeftFoot => 31836010
  | IkNodeID.RightAim => 0
  | IkNodeID.RightGrip => 0
  | IkNodeID.RightPalm => 25000052
  | IkNodeID.RightWrist => (-1)
  | IkNodeID.RightLowerArm => 65625094
  | IkNodeID.RightUpperArm => 89062580
  | IkNodeID.RightUpperLeg => 77343836
  | IkNodeID.RightLowerLeg => 63671990
  | IkNodeID.RightFoot => 31836010

def zW6 : IkNodeID → ℤ
  | IkNodeID.Hmd => 100000000
  | IkNodeID.HeadCenter => 100000000
  | IkNodeID.NeckRoot => 99999990
  | IkNodeID.Torso => 98437532
  | IkNodeID.Pelvis => 93750060
  | IkNodeID.Base => 0
  | IkNodeID.BalancePoint => 0
  | IkNodeID.LeftAim => 0
  | IkNodeID.LeftGrip => 0
  | IkNodeID.LeftPalm => 32812558
  | IkNodeID.LeftWrist => (-1)
  | IkNodeID.LeftLowerArm => 77343851
  | IkNodeID.LeftUpperArm => 93750082
  | IkNodeID.LeftUpperLeg => 85546966
  | IkNodeID.LeftLowerLeg => 74609498
  | IkNodeID.LeftFoot => 37304764
  | IkNodeID.RightAim => 0
  | IkNodeID.RightGrip => 0
  | IkNodeID.RightPalm => 32812558
  | IkNodeID.RightWrist => (-1)
  | IkNodeID.RightLowerArm => 77343851
  | IkNodeID.RightUpperArm => 93750082
  | IkNodeID.RightUpperLeg => 85546966
  | IkNodeID.RightLowerLeg => 74609498
  | IkNodeID.RightFoot => 37304764

def zW7 : IkNodeID → ℤ
  | IkNodeID.Hmd => 100000000
  | IkNodeID.HeadCenter => 100000000
  | IkNodeID.NeckRoot => 99999990
  | IkNodeID.Torso => 99218782
  | IkNodeID.Pelvis => 96484436
  | IkNodeID.Base => 0
  | IkNodeID.BalancePoint => 0
  | IkNodeID.LeftAim => 0
  | IkNodeID.LeftGrip => 0
  | IkNodeID.LeftPalm => 38671936
  | IkNodeID.LeftWrist => (-1)
  | IkNodeID.LeftLowerArm => 85546981
  | IkNodeID.LeftUpperArm => 96484458
  | IkNodeID.LeftUpperLeg => 91015719
  | IkNodeID.LeftLowerLeg => 82812629
  | IkNodeID.LeftFoot => 41406330
  | IkNodeID.RightAim => 0
  | IkNodeID.RightGrip => 0
  | IkNodeID.RightPalm => 38671936
  | IkNodeID.RightWrist => (-1)
  | IkNodeID.RightLowerArm => 85546981
  | IkNodeID.RightUpperArm => 96484458
  | IkNodeID.RightUpperLeg => 91015719
  | IkNodeID.RightLowerLeg => 82812629
  | IkNodeID.RightFoot => 41406330

def zW8 : IkNodeID → ℤ
  | IkNodeID.Hmd => 100000000
  | IkNodeID.HeadCenter => 100000000
  | IkNodeID.NeckRoot => 99999990
  | IkNodeID.Torso => 99609407
  | IkNodeID.Pelvis => 98046937
  | IkNodeID.Base => 0
  | IkNodeID.BalancePoint => 0
  | IkNodeID.LeftAim => 0
  | IkNodeID.LeftGrip => 0
  | IkNodeID.LeftPalm => 42773501
  | IkNodeID.LeftWrist => (-1)
  | IkNodeID.LeftLowerArm => 91015734
  | IkNodeID.LeftUpperArm => 98046959
  | IkNodeID.LeftUpperLeg => 94531346
  | IkNodeID.LeftLowerLeg => 88672008
  | IkNodeID.LeftFoot => 44336019
  | IkNodeID.RightAim => 0
  | IkNodeID.RightGrip => 0
  | IkNodeID.RightPalm => 42773501
  | IkNodeID.RightWrist => (-1)
  | IkNodeID.RightLowerArm => 91015734
  | IkNodeID.RightUpperArm => 98046959
  | IkNodeID.RightUpperLeg => 94531346
  | IkNodeID.RightLowerLeg => 88672008
  | IkNodeID.RightFoot => 44336019

def zW9 : IkNodeID → ℤ
  | IkNodeID.Hmd => 100000000
  | IkNodeID.HeadCenter => 100000000
  | IkNodeID.NeckRoot => 99999990
  | IkNodeID.Torso => 99804720
  | IkNodeID.Pelvis => 98925844
  | IkNodeID.Base => 0
  | IkNodeID.BalancePoint => 0
  | IkNodeID.LeftAim => 0
  | IkNodeID.LeftGrip => 0
  | IkNodeID.LeftPalm => 45507878
  | IkNodeID.LeftWrist => (-1)
  | IkNodeID.LeftLowerArm => 94531361
  | IkNodeID.LeftUpperArm => 98925866
  | IkNodeID.LeftUpperLeg => 96728613
  | IkNodeID.LeftLowerLeg => 92700331
  | IkNodeID.LeftFoot => 46350181
  | IkNodeID.RightAim => 0
  | IkNodeID.RightGrip => 0
  | IkNodeID.RightPalm => 45507878
  | IkNodeID.RightWrist => (-1)
  | IkNodeID.RightLowerArm => 94531361
  | IkNodeID.RightUpperArm => 98925866
  | IkNodeID.RightUpperLeg => 96728613
  | IkNodeID.RightLowerLeg => 92700331
  | IkNodeID.RightFoot => 46350181

theorem zT0 : ∀ n, (zpassSteps.foldl zbStep zW0) n ≤ zW1 n := by
  decide

theorem zT1 : ∀ n, (zpassSteps.foldl zbStep zW1) n ≤ zW2 n := by
  decide

theorem zT2 : ∀ n, (zpassSteps.foldl zbStep zW2) n ≤ zW3 n := by
  decide

theorem zT3 : ∀ n, (zpassSteps.foldl zbStep zW3) n ≤ zW4 n := by
  decide

theorem zT4 : ∀ n, (zpassSteps.foldl zbStep zW4) n ≤ zW5 n := by
  decide

theorem zT5 : ∀ n, (zpassSteps.foldl zbStep zW5) n ≤ zW6 n := by
  decide

theorem zT6 : ∀ n, (zpassSteps.foldl zbStep zW6) n ≤ zW7 n := by
  decide

theorem zT7 : ∀ n, (zpassSteps.foldl zbStep zW7) n ≤ zW8 n := by
  decide

theorem zT8 : ∀ n, (zpassSteps.foldl zbStep zW8) n ≤ zW9 n := by
  decide

/-- After nine iterations every landmark's Y-coordinate is below the W9
ceiling and all orientations are unit. -/
theorem sound9 :
    SoundEnv ((solveIteration (fixed_nodes inputsBig IkState.default))^[9]
      ⟨IkState.default.node_positions, IkState.default.node_rotations⟩) (qW zW9) := by
  have h0 : SoundEnv ((solveIteration (fixed_nodes inputsBig IkState.default))^[0]
      ⟨IkState.default.node_positions, IkState.default.node_rotations⟩) (qW zW0) := by
    rw [Function.iterate_zero_apply]
    exact soundEnv_default
  have h1 : SoundEnv ((solveIteration (fixed_nodes inputsBig IkState.default))^[1]
      ⟨IkState.default.node_positions, IkState.default.node_rotations⟩) (qW zW1) := by
    rw [show (1:ℕ) = 0 + 1 from rfl, Function.iterate_succ_apply']
    exact zpassSound h0 zT0
  have h2 : SoundEnv ((solveIteration (fixed_nodes inputsBig IkState.default))^[2]
      ⟨IkState.default.node_positions, IkState.default.node_rotations⟩) (qW zW2) := by
    rw [show (2:ℕ) = 1 + 1 from rfl, Function.iterate_succ_apply']
    exact zpassSound h1 zT1
  have h3 : SoundEnv ((solveIteration (fixed_nodes inputsBig IkState.default))^[3]
      ⟨IkState.default.node_positions, IkState.default.node_rotations⟩) (qW zW3) := by
    rw [show (3:ℕ) = 2 + 1 from rfl, Function.iterate_succ_apply']
    exact zpassSound h2 zT2
  have h4 : SoundEnv ((solveIteration (fixed_nodes inputsBig IkState.default))^[4]
      ⟨IkState.default.node_positions, IkState.default.node_rotations⟩) (qW zW4) := by
    rw [show (4:ℕ) = 3 + 1 from rfl, Function.iterate_succ_apply']
    exact zpassSound h3 zT3
  have h5 : SoundEnv ((solveIteration (fixed_nodes inputsBig IkState.default))^[5]
      ⟨IkState.default.node_positions, IkState.default.node_rotations⟩) (qW zW5) := by
    rw [show (5:ℕ) = 4 + 1 from rfl, Function.iterate_succ_apply']
    exact zpassSound h4 zT4
  have h6 : SoundEnv ((solveIteration (fixed_nodes inputsBig IkState.default))^[6]
      ⟨IkState.default.node_positions, IkState.default.node_rotations⟩) (qW zW6) := by
    rw [show (6:ℕ) = 5 + 1 from rfl, Function.iterate_succ_apply']
    exact zpassSound h5 zT5
  have h7 : SoundEnv ((solveIteration (fixed_nodes inputsBig IkState.default))^[7]
      ⟨IkState.default.node_positions, IkState.default.node_rotations⟩) (qW zW7) := by
    rw [show (7:ℕ) = 6 + 1 from rfl, Function.iterate_succ_apply']
    exact zpassSound h6 zT6
  have h8 : SoundEnv ((solveIteration (fixed_nodes inputsBig IkState.default))^[8]
      ⟨IkState.default.node_positions, IkState.default.node_rotations⟩) (qW zW8) := by
    rw [show (8:ℕ) = 7 + 1 from rfl, Function.iterate_succ_apply']
    exact zpassSound h7 zT7
  have h9 : SoundEnv ((solveIteration (fixed_nodes inputsBig IkState.default))^[9]
      ⟨IkState.default.node_positions, IkState.default.node_rotations⟩) (qW zW9) := by
    rw [show (9:ℕ) = 8 + 1 from rfl, Function.iterate_succ_apply']
    exact zpassSound h8 zT8
  exact h9

theorem sphFold_untouched :
    ∀ (cs : List SphericalConstraint) (p : Pose) {n : IkNodeID},
    (∀ c ∈ cs, n ≠ c.node_a ∧ n ≠ c.node_b) →
    (cs.foldl (fun q c => sphericalProject c q) p).pos n = p.pos n ∧
    (cs.foldl (fun q c => sphericalProject c q) p).rot n = p.rot n := by
  intro cs
  induction cs with
  | nil =>
      intro p n h
      exact ⟨rfl, rfl⟩
  | cons c cs ih =>
      intro p n h
      rw [List.foldl_cons]
      obtain ⟨h1, h2⟩ := h c (List.mem_cons_self c cs)
      have hrest := ih (sphericalProject c p) (fun d hd => h d (List.mem_cons_of_mem c hd))
      exact ⟨hrest.1.trans (sphericalProject_pos_untouched c p h1 h2),
        hrest.2.trans (sphericalProject_rot_untouched c p h1 h2)⟩

theorem distFold_untouched :
    ∀ (cs : List DistanceConstraint) (p : Pose) {n : IkNodeID},
    (∀ c ∈ cs, n ≠ c.node_a ∧ n ≠ c.node_b) →
    (cs.foldl (fun q c => distanceProject c q) p).pos n = p.pos n ∧
    (cs.foldl (fun q c => distanceProject c q) p).rot n = p.rot n := by
  intro cs
  induction cs with
  | nil =>
      intro p n h
      exact ⟨rfl, rfl⟩
  | cons c cs ih =>
      intro p n h
      rw [List.foldl_cons]
      obtain ⟨h1, h2⟩ := h c (List.mem_cons_self c cs)
      have hrest := ih (distanceProject c p) (fun d hd => h d (List.mem_cons_of_mem c hd))
      exact ⟨hrest.1.trans (distanceProject_pos_untouched c p h1 h2),
        hrest.2.trans (distanceProject_rot_untouched c p h1 h2)⟩

/-- The four arm constraints solved before the neck constraint. -/
def sphPre4 : List SphericalConstraint := spherical_constraints.take 4

/-- The head-torso (neck) spherical constraint. -/
def neckC : SphericalConstraint :=
  { node_a := IkNodeID.HeadCenter, node_b := IkNodeID.Torso,
    point_in_a := neck_root_in_head_center.translation, point_in_b := neck_root_in_torso }

/-- The spherical constraints solved after the neck constraint. -/
def sphPost7 : List SphericalConstraint := spherical_constraints.drop 5

theorem sph_split : spherical_constraints = sphPre4 ++ neckC :: sphPost7 := rfl

def upre5 : List UStep := upassSteps.take 5

def zpre5 : List ZStep := zpassSteps.take 5

theorem pre5Ok : List.Forall₂ StepOk
    (SolveStep.seed (fixed_nodes inputsBig IkState.default) :: sphPre4.map SolveStep.sph)
    upre5 := by
  rw [show sphPre4 = [
    { node_a := IkNodeID.LeftPalm, node_b := IkNodeID.LeftLowerArm,
      point_in_a := left_wrist_in_palm.translation, point_in_b := wrist_in_lower_arm },
    { node_a := IkNodeID.RightPalm, node_b := IkNodeID.RightLowerArm,
      point_in_a := right_wrist_in_palm.translation, point_in_b := wrist_in_lower_arm },
    { node_a := IkNodeID.LeftLowerArm, node_b := IkNodeID.LeftUpperArm,
      point_in_a := elbow_in_lower_arm, point_in_b := elbow_in_upper_arm },
    { node_a := IkNodeID.RightLowerArm, node_b := IkNodeID.RightUpperArm,
      point_in_a := elbow_in_lower_arm, point_in_b := elbow_in_upper_arm } ] from rfl]
  rw [show upre5 = [ UStep.seed useedBig,
    UStep.proj IkNodeID.LeftPalm IkNodeID.LeftLowerArm (21/100) (12/25),
    UStep.proj IkNodeID.RightPalm IkNodeID.RightLowerArm (21/100) (12/25),
    UStep.proj IkNodeID.LeftLowerArm IkNodeID.LeftUpperArm (28/100) (12/25),
    UStep.proj IkNodeID.RightLowerArm IkNodeID.RightUpperArm (28/100) (12/25) ] from rfl]
  simp only [List.map_cons, List.map_nil]
  refine List.Forall₂.cons seedOkBig ?_
  refine List.Forall₂.cons ?_ ?_
  · refine ⟨rfl, rfl, by norm_num, ?_, ?_, le_refl 0⟩
    · rw [lsq_lwp, lsq_wila]; push_cast; norm_num
    · push_cast; linarith [s_lwp, s_wila]
  refine List.Forall₂.cons ?_ ?_
  · refine ⟨rfl, rfl, by norm_num, ?_, ?_, le_refl 0⟩
    · rw [lsq_rwp, lsq_wila]; push_cast; norm_num
    · push_cast; linarith [s_rwp, s_wila]
  refine List.Forall₂.cons ?_ ?_
  · refine ⟨rfl, rfl, by norm_num, ?_, ?_, le_refl 0⟩
    · rw [lsq_eila, lsq_eiua]; push_cast; norm_num
    · push_cast; linarith [s_eila, s_eiua]
  refine List.Forall₂.cons ?_ List.Forall₂.nil
  refine ⟨rfl, rfl, by norm_num, ?_, ?_, le_refl 0⟩
  · rw [lsq_eila, lsq_eiua]; push_cast; norm_num
  · push_cast; linarith [s_eila, s_eiua]

theorem upre_zpre {u : IkNodeID → ℚ} {z : IkNodeID → ℤ} (h : urel u z) :
    urel (upre5.foldl ubStep u) (zpre5.foldl zbStep z) := by
  rw [show upre5 = [ UStep.seed useedBig,
    UStep.proj IkNodeID.LeftPalm IkNodeID.LeftLowerArm (21/100) (12/25),
    UStep.proj IkNodeID.RightPalm IkNodeID.RightLowerArm (21/100) (12/25),
    UStep.proj IkNodeID.LeftLowerArm IkNodeID.LeftUpperArm (28/100) (12/25),
    UStep.proj IkNodeID.RightLowerArm IkNodeID.RightUpperArm (28/100) (12/25) ] from rfl]
  rw [show zpre5 = [ ZStep.seed zseedBig,
    ZStep.proj IkNodeID.LeftPalm IkNodeID.LeftLowerArm 21,
    ZStep.proj IkNodeID.RightPalm IkNodeID.RightLowerArm 21,
    ZStep.proj IkNodeID.LeftLowerArm IkNodeID.LeftUpperArm 28,
    ZStep.proj IkNodeID.RightLowerArm IkNodeID.RightUpperArm 28 ] from rfl]
  simp only [List.foldl_cons, List.foldl_nil]
  exact zproj_refine (zproj_refine (zproj_refine (zproj_refine
    (zseed_refine useed_zseed_rel h) (by norm_num)) (by norm_num)) (by norm_num))
    (by norm_num)

theorem zTorsoPre : (zpre5.foldl zbStep zW9) IkNodeID.Torso ≤ 99999900 := by
  decide

theorem hc_not_in_pre :
    ∀ c ∈ sphPre4, IkNodeID.HeadCenter ≠ c.node_a ∧ IkNodeID.HeadCenter ≠ c.node_b := by
  decide

theorem hc_not_in_post :
    ∀ c ∈ sphPost7, IkNodeID.HeadCenter ≠ c.node_a ∧ IkNodeID.HeadCenter ≠ c.node_b := by
  decide

theorem hc_not_in_dist :
    ∀ c ∈ distance_constraints,
      IkNodeID.HeadCenter ≠ c.node_a ∧ IkNodeID.HeadCenter ≠ c.node_b := by
  decide

theorem applySeeds_big_hc (p : Pose) :
    (applySeeds (fixed_nodes inputsBig IkState.default) p).pos IkNodeID.HeadCenter =
      ⟨0, 1000000, 0⟩ ∧
    (applySeeds (fixed_nodes inputsBig IkState.default) p).rot IkNodeID.HeadCenter =
      Quat.identity := by
  rw [fixed_nodes_inputsBig]
  simp only [applySeeds, List.foldl_cons, List.foldl_nil]
  constructor <;> simp [Function.update_apply]

/-- After ten iterations at inputsBig the HeadCenter landmark sits strictly
below its seeded height: the neck projection of the final pass displaces it. -/
theorem headcenter_final_y_lt :
    (((solveIteration (fixed_nodes inputsBig IkState.default))^[10]
      ⟨IkState.default.node_positions, IkState.default.node_rotations⟩).pos
      IkNodeID.HeadCenter).y < 1000000 := by
  rw [show (10:ℕ) = 9 + 1 from rfl, Function.iterate_succ_apply']
  have hS9 : SoundEnv ((solveIteration (fixed_nodes inputsBig IkState.default))^[9]
      ⟨IkState.default.node_positions, IkState.default.node_rotations⟩) (qW zW9) := sound9
  set p9 := (solveIteration (fixed_nodes inputsBig IkState.default))^[9]
      ⟨IkState.default.node_positions, IkState.default.node_rotations⟩ with hp9def
  have hq4sound : SoundEnv ((SolveStep.seed (fixed_nodes inputsBig IkState.default) ::
      sphPre4.map SolveStep.sph).foldl stepSem p9) (upre5.foldl ubStep (qW zW9)) :=
    foldlSteps_sound pre5Ok hS9
  have hq4eq : (SolveStep.seed (fixed_nodes inputsBig IkState.default) ::
      sphPre4.map SolveStep.sph).foldl stepSem p9 =
      sphPre4.foldl (fun q c => sphericalProject c q)
        (applySeeds (fixed_nodes inputsBig IkState.default) p9) := by
    rw [List.foldl_cons, List.foldl_map]
    rfl
  rw [hq4eq] at hq4sound
  set q4 := sphPre4.foldl (fun q c => sphericalProject c q)
      (applySeeds (fixed_nodes inputsBig IkState.default) p9) with hq4def
  have hHCu := sphFold_untouched sphPre4
    (applySeeds (fixed_nodes inputsBig IkState.default) p9) hc_not_in_pre
  have hseedHC := applySeeds_big_hc p9
  have hq4posHC : q4.pos IkNodeID.HeadCenter = ⟨0, 1000000, 0⟩ := by
    rw [hq4def, hHCu.1, hseedHC.1]
  have hq4rotHC : q4.rot IkNodeID.HeadCenter = Quat.identity := by
    rw [hq4def, hHCu.2, hseedHC.2]
  have hTq : (upre5.foldl ubStep (qW zW9)) IkNodeID.Torso ≤ 999999 := by
    have h1 := upre_zpre (fun k => le_refl (qW zW9 k)) IkNodeID.Torso
    have h2 : (((zpre5.foldl zbStep zW9) IkNodeID.Torso : ℤ) : ℚ) ≤ 99999900 := by
      exact_mod_cast zTorsoPre
    refine le_trans h1 ?_
    linarith
  have hposT : (q4.pos IkNodeID.Torso).y ≤ 999999 := by
    refine le_trans (hq4sound.1 IkNodeID.Torso) ?_
    have hc : ((upre5.foldl ubStep (qW zW9)) IkNodeID.Torso : ℝ) ≤ ((999999 : ℚ) : ℝ) :=
      Rat.cast_le.mpr hTq
    push_cast at hc
    exact hc
  have hrotT : Quat.normSq (q4.rot IkNodeID.Torso) = 1 := hq4sound.2 IkNodeID.Torso
  simp only [solveIteration]
  rw [sph_split, List.foldl_append, List.foldl_cons, ← hq4def]
  have hpost := sphFold_untouched sphPost7 (sphericalProject neckC q4) hc_not_in_post
  have hdist := distFold_untouched distance_constraints
    (sphPost7.foldl (fun q c => sphericalProject c q) (sphericalProject neckC q4))
    hc_not_in_dist
  rw [hdist.1, hpost.1]
  -- evaluate the neck projection at HeadCenter
  simp only [sphericalProject, neckC]
  rw [Function.update_noteq (by decide : IkNodeID.HeadCenter ≠ IkNodeID.Torso),
    Function.update_same]
  rw [hq4posHC, hq4rotHC, rotate_identity,
    show neck_root_in_head_center.translation = (⟨0, -(1/10), 0⟩ : Vec3A) from rfl]
  set r2 := Quat.rotate (q4.rot IkNodeID.Torso) neck_root_in_torso with hr2def
  have hlsqr2 : Vec3A.lengthSquared r2 = Vec3A.lengthSquared neck_root_in_torso := by
    rw [hr2def, Vec3A.lengthSquared_rotate, hrotT]
    ring
  have hr2y : |r2.y| ≤ 22/100 := by
    refine le_trans (abs_y_le_sqrt_lengthSquared r2) ?_
    rw [hlsqr2]
    exact s_nrt
  have hw1 := (leverWeight_y_bounds (⟨0, -(1/10), 0⟩ : Vec3A)).1
  have hw2 := (leverWeight_y_bounds r2).1
  simp only [Vec3A.add, Vec3A.sub, Vec3A.neg, Vec3A.cdiv]
  have hnum : (0:ℝ) < 1000000 + -(1/10) - ((q4.pos IkNodeID.Torso).y + r2.y) := by
    have : r2.y ≤ 22/100 := le_trans (le_abs_self r2.y) hr2y
    linarith
  have hden : (0:ℝ) <
      (leverWeight (⟨0, -(1/10), 0⟩ : Vec3A)).y + (leverWeight r2).y := by
    linarith
  have hneg : -(1000000 + -(1/10) - ((q4.pos IkNodeID.Torso).y + r2.y)) /
      ((leverWeight (⟨0, -(1/10), 0⟩ : Vec3A)).y + (leverWeight r2).y) < 0 :=
    div_neg_of_neg_of_pos (by linarith) hden
  linarith [hneg]

/-- C1: counterexample. With the headset one million meters up, the driven
HeadCenter landmark does NOT end the tick at its seeded driver transform: the
final pass's neck projection displaces it downward after the last re-seed. -/
theorem claim_C1_counterexample :
    (inverse_kinematics_system inputsBig IkState.default).node_positions
      IkNodeID.HeadCenter ≠
    (to_pos_rot (head_center_in_stage inputsBig)).1 := by
  have hy := headcenter_final_y_lt
  have hseed : (to_pos_rot (head_center_in_stage inputsBig)).1 = ⟨0, 1000000, 0⟩ := by
    rw [head_center_inputsBig, to_pos_rot_of_identity_matrix]
  have hfin : (inverse_kinematics_system inputsBig IkState.default).node_positions
      IkNodeID.HeadCenter =
      ((solveIteration (fixed_nodes inputsBig IkState.default))^[10]
        ⟨IkState.default.node_positions, IkState.default.node_rotations⟩).pos
        IkNodeID.HeadCenter := by
    simp only [inverse_kinematics_system, num_iterations]
  intro h
  rw [hfin, hseed] at h
  rw [h] at hy
  norm_num at hy

theorem final_eq_applySeeds (i : IkInputs) (s : IkState) (n : IkNodeID)
    (hs : ∀ c ∈ spherical_constraints, n ≠ c.node_a ∧ n ≠ c.node_b)
    (hd : ∀ c ∈ distance_constraints, n ≠ c.node_a ∧ n ≠ c.node_b) :
    (inverse_kinematics_system i s).node_positions n =
      (applySeeds (fixed_nodes i s)
        ((solveIteration (fixed_nodes i s))^[9]
          ⟨s.node_positions, s.node_rotations⟩)).pos n ∧
    (inverse_kinematics_system i s).node_rotations n =
      (applySeeds (fixed_nodes i s)
        ((solveIteration (fixed_nodes i s))^[9]
          ⟨s.node_positions, s.node_rotations⟩)).rot n := by
  have hfin1 : (inverse_kinematics_system i s).node_positions n =
      (((solveIteration (fixed_nodes i s))^[10])
        ⟨s.node_positions, s.node_rotations⟩).pos n := by
    simp only [inverse_kinematics_system, num_iterations]
  have hfin2 : (inverse_kinematics_system i s).node_rotations n =
      (((solveIteration (fixed_nodes i s))^[10])
        ⟨s.node_positions, s.node_rotations⟩).rot n := by
    simp only [inverse_kinematics_system, num_iterations]
  rw [hfin1, hfin2, show (10:ℕ) = 9 + 1 from rfl, Function.iterate_succ_apply']
  set p9 := (solveIteration (fixed_nodes i s))^[9] ⟨s.node_positions, s.node_rotations⟩
    with hp9def
  simp only [solveIteration]
  have hsph := sphFold_untouched spherical_constraints
    (applySeeds (fixed_nodes i s) p9) hs
  have hdist := distFold_untouched distance_constraints
    (spherical_constraints.foldl (fun q c => sphericalProject c q)
      (applySeeds (fixed_nodes i s) p9)) hd
  exact ⟨by rw [hdist.1, hsph.1], by rw [hdist.2, hsph.2]⟩

theorem applySeeds_fixed_Hmd (i : IkInputs) (s : IkState) (p : Pose) :
    (applySeeds (fixed_nodes i s) p).pos IkNodeID.Hmd = (to_pos_rot (i.hmd_in_stage)).1 ∧
    (applySeeds (fixed_nodes i s) p).rot IkNodeID.Hmd = (to_pos_rot (i.hmd_in_stage)).2 := by
  simp only [fixed_nodes, applySeeds, List.foldl_cons, List.foldl_nil]
  constructor <;> simp [Function.update_apply]

theorem applySeeds_fixed_NeckRoot (i : IkInputs) (s : IkState) (p : Pose) :
    (applySeeds (fixed_nodes i s) p).pos IkNodeID.NeckRoot = (to_pos_rot (neck_root_in_stage i)).1 ∧
    (applySeeds (fixed_nodes i s) p).rot IkNodeID.NeckRoot = (to_pos_rot (neck_root_in_stage i)).2 := by
  simp only [fixed_nodes, applySeeds, List.foldl_cons, List.foldl_nil]
  constructor <;> simp [Function.update_apply]

theorem applySeeds_fixed_Base (i : IkInputs) (s : IkState) (p : Pose) :
    (applySeeds (fixed_nodes i s) p).pos IkNodeID.Base = (to_pos_rot (base_in_stage i)).1 ∧
    (applySeeds (fixed_nodes i s) p).rot IkNodeID.Base = (to_pos_rot (base_in_stage i)).2 := by
  simp only [fixed_nodes, applySeeds, List.foldl_cons, List.foldl_nil]
  constructor <;> simp [Function.update_apply]

theorem applySeeds_fixed_BalancePoint (i : IkInputs) (s : IkState) (p : Pose) :
    (applySeeds (fixed_nodes i s) p).pos IkNodeID.BalancePoint = (to_pos_rot (Affine3A.mul (base_in_stage i) (Affine3A.fromTranslation (balance_point_in_base i s)))).1 ∧
    (applySeeds (fixed_nodes i s) p).rot IkNodeID.BalancePoint = (to_pos_rot (Affine3A.mul (base_in_stage i) (Affine3A.fromTranslation (balance_point_in_base i s)))).2 := by
  simp only [fixed_nodes, applySeeds, List.foldl_cons, List.foldl_nil]
  constructor <;> simp [Function.update_apply]

theorem applySeeds_fixed_LeftGrip (i : IkInputs) (s : IkState) (p : Pose) :
    (applySeeds (fixed_nodes i s) p).pos IkNodeID.LeftGrip = (to_pos_rot (i.left_grip_in_stage)).1 ∧
    (applySeeds (fixed_nodes i s) p).rot IkNodeID.LeftGrip = (to_pos_rot (i.left_grip_in_stage)).2 := by
  simp only [fixed_nodes, applySeeds, List.foldl_cons, List.foldl_nil]
  constructor <;> simp [Function.update_apply]

theorem applySeeds_fixed_LeftAim (i : IkInputs) (s : IkState) (p : Pose) :
    (applySeeds (fixed_nodes i s) p).pos IkNodeID.LeftAim = (to_pos_rot (i.left_aim_in_stage)).1 ∧
    (applySeeds (fixed_nodes i s) p).rot IkNodeID.LeftAim = (to_pos_rot (i.left_aim_in_stage)).2 := by
  simp only [fixed_nodes, applySeeds, List.foldl_cons, List.foldl_nil]
  constructor <;> simp [Function.update_apply]

theorem applySeeds_fixed_LeftWrist (i : IkInputs) (s : IkState) (p : Pose) :
    (applySeeds (fixed_nodes i s) p).pos IkNodeID.LeftWrist = (to_pos_rot (left_wrist_in_stage i)).1 ∧
    (applySeeds (fixed_nodes i s) p).rot IkNodeID.LeftWrist = (to_pos_rot (left_wrist_in_stage i)).2 := by
  simp only [fixed_nodes, applySeeds, List.foldl_cons, List.foldl_nil]
  constructor <;> simp [Function.update_apply]

theorem applySeeds_fixed_RightGrip (i : IkInputs) (s : IkState) (p : Pose) :
    (applySeeds (fixed_nodes i s) p).pos IkNodeID.RightGrip = (to_pos_rot (i.right_grip_in_stage)).1 ∧
    (applySeeds (fixed_nodes i s) p).rot IkNodeID.RightGrip = (to_pos_rot (i.right_grip_in_stage)).2 := by
  simp only [fixed_nodes, applySeeds, List.foldl_cons, List.foldl_nil]
  constructor <;> simp [Function.update_apply]

theorem applySeeds_fixed_RightAim (i : IkInputs) (s : IkState) (p : Pose) :
    (applySeeds (fixed_nodes i s) p).pos IkNodeID.RightAim = (to_pos_rot (i.right_aim_in_stage)).1 ∧
    (applySeeds (fixed_nodes i s) p).rot IkNodeID.RightAim = (to_pos_rot (i.right_aim_in_stage)).2 := by
  simp only [fixed_nodes, applySeeds, List.foldl_cons, List.foldl_nil]
  constructor <;> simp [Function.update_apply]

theorem applySeeds_fixed_RightWrist (i : IkInputs) (s : IkState) (p : Pose) :
    (applySeeds (fixed_nodes i s) p).pos IkNodeID.RightWrist = (to_pos_rot (right_wrist_in_stage i)).1 ∧
    (applySeeds (fixed_nodes i s) p).rot IkNodeID.RightWrist = (to_pos_rot (right_wrist_in_stage i)).2 := by
  simp only [fixed_nodes, applySeeds, List.foldl_cons, List.foldl_nil]
  constructor <;> simp [Function.update_apply]

theorem unconst_sph_Hmd :
    ∀ c ∈ spherical_constraints,
      IkNodeID.Hmd ≠ c.node_a ∧ IkNodeID.Hmd ≠ c.node_b := by
  decide

theorem unconst_dist_Hmd :
    ∀ c ∈ distance_constraints,
      IkNodeID.Hmd ≠ c.node_a ∧ IkNodeID.Hmd ≠ c.node_b := by
  decide

theorem unconst_sph_NeckRoot :
    ∀ c ∈ spherical_constraints,
      IkNodeID.NeckRoot ≠ c.node_a ∧ IkNodeID.NeckRoot ≠ c.node_b := by
  decide

theorem unconst_dist_NeckRoot :
    ∀ c ∈ distance_constraints,
      IkNodeID.NeckRoot ≠ c.node_a ∧ IkNodeID.NeckRoot ≠ c.node_b := by
  decide

theorem unconst_sph_Base :
    ∀ c ∈ spherical_constraints,
      IkNodeID.Base ≠ c.node_a ∧ IkNodeID.Base ≠ c.node_b := by
  decide

theorem unconst_dist_Base :
    ∀ c ∈ distance_constraints,
      IkNodeID.Base ≠ c.node_a ∧ IkNodeID.Base ≠ c.node_b := by
  decide

theorem unconst_sph_BalancePoint :
    ∀ c ∈ spherical_constraints,
      IkNodeID.BalancePoint ≠ c.node_a ∧ IkNodeID.BalancePoint ≠ c.node_b := by
  decide

theorem unconst_dist_BalancePoint :
    ∀ c ∈ distance_constraints,
      IkNodeID.BalancePoint ≠ c.node_a ∧ IkNodeID.BalancePoint ≠ c.node_b := by
  decide

theorem unconst_sph_LeftGrip :
    ∀ c ∈ spherical_constraints,
      IkNodeID.LeftGrip ≠ c.node_a ∧ IkNodeID.LeftGrip ≠ c.node_b := by
  decide

theorem unconst_dist_LeftGrip :
    ∀ c ∈ distance_constraints,
      IkNodeID.LeftGrip ≠ c.node_a ∧ IkNodeID.LeftGrip ≠ c.node_b := by
  decide

theorem unconst_sph_LeftAim :
    ∀ c ∈ spherical_constraints,
      IkNodeID.LeftAim ≠ c.node_a ∧ IkNodeID.LeftAim ≠ c.node_b := by
  decide

theorem unconst_dist_LeftAim :
    ∀ c ∈ distance_constraints,
      IkNodeID.LeftAim ≠ c.node_a ∧ IkNodeID.LeftAim ≠ c.node_b := by
  decide

theorem unconst_sph_LeftWrist :
    ∀ c ∈ spherical_constraints,
      IkNodeID.LeftWrist ≠ c.node_a ∧ IkNodeID.LeftWrist ≠ c.node_b := by
  decide

theorem unconst_dist_LeftWrist :
    ∀ c ∈ distance_constraints,
      IkNodeID.LeftWrist ≠ c.node_a ∧ IkNodeID.LeftWrist ≠ c.node_b := by
  decide

theorem unconst_sph_RightGrip :
    ∀ c ∈ spherical_constraints,
      IkNodeID.RightGrip ≠ c.node_a ∧ IkNodeID.RightGrip ≠ c.node_b := by
  decide

theorem unconst_dist_RightGrip :
    ∀ c ∈ distance_constraints,
      IkNodeID.RightGrip ≠ c.node_a ∧ IkNodeID.RightGrip ≠ c.node_b := by
  decide

theorem unconst_sph_RightAim :
    ∀ c ∈ spherical_constraints,
      IkNodeID.RightAim ≠ c.node_a ∧ IkNodeID.RightAim ≠ c.node_b := by
  decide

theorem unconst_dist_RightAim :
    ∀ c ∈ distance_constraints,
      IkNodeID.RightAim ≠ c.node_a ∧ IkNodeID.RightAim ≠ c.node_b := by
  decide

theorem unconst_sph_RightWrist :
    ∀ c ∈ spherical_constraints,
      IkNodeID.RightWrist ≠ c.node_a ∧ IkNodeID.RightWrist ≠ c.node_b := by
  decide

theorem unconst_dist_RightWrist :
    ∀ c ∈ distance_constraints,
      IkNodeID.RightWrist ≠ c.node_a ∧ IkNodeID.RightWrist ≠ c.node_b := by
  decide

/-- C1 (amended): the driven landmarks that appear in no constraint (Hmd,
NeckRoot, Base, BalancePoint, grips, aims and wrists) do end every tick at
exactly their seeded driver transforms; but constrained driven landmarks
(HeadCenter, palms, feet) can be displaced from their seeds by the constraint
projections that run after the final re-seed, as claim_C1_counterexample shows. -/
theorem claim_C1_amended_unconstrained_landmarks (i : IkInputs) (s : IkState) :
    (inverse_kinematics_system i s).node_positions IkNodeID.Hmd =
      (to_pos_rot (i.hmd_in_stage)).1 ∧
    (inverse_kinematics_system i s).node_rotations IkNodeID.Hmd =
      (to_pos_rot (i.hmd_in_stage)).2 ∧
    (inverse_kinematics_system i s).node_positions IkNodeID.NeckRoot =
      (to_pos_rot (neck_root_in_stage i)).1 ∧
    (inverse_kinematics_system i s).node_rotations IkNodeID.NeckRoot =
      (to_pos_rot (neck_root_in_stage i)).2 ∧
    (inverse_kinematics_system i s).node_positions IkNodeID.Base =
      (to_pos_rot (base_in_stage i)).1 ∧
    (inverse_kinematics_system i s).node_rotations IkNodeID.Base =
      (to_pos_rot (base_in_stage i)).2 ∧
    (inverse_kinematics_system i s).node_positions IkNodeID.BalancePoint =
      (to_pos_rot (Affine3A.mul (base_in_stage i) (Affine3A.fromTranslation (balance_point_in_base i s)))).1 ∧
    (inverse_kinematics_system i s).node_rotations IkNodeID.BalancePoint =
      (to_pos_rot (Affine3A.mul (base_in_stage i) (Affine3A.fromTranslation (balance_point_in_base i s)))).2 ∧
    (inverse_kinematics_system i s).node_positions IkNodeID.LeftGrip =
      (to_pos_rot (i.left_grip_in_stage)).1 ∧
    (inverse_kinematics_system i s).node_rotations IkNodeID.LeftGrip =
      (to_pos_rot (i.left_grip_in_stage)).2 ∧
    (inverse_kinematics_system i s).node_positions IkNodeID.LeftAim =
      (to_pos_rot (i.left_aim_in_stage)).1 ∧
    (inverse_kinematics_system i s).node_rotations IkNodeID.LeftAim =
      (to_pos_rot (i.left_aim_in_stage)).2 ∧
    (inverse_kinematics_system i s).node_positions IkNodeID.LeftWrist =
      (to_pos_rot (left_wrist_in_stage i)).1 ∧
    (inverse_kinematics_system i s).node_rotations IkNodeID.LeftWrist =
      (to_pos_rot (left_wrist_in_stage i)).2 ∧
    (inverse_kinematics_system i s).node_positions IkNodeID.RightGrip =
      (to_pos_rot (i.right_grip_in_stage)).1 ∧
    (inverse_kinematics_system i s).node_rotations IkNodeID.RightGrip =
      (to_pos_rot (i.right_grip_in_stage)).2 ∧
    (inverse_kinematics_system i s).node_positions IkNodeID.RightAim =
      (to_pos_rot (i.right_aim_in_stage)).1 ∧
    (inverse_kinematics_system i s).node_rotations IkNodeID.RightAim =
      (to_pos_rot (i.right_aim_in_stage)).2 ∧
    (inverse_kinematics_system i s).node_positions IkNodeID.RightWrist =
      (to_pos_rot (right_wrist_in_stage i)).1 ∧
    (inverse_kinematics_system i s).node_rotations IkNodeID.RightWrist =
      (to_pos_rot (right_wrist_in_stage i)).2 := by
  refine ⟨?_, ?_, ?_, ?_, ?_, ?_, ?_, ?_, ?_, ?_, ?_, ?_, ?_, ?_, ?_, ?_, ?_, ?_, ?_, ?_⟩
  · exact (final_eq_applySeeds i s IkNodeID.Hmd unconst_sph_Hmd
      unconst_dist_Hmd).1.trans (applySeeds_fixed_Hmd i s _).1
  · exact (final_eq_applySeeds i s IkNodeID.Hmd unconst_sph_Hmd
      unconst_dist_Hmd).2.trans (applySeeds_fixed_Hmd i s _).2
  · exact (final_eq_applySeeds i s IkNodeID.NeckRoot unconst_sph_NeckRoot
      unconst_dist_NeckRoot).1.trans (applySeeds_fixed_NeckRoot i s _).1
  · exact (final_eq_applySeeds i s IkNodeID.NeckRoot unconst_sph_NeckRoot
      unconst_dist_NeckRoot).2.trans (applySeeds_fixed_NeckRoot i s _).2
  · exact (final_eq_applySeeds i s IkNodeID.Base unconst_sph_Base
      unconst_dist_Base).1.trans (applySeeds_fixed_Base i s _).1
  · exact (final_eq_applySeeds i s IkNodeID.Base unconst_sph_Base
      unconst_dist_Base).2.trans (applySeeds_fixed_Base i s _).2
  · exact (final_eq_applySeeds i s IkNodeID.BalancePoint unconst_sph_BalancePoint
      unconst_dist_BalancePoint).1.trans (applySeeds_fixed_BalancePoint i s _).1
  · exact (final_eq_applySeeds i s IkNodeID.BalancePoint unconst_sph_BalancePoint
      unconst_dist_BalancePoint).2.trans (applySeeds_fixed_BalancePoint i s _).2
  · exact (final_eq_applySeeds i s IkNodeID.LeftGrip unconst_sph_LeftGrip
      unconst_dist_LeftGrip).1.trans (applySeeds_fixed_LeftGrip i s _).1
  · exact (final_eq_applySeeds i s IkNodeID.LeftGrip unconst_sph_LeftGrip
      unconst_dist_LeftGrip).2.trans (applySeeds_fixed_LeftGrip i s _).2
  · exact (final_eq_applySeeds i s IkNodeID.LeftAim unconst_sph_LeftAim
      unconst_dist_LeftAim).1.trans (applySeeds_fixed_LeftAim i s _).1
  · exact (final_eq_applySeeds i s IkNodeID.LeftAim unconst_sph_LeftAim
      unconst_dist_LeftAim).2.trans (applySeeds_fixed_LeftAim i s _).2
  · exact (final_eq_applySeeds i s IkNodeID.LeftWrist unconst_sph_LeftWrist
      unconst_dist_LeftWrist).1.trans (applySeeds_fixed_LeftWrist i s _).1
  · exact (final_eq_applySeeds i s IkNodeID.LeftWrist unconst_sph_LeftWrist
      unconst_dist_LeftWrist).2.trans (applySeeds_fixed_LeftWrist i s _).2
  · exact (final_eq_applySeeds i s IkNodeID.RightGrip unconst_sph_RightGrip
      unconst_dist_RightGrip).1.trans (applySeeds_fixed_RightGrip i s _).1
  · exact (final_eq_applySeeds i s IkNodeID.RightGrip unconst_sph_RightGrip
      unconst_dist_RightGrip).2.trans (applySeeds_fixed_RightGrip i s _).2
  · exact (final_eq_applySeeds i s IkNodeID.RightAim unconst_sph_RightAim
      unconst_dist_RightAim).1.trans (applySeeds_fixed_RightAim i s _).1
  · exact (final_eq_applySeeds i s IkNodeID.RightAim unconst_sph_RightAim
      unconst_dist_RightAim).2.trans (applySeeds_fixed_RightAim i s _).2
  · exact (final_eq_applySeeds i s IkNodeID.RightWrist unconst_sph_RightWrist
      unconst_dist_RightWrist).1.trans (applySeeds_fixed_RightWrist i s _).1
  · exact (final_eq_applySeeds i s IkNodeID.RightWrist unconst_sph_RightWrist
      unconst_dist_RightWrist).2.trans (applySeeds_fixed_RightWrist i s _).2

end C1Concrete

end

end Hotham
